import Mathlib

/-!
# Hero slider (`src/slider.js`): a shallow embedding

The class `HeroSlider` is embedded as a record of its fields together with the
part of the host document it reads and writes (the slide and dot elements, the
live region, the interval timers).  Every method is a function from the state
before the call to the state after it, paired with the way the call completed:
a JavaScript method that throws keeps the writes it made before the throw, so
the state after the call is reported in both cases.

JavaScript numbers are modelled by `Int` (every index the slider handles is an
integer); `%` is the truncating remainder `Int.tmod`.
-/

namespace HeroSlider

/-! ## Data model -/

/-- One entry of `this.slidesData` (lines 33-55). -/
structure SlideData where
  image : String
  title : String
  subtitle : String
  cta : String
  ctaLink : String
  deriving DecidableEq, Repr

/-- A `.slide` element: whether its class list holds `active`, and its
`aria-label`. -/
structure SlideEl where
  active : Bool
  ariaLabel : String
  deriving DecidableEq, Repr

/-- A `.dot` button: whether its class list holds `active`, its `data-slide`
index and its `aria-selected` attribute. -/
structure DotEl where
  active : Bool
  dataSlide : Nat
  ariaSelected : String
  deriving DecidableEq, Repr

/-- The writes the slider makes to the document, in the order it makes them. -/
inductive DomOp where
  | slideClassRemove (i : Int)
  | slideClassAdd (i : Int)
  | dotClassRemove (i : Int)
  | dotClassAdd (i : Int)
  | dotSetAriaSelected (i : Int) (value : String)
  | liveRegionCreate
  | liveRegionSetText (text : String)
  | liveRegionRemove
  deriving DecidableEq, Repr

/-- The errors a method of the slider can throw. -/
inductive JsError where
  | typeError
  deriving DecidableEq, Repr

/-- The fields of a `HeroSlider` instance, the two closure variables of
`setupTouchEvents`, and the host state the slider acts on. -/
structure State where
  /-- The field `this.slidesData`. -/
  slidesData : List SlideData
  /-- The node list `this.slides`. -/
  slides : List SlideEl
  /-- The node list `this.dots`. -/
  dots : List DotEl
  /-- The field `this.currentSlide`. -/
  currentSlide : Int
  /-- The field `this.autoplayInterval`: `none` is `null`, `some h` a timer handle. -/
  autoplayInterval : Option Nat
  /-- The field `this.autoplayDelay`. -/
  autoplayDelay : Nat
  /-- The field `this.isPlaying`. -/
  isPlaying : Bool
  /-- The field `this.isPaused`. -/
  isPaused : Bool
  /-- The closure variable `startX` of `setupTouchEvents`. -/
  startX : Int
  /-- The closure variable `endX` of `setupTouchEvents`. -/
  endX : Int
  /-- Host: text of the element with id `slider-live-region`, `none` when the
  document has no such element. -/
  liveRegion : Option String
  /-- Host: handles of the interval timers that are scheduled. -/
  liveTimers : List Nat
  /-- Host: the handle the next `setInterval` returns. -/
  nextTimerId : Nat
  /-- Host: the document writes made so far, oldest first. -/
  domLog : List DomOp
  deriving DecidableEq, Repr

/-- The state after a call, and the error it threw, if any. -/
structure Result where
  state : State
  threw : Option JsError
  deriving DecidableEq, Repr

/-- A call that returned normally. -/
def Result.ok (s : State) : Result := ⟨s, none⟩

/-- A call that threw a `TypeError` (a property read on `undefined`). -/
def Result.typeError (s : State) : Result := ⟨s, some JsError.typeError⟩

/-- Sequencing of statements: the rest runs only if nothing was thrown. -/
def Result.andThen (r : Result) (f : State → Result) : Result :=
  match r.threw with
  | none => f r.state
  | some _ => r

/-! ## Node lists -/

/-- The element `xs[i]` of a node list: `none` is `undefined`. -/
def nodeAt {α : Type} (xs : List α) (i : Int) : Option α :=
  if 0 ≤ i then xs[i.toNat]? else none

/-- The node list after element `i` has been changed by `f`; `none` when `xs[i]`
is `undefined`. -/
def updateAt {α : Type} (xs : List α) (i : Int) (f : α → α) : Option (List α) :=
  match nodeAt xs i with
  | none => none
  | some _ => some (List.modify f i.toNat xs)

/-- The number of slides, `this.slides.length`. -/
def slideCount (s : State) : Int := (s.slides.length : Int)

/-! ## DOM statements of `goToSlide` -/

/-- The statement `this.slides[i].classList.remove('active')`. -/
def slideClassListRemove (s : State) (i : Int) : Result :=
  match updateAt s.slides i (fun e => { e with active := false }) with
  | none => Result.typeError s
  | some xs => Result.ok { s with slides := xs, domLog := s.domLog ++ [DomOp.slideClassRemove i] }

/-- The statement `this.slides[i].classList.add('active')`. -/
def slideClassListAdd (s : State) (i : Int) : Result :=
  match updateAt s.slides i (fun e => { e with active := true }) with
  | none => Result.typeError s
  | some xs => Result.ok { s with slides := xs, domLog := s.domLog ++ [DomOp.slideClassAdd i] }

/-- The statement `this.dots[i].classList.remove('active')`. -/
def dotClassListRemove (s : State) (i : Int) : Result :=
  match updateAt s.dots i (fun e => { e with active := false }) with
  | none => Result.typeError s
  | some xs => Result.ok { s with dots := xs, domLog := s.domLog ++ [DomOp.dotClassRemove i] }

/-- The statement `this.dots[i].classList.add('active')`. -/
def dotClassListAdd (s : State) (i : Int) : Result :=
  match updateAt s.dots i (fun e => { e with active := true }) with
  | none => Result.typeError s
  | some xs => Result.ok { s with dots := xs, domLog := s.domLog ++ [DomOp.dotClassAdd i] }

/-- The statement `this.dots[i].setAttribute('aria-selected', value)`. -/
def dotSetAriaSelected (s : State) (i : Int) (value : String) : Result :=
  match updateAt s.dots i (fun e => { e with ariaSelected := value }) with
  | none => Result.typeError s
  | some xs =>
    Result.ok { s with dots := xs, domLog := s.domLog ++ [DomOp.dotSetAriaSelected i value] }

/-! ## Accessibility -/

/-- The text built on line 265. -/
def announcementText (s : State) : String :=
  "Slide " ++ toString (s.currentSlide + 1) ++ " of " ++ toString s.slides.length

/-- The method `announceSlideChange` (lines 264-283): the live region is created when the
document has none, then its text is set. -/
def announceSlideChange (s : State) : Result :=
  let announcement := announcementText s
  match s.liveRegion with
  | none =>
    Result.ok { s with
      liveRegion := some announcement
      domLog := s.domLog ++ [DomOp.liveRegionCreate, DomOp.liveRegionSetText announcement] }
  | some _ =>
    Result.ok { s with
      liveRegion := some announcement
      domLog := s.domLog ++ [DomOp.liveRegionSetText announcement] }

/-! ## Navigation methods -/

/-- The method `goToSlide` (lines 176-193). -/
def goToSlide (s : State) (index : Int) : Result :=
  if index = s.currentSlide then Result.ok s
  else
    let cur := s.currentSlide
    (slideClassListRemove s cur).andThen fun s1 =>
    (slideClassListAdd s1 index).andThen fun s2 =>
    (dotClassListRemove s2 cur).andThen fun s3 =>
    (dotSetAriaSelected s3 cur "false").andThen fun s4 =>
    (dotClassListAdd s4 index).andThen fun s5 =>
    (dotSetAriaSelected s5 index "true").andThen fun s6 =>
    announceSlideChange { s6 with currentSlide := index }

/-- The method `nextSlide` (lines 168-170).  With no slide at all JavaScript
computes `NaN` where `Int.tmod` gives `currentSlide + 1`; both differ from
`currentSlide`, and `goToSlide` then throws on `this.slides[this.currentSlide]`
either way. -/
def nextSlide (s : State) : Result :=
  goToSlide s ((s.currentSlide + 1).tmod (slideCount s))

/-- The method `previousSlide` (lines 172-174); the remark on `nextSlide` about
a slider without slides applies here too. -/
def previousSlide (s : State) : Result :=
  goToSlide s ((s.currentSlide - 1 + slideCount s).tmod (slideCount s))

/-! ## Autoplay methods -/

/-- Host `clearInterval(h)`: the timer with handle `h` is no longer scheduled. -/
def clearInterval (s : State) (h : Nat) : State :=
  { s with liveTimers := s.liveTimers.filter (fun t => t != h) }

/-- Host `setInterval(callback, delay)`: a fresh handle is scheduled and returned.
Every timer of the slider runs the same callback, `autoplayTick`. -/
def setInterval (s : State) : State × Nat :=
  ({ s with liveTimers := s.liveTimers ++ [s.nextTimerId], nextTimerId := s.nextTimerId + 1 },
    s.nextTimerId)

/-- Truthiness of `this.autoplayInterval`: `null` and `0` are falsy. -/
def handleTruthy : Option Nat → Bool
  | none => false
  | some h => h != 0

/-- The method `startAutoplay` (lines 196-206). -/
def startAutoplay (s : State) : Result :=
  let s1 :=
    match s.autoplayInterval with
    | some h => if handleTruthy (some h) then clearInterval s h else s
    | none => s
  let (s2, h) := setInterval s1
  Result.ok { s2 with autoplayInterval := some h }

/-- The callback given to `setInterval` on lines 201-205: one timer tick. -/
def autoplayTick (s : State) : Result :=
  if !s.isPaused then nextSlide s else Result.ok s

/-- The method `pauseAutoplay` (lines 208-210). -/
def pauseAutoplay (s : State) : Result :=
  Result.ok { s with isPaused := true }

/-- The method `resumeAutoplay` (lines 212-216). -/
def resumeAutoplay (s : State) : Result :=
  if s.isPlaying then Result.ok { s with isPaused := false } else Result.ok s

/-- The method `toggleAutoplay` (lines 218-232).  No line of the class assigns
`this.playPauseBtn` and the markup of `createSliderStructure` has no play/pause
button, so `this.playPauseBtn` is `undefined` and reading `.querySelector` from
it throws, after both flags have been written. -/
def toggleAutoplay (s : State) : Result :=
  let s1 := { s with isPlaying := !s.isPlaying }
  if s1.isPlaying then
    Result.typeError { s1 with isPaused := false }
  else
    Result.typeError { s1 with isPaused := true }

/-! ## Keyboard navigation -/

/-- What `handleKeyboard` reads from and writes to a `keydown` event. -/
structure KeyEvent where
  /-- The property `e.key`. -/
  key : String
  /-- Whether `e.target.classList.contains('slider-playpause')`. -/
  targetIsPlayPause : Bool
  /-- Whether `e.preventDefault()` has been called. -/
  defaultPrevented : Bool
  deriving DecidableEq, Repr

/-- The call `e.preventDefault()`. -/
def KeyEvent.preventDefault (e : KeyEvent) : KeyEvent :=
  { e with defaultPrevented := true }

/-- The method `handleKeyboard` (lines 235-261): the state after the call, how it
completed, and the event after the call. -/
def handleKeyboard (s : State) (e : KeyEvent) : Result × KeyEvent :=
  if e.key = "ArrowLeft" then (previousSlide s, e.preventDefault)
  else if e.key = "ArrowRight" then (nextSlide s, e.preventDefault)
  else if e.key = " " ∨ e.key = "Enter" then
    if e.targetIsPlayPause then (toggleAutoplay s, e.preventDefault)
    else (Result.ok s, e)
  else if e.key = "Home" then (goToSlide s 0, e.preventDefault)
  else if e.key = "End" then (goToSlide s (slideCount s - 1), e.preventDefault)
  else (Result.ok s, e)

/-! ## Touch events -/

/-- The swipe threshold of `setupTouchEvents` (line 147). -/
def threshold : Int := 50

/-- The `touchstart` listener (lines 149-151). -/
def onTouchStart (s : State) (clientX : Int) : Result :=
  Result.ok { s with startX := clientX }

/-- The `touchend` listener (lines 153-164). -/
def onTouchEnd (s : State) (clientX : Int) : Result :=
  let s1 := { s with endX := clientX }
  let diff := s1.startX - s1.endX
  if |diff| > threshold then
    if diff > 0 then nextSlide s1 else previousSlide s1
  else Result.ok s1

/-! ## Teardown -/

/-- The method `destroy` (lines 286-295). -/
def destroy (s : State) : Result :=
  let s1 :=
    match s.autoplayInterval with
    | some h => if handleTruthy (some h) then clearInterval s h else s
    | none => s
  match s1.liveRegion with
  | some _ => Result.ok { s1 with liveRegion := none, domLog := s1.domLog ++ [DomOp.liveRegionRemove] }
  | none => Result.ok s1

/-! ## Construction -/

/-- The slide descriptors written out on lines 33-55. -/
def defaultSlidesData : List SlideData :=
  [ { image := "images/slider2.jpeg", title := "Premium Jerseys",
      subtitle := "Professional quality jerseys for every sport",
      cta := "Shop Jerseys", ctaLink := "#products" },
    { image := "images/slider3.png", title := "Sports Jerseys Collection",
      subtitle := "Authentic team jerseys and custom designs",
      cta := "Explore Collection", ctaLink := "#products" },
    { image := "images/slider1.jpeg", title := "Training Accessories",
      subtitle := "Take your training to the next level",
      cta := "Get Started", ctaLink := "#products" } ]

/-- The `.slide` element the template of lines 62-73 builds for position `index`
of `n` descriptors. -/
def mkSlide (n index : Nat) : SlideEl :=
  { active := index == 0
    ariaLabel := "Slide " ++ toString (index + 1) ++ " of " ++ toString n }

/-- The `.dot` button the template of lines 91-98 builds for position `index`. -/
def mkDot (index : Nat) : DotEl :=
  { active := index == 0
    dataSlide := index
    ariaSelected := if index == 0 then "true" else "false" }

/-- The method `createSliderStructure` (lines 31-109), for the descriptor list
`data` in place of the literal of lines 33-55: one slide and one dot per
descriptor, cached in `this.slides` and `this.dots`. -/
def createSliderStructure (s : State) (data : List SlideData) : Result :=
  Result.ok { s with
    slidesData := data
    slides := (List.range data.length).map (mkSlide data.length)
    dots := (List.range data.length).map mkDot }

/-- The fields set by the constructor on lines 12-17, in a document that has no
live region and no scheduled timer. -/
def initialFields : State :=
  { slidesData := []
    slides := []
    dots := []
    currentSlide := 0
    autoplayInterval := none
    autoplayDelay := 5000
    isPlaying := true
    isPaused := false
    startX := 0
    endX := 0
    liveRegion := none
    liveTimers := []
    nextTimerId := 1
    domLog := [] }

/-- The method `init` (lines 23-28); `setupEventListeners` only registers the
listeners that `dispatch` below runs. -/
def init (s : State) (data : List SlideData) : Result :=
  (createSliderStructure s data).andThen fun s1 => startAutoplay s1

/-- The constructor (lines 5-20) when the container exists, for the descriptor
list `data`. -/
def construct (data : List SlideData) : Result :=
  init initialFields data

/-- The slider built by `new HeroSlider('#hero')` on a page with a `#hero`
element. -/
def heroSlider : State := (construct defaultSlidesData).state

/-! ## Input channels -/

/-- The events the listeners of `setupEventListeners` and the autoplay timer
react to. -/
inductive Event where
  /-- Click on the previous control (line 114). -/
  | prevClick
  /-- Click on the next control (line 115). -/
  | nextClick
  /-- Click on the dot at position `index` (lines 118-120). -/
  | dotClick (index : Nat)
  /-- Pointer enters the container (line 124). -/
  | mouseEnter
  /-- Pointer leaves the container (line 125). -/
  | mouseLeave
  /-- Key pressed inside the container (line 128). -/
  | keydown (e : KeyEvent)
  /-- Touch begins on the slides container. -/
  | touchStart (clientX : Int)
  /-- Touch ends on the slides container. -/
  | touchEnd (clientX : Int)
  /-- The page became hidden (`hidden = true`) or visible (lines 134-140). -/
  | visibilityChange (hidden : Bool)
  /-- The interval timer with handle `handle` fires. -/
  | timer (handle : Nat)
  deriving DecidableEq, Repr

/-- The `visibilitychange` listener (lines 134-140). -/
def onVisibilityChange (s : State) (hidden : Bool) : Result :=
  if hidden then pauseAutoplay s
  else if s.isPlaying then resumeAutoplay s
  else Result.ok s

/-- The listener an event runs.  A dot has a listener only if it exists, and a
timer fires only while it is scheduled. -/
def dispatch (s : State) : Event → Result
  | Event.prevClick => previousSlide s
  | Event.nextClick => nextSlide s
  | Event.dotClick index => if index < s.dots.length then goToSlide s index else Result.ok s
  | Event.mouseEnter => pauseAutoplay s
  | Event.mouseLeave => resumeAutoplay s
  | Event.keydown e => (handleKeyboard s e).1
  | Event.touchStart x => onTouchStart s x
  | Event.touchEnd x => onTouchEnd s x
  | Event.visibilityChange hidden => onVisibilityChange s hidden
  | Event.timer handle => if handle ∈ s.liveTimers then autoplayTick s else Result.ok s

/-! ## Well-formed states and runs -/

/-- A slider as `createSliderStructure` leaves it: as many dots as slides, and
`currentSlide` the position of one of them. -/
def WellFormed (s : State) : Prop :=
  s.dots.length = s.slides.length ∧ 0 ≤ s.currentSlide ∧ s.currentSlide < slideCount s

instance (s : State) : Decidable (WellFormed s) := by
  unfold WellFormed; infer_instance

/-- The state after `f` has been called `k` times in a row; an error thrown by
one call does not stop the next one from being made. -/
def callTimes (f : State → Result) : Nat → State → State
  | 0, s => s
  | k + 1, s => (f (callTimes f k s)).state

/-- The `.slide` class writes and `.dot` writes of lines 180-187 when the slider
moves from position `c` to position `m`. -/
def renderOps (c m : Int) : List DomOp :=
  [DomOp.slideClassRemove c, DomOp.slideClassAdd m, DomOp.dotClassRemove c,
   DomOp.dotSetAriaSelected c "false", DomOp.dotClassAdd m, DomOp.dotSetAriaSelected m "true"]

/-- The live-region writes of one `announceSlideChange` call with text `text`:
the region is created first when the document has none. -/
def announceOps (region : Option String) (text : String) : List DomOp :=
  match region with
  | none => [DomOp.liveRegionCreate, DomOp.liveRegionSetText text]
  | some _ => [DomOp.liveRegionSetText text]

/-- The state `goToSlide` leaves when it moves a slider from position `c` to
another position `m`, both in range. -/
def movedTo (s : State) (c m : Nat) : State :=
  { s with
    slides :=
      List.modify (fun e => { e with active := true }) m
        (List.modify (fun e => { e with active := false }) c s.slides)
    dots :=
      List.modify (fun e => { e with ariaSelected := "true" }) m
        (List.modify (fun e => { e with active := true }) m
          (List.modify (fun e => { e with ariaSelected := "false" }) c
            (List.modify (fun e => { e with active := false }) c s.dots)))
    currentSlide := (m : Int)
    liveRegion := some ("Slide " ++ toString ((m : Int) + 1) ++ " of " ++ toString s.slides.length)
    domLog :=
      s.domLog ++ (renderOps c m ++
        announceOps s.liveRegion
          ("Slide " ++ toString ((m : Int) + 1) ++ " of " ++ toString s.slides.length)) }

/-- A call of one of the two ring navigation methods. -/
inductive NavCall where
  | next
  | previous
  deriving DecidableEq, Repr

/-- The method a navigation call runs. -/
def NavCall.run (s : State) : NavCall → Result
  | NavCall.next => nextSlide s
  | NavCall.previous => previousSlide s

/-- The state after a sequence of navigation calls, made in order. -/
def runNav (s : State) : List NavCall → State
  | [] => s
  | c :: cs => runNav (c.run s).state cs

/-- One thing that can happen to a constructed slider: an event reaches one of
its listeners, or a script calls one of its methods. -/
inductive Step where
  | event (e : Event)
  | callNextSlide
  | callPreviousSlide
  | callGoToSlide (index : Int)
  | callStartAutoplay
  | callPauseAutoplay
  | callResumeAutoplay
  | callToggleAutoplay
  | callDestroy
  deriving DecidableEq, Repr

/-- The listener or method a step runs. -/
def Step.run (s : State) : Step → Result
  | Step.event e => dispatch s e
  | Step.callNextSlide => nextSlide s
  | Step.callPreviousSlide => previousSlide s
  | Step.callGoToSlide index => goToSlide s index
  | Step.callStartAutoplay => startAutoplay s
  | Step.callPauseAutoplay => pauseAutoplay s
  | Step.callResumeAutoplay => resumeAutoplay s
  | Step.callToggleAutoplay => toggleAutoplay s
  | Step.callDestroy => destroy s

/-- The state after a sequence of steps, taken in order; a step that throws
leaves the state it reached and the next step runs on it. -/
def runSteps (s : State) : List Step → State
  | [] => s
  | st :: sts => runSteps (st.run s).state sts

/-- A step whose `goToSlide` target, if it is a direct `goToSlide` call, is a
position of one of `n` slides. -/
def Step.InRange (n : Nat) : Step → Prop
  | Step.callGoToSlide index => 0 ≤ index ∧ index < (n : Int)
  | _ => True

instance (n : Nat) (st : Step) : Decidable (Step.InRange n st) := by
  cases st <;> unfold Step.InRange <;> infer_instance

/-- Exactly one slide and exactly one dot carry the class `active`, exactly one
dot has `aria-selected` equal to `true`, and they are the ones at position
`currentSlide`. -/
def RenderInvariant (s : State) : Prop :=
  s.slides.countP (fun e => e.active) = 1 ∧
  s.dots.countP (fun d => d.active) = 1 ∧
  s.dots.countP (fun d => d.ariaSelected == "true") = 1 ∧
  (nodeAt s.slides s.currentSlide).map (fun e => e.active) = some true ∧
  (nodeAt s.dots s.currentSlide).map (fun d => d.active) = some true ∧
  (nodeAt s.dots s.currentSlide).map (fun d => d.ariaSelected) = some "true"

instance (s : State) : Decidable (RenderInvariant s) := by
  unfold RenderInvariant; infer_instance

/-- Position by position: the slide and the dot at `k` are active, and the dot
selected, exactly when `k` is `currentSlide`. -/
def Rendered (s : State) : Prop :=
  WellFormed s ∧ ∀ k : Nat, k < s.slides.length →
    (s.slides[k]?).map (fun e => e.active) = some (decide ((k : Int) = s.currentSlide)) ∧
    (s.dots[k]?).map (fun d => d.active) = some (decide ((k : Int) = s.currentSlide)) ∧
    (s.dots[k]?).map (fun d => d.ariaSelected)
      = some (if (k : Int) = s.currentSlide then "true" else "false")

/-- Autoplay that is switched off is also paused. -/
def FlagInvariant (s : State) : Prop :=
  s.isPlaying = false → s.isPaused = true

instance (s : State) : Decidable (FlagInvariant s) := by
  unfold FlagInvariant; infer_instance

/-- The two autoplay flags of `s'` are those of `s`. -/
def SameFlags (s s' : State) : Prop :=
  s'.isPlaying = s.isPlaying ∧ s'.isPaused = s.isPaused

/-- The state after `pauseAutoplay()`, then `k` timer ticks, then
`resumeAutoplay()`. -/
def pausedThenResumed (s : State) (k : Nat) : State :=
  (resumeAutoplay (callTimes autoplayTick k (pauseAutoplay s).state)).state

/-- The state after a sequence of events has reached the listeners, in order. -/
def runEvents (s : State) : List Event → State
  | [] => s
  | e :: es => runEvents (dispatch s e).state es

/-- The timers of the slider as the host schedules them: handles are positive
and below the next handle, and at most one timer is scheduled, the one whose
handle `autoplayInterval` stores. -/
def TimerInvariant (s : State) : Prop :=
  0 < s.nextTimerId ∧ (∀ h ∈ s.liveTimers, h < s.nextTimerId) ∧
  (s.liveTimers = [] ∨
    (handleTruthy s.autoplayInterval = true ∧ s.liveTimers.map some = [s.autoplayInterval]))

instance (s : State) : Decidable (TimerInvariant s) := by
  unfold TimerInvariant; infer_instance

/-- Everything `goToSlide` never writes is in `s'` as it is in `s`. -/
def NavFrame (s s' : State) : Prop :=
  s'.slidesData = s.slidesData ∧ s'.autoplayInterval = s.autoplayInterval ∧
  s'.autoplayDelay = s.autoplayDelay ∧ s'.isPlaying = s.isPlaying ∧
  s'.isPaused = s.isPaused ∧ s'.startX = s.startX ∧ s'.endX = s.endX ∧
  s'.liveTimers = s.liveTimers ∧ s'.nextTimerId = s.nextTimerId

/-- The timer handle of `s'`, and the timers scheduled, are those of `s`. -/
def SameTimers (s s' : State) : Prop :=
  s'.autoplayInterval = s.autoplayInterval ∧ s'.liveTimers = s.liveTimers ∧
  s'.nextTimerId = s.nextTimerId

/-- Two states show the same slider: same slides and dots, same `currentSlide`,
same autoplay flags.  The live region, the timers and the log of document
writes may differ. -/
def Agree (s t : State) : Prop :=
  t.slides = s.slides ∧ t.dots = s.dots ∧ t.currentSlide = s.currentSlide ∧
  t.isPlaying = s.isPlaying ∧ t.isPaused = s.isPaused

instance (s t : State) : Decidable (Agree s t) := by
  unfold Agree; infer_instance

/-- Two calls completed the same way and left states that show the same slider. -/
def ResultAgree (r q : Result) : Prop :=
  Agree r.state q.state ∧ q.threw = r.threw

instance (r q : Result) : Decidable (ResultAgree r q) := by
  unfold ResultAgree; infer_instance

/-- A line written to the console. -/
inductive ConsoleMsg where
  | warn (text : String)
  | log (text : String)
  deriving DecidableEq, Repr

/-- What `new HeroSlider(containerSelector)` leaves behind. -/
structure Constructed where
  /-- Whether `this.container` is an element; `false` is `null`. -/
  containerFound : Bool
  /-- The fields assigned from line 12 on, with the host state; `none` when the
  constructor returned before assigning any of them. -/
  slider : Option State
  /-- The lines written to the console. -/
  console : List ConsoleMsg
  /-- The error the constructor threw, if any. -/
  threw : Option JsError
  deriving DecidableEq, Repr

/-- The constructor (lines 5-20): `containerExists` tells whether
`document.querySelector(containerSelector)` finds an element. -/
def newHeroSlider (containerExists : Bool) (data : List SlideData) : Constructed :=
  if !containerExists then
    { containerFound := false
      slider := none
      console := [ConsoleMsg.warn "Slider container not found"]
      threw := none }
  else
    let r := init initialFields data
    { containerFound := true
      slider := some r.state
      console := if r.threw.isNone then [ConsoleMsg.log "Hero slider initialized"] else []
      threw := r.threw }

/-- Whether an event is the firing of an interval timer. -/
def Event.isTimer : Event → Bool
  | Event.timer _ => true
  | _ => false

end HeroSlider

/-!
# Cart, checkout, registration and product page
(`src/app.js`, `src/cart.js`, `src/auth.js`, `src/product-details.js`)

Prices and totals are rational numbers: the arithmetic of the cart is embedded
exactly, without the rounding of floating point.  Quantities are integers.
A value kept in `localStorage` is modelled by the value `JSON.parse` gives back
for it.
-/

namespace Shop

/-! ## Objects keyed by product id -/

/-- A JavaScript object whose keys are product ids, as the list of its entries
in the order `Object.entries` gives them (integer keys, ascending). -/
abbrev JsObject (α : Type) := List (Nat × α)

/-- The property read `o[k]`: `none` is `undefined`. -/
def objGet {α : Type} (o : JsObject α) (k : Nat) : Option α :=
  List.lookup k o

/-- The assignment `o[k] = v`. -/
def objSet {α : Type} : JsObject α → Nat → α → JsObject α
  | [], k, v => [(k, v)]
  | (k', v') :: rest, k, v =>
    if k < k' then (k, v) :: (k', v') :: rest
    else if k = k' then (k, v) :: rest
    else (k', v') :: objSet rest k v

/-- The statement `delete o[k]`. -/
def objDelete {α : Type} (o : JsObject α) (k : Nat) : JsObject α :=
  o.filter (fun e => e.1 != k)

/-! ## Data model -/

/-- An entry of `products.json`, with the fields the cart and the product page
read. -/
structure Product where
  id : Nat
  name : String
  price : ℚ
  inStock : Bool
  deriving DecidableEq, Repr

/-- An element of the array `getCartItems` returns (lines 121-126 of `cart.js`). -/
structure CartItem where
  id : Nat
  product : Product
  quantity : Int
  subtotal : ℚ
  deriving DecidableEq, Repr

/-- An order as `completeOrder` builds it (lines 370-376 of `cart.js`). -/
structure Order where
  orderNumber : String
  items : List CartItem
  total : ℚ
  date : String
  status : String
  deriving DecidableEq, Repr

/-- An element of the stored user list (lines 216-221 of `auth.js`). -/
structure User where
  name : String
  email : String
  password : String
  registrationDate : String
  deriving DecidableEq, Repr

/-- The logged-in user as stored under `topSportUser` (lines 227-231 of
`auth.js`). -/
structure SessionUser where
  name : String
  email : String
  loginTime : String
  deriving DecidableEq, Repr

/-- The four keys of `localStorage` the shop uses; `none` is a key that is not
set. -/
structure LocalStorage where
  topSportCart : Option (JsObject Int)
  topSportOrders : Option (List Order)
  topSportUser : Option SessionUser
  topSportUsers : Option (List User)
  deriving DecidableEq, Repr

/-- A `localStorage` with no key set. -/
def LocalStorage.empty : LocalStorage :=
  { topSportCart := none, topSportOrders := none, topSportUser := none, topSportUsers := none }

/-! ## `CartManager` (`app.js`) -/

/-- The field `cart` of a `CartManager`, with the `localStorage` it saves to. -/
structure CartManager where
  cart : JsObject Int
  storage : LocalStorage
  deriving DecidableEq, Repr

/-- The method `saveCart` (lines 19-22 of `app.js`). -/
def CartManager.saveCart (m : CartManager) : CartManager :=
  { m with storage := { m.storage with topSportCart := some m.cart } }

/-- The method `addToCart` (lines 25-33 of `app.js`). -/
def CartManager.addToCart (m : CartManager) (productId : Nat) (quantity : Int) : CartManager :=
  match objGet m.cart productId with
  | some q =>
    if q ≠ 0 then CartManager.saveCart { m with cart := objSet m.cart productId (q + quantity) }
    else CartManager.saveCart { m with cart := objSet m.cart productId quantity }
  | none => CartManager.saveCart { m with cart := objSet m.cart productId quantity }

/-- The method `removeFromCart` (lines 36-40 of `app.js`). -/
def CartManager.removeFromCart (m : CartManager) (productId : Nat) : CartManager :=
  CartManager.saveCart { m with cart := objDelete m.cart productId }

/-- The method `updateQuantity` (lines 43-50 of `app.js`). -/
def CartManager.updateQuantity (m : CartManager) (productId : Nat) (quantity : Int) :
    CartManager :=
  if quantity ≤ 0 then CartManager.removeFromCart m productId
  else CartManager.saveCart { m with cart := objSet m.cart productId quantity }

/-- The constructor of `CartManager` (lines 6-10 of `app.js`): the cart is loaded
from `localStorage`. -/
def CartManager.create (storage : LocalStorage) : CartManager :=
  { cart := storage.topSportCart.getD [], storage := storage }

/-! ## `CartPageManager` (`cart.js`) -/

/-- What the shipping notice of the cart page shows. -/
inductive ShippingMessage where
  /-- The notice `Add $X more for free shipping!`, with `X = remaining`. -/
  | addMore (remaining : ℚ)
  /-- The notice `You qualify for free shipping!`. -/
  | freeShipping
  /-- The notice is hidden. -/
  | hidden
  deriving DecidableEq, Repr

/-- The numbers `updateCartSummary` writes into the summary, and the notice it
asks for. -/
structure Summary where
  subtotal : ℚ
  shipping : ℚ
  tax : ℚ
  total : ℚ
  message : ShippingMessage
  deriving DecidableEq, Repr

/-- The element `#checkoutModal` as `showCheckoutModal` fills it. -/
inductive Modal where
  /-- The `Login Required` content. -/
  | login (text : String)
  /-- The `Confirm Your Order` content, with the amounts of lines 305-308. -/
  | confirm (items : List CartItem) (subtotal shipping tax total : ℚ)
  deriving DecidableEq, Repr

/-- The fields of a `CartPageManager` and what it acts on: `localStorage`, the
cart of `window.cartManager` (`none` when the page has no `window.cartManager`),
the notifications shown, the checkout modal and the order number of the success
modal. -/
structure CartPage where
  products : JsObject Product
  cart : JsObject Int
  storage : LocalStorage
  navbarCart : Option (JsObject Int)
  notifications : List String
  modal : Option Modal
  successModal : Option String
  deriving DecidableEq, Repr

/-- The loop body of `loadProducts` (lines 25-27): the catalog array becomes an
object keyed by product id. -/
def productsById (productsArray : List Product) : JsObject Product :=
  productsArray.foldl (fun o product => objSet o product.id product) []

/-- The method `getCartItems` (lines 116-130). -/
def CartPage.getCartItems (s : CartPage) : List CartItem :=
  s.cart.filterMap fun entry =>
    match objGet s.products entry.1 with
    | some product =>
      some { id := entry.1, product := product, quantity := entry.2,
             subtotal := product.price * (entry.2 : ℚ) }
    | none => none

/-- The expression `cartItems.reduce((sum, item) => sum + item.subtotal, 0)`. -/
def sumSubtotals (cartItems : List CartItem) : ℚ :=
  cartItems.foldl (fun sum item => sum + item.subtotal) 0

/-- The method `saveCart` (lines 180-182). -/
def CartPage.saveCart (s : CartPage) : CartPage :=
  { s with storage := { s.storage with topSportCart := some s.cart } }

/-- The method `updateNavbarCart` (lines 185-190). -/
def CartPage.updateNavbarCart (s : CartPage) : CartPage :=
  match s.navbarCart with
  | some _ => { s with navbarCart := some s.cart }
  | none => s

/-- The method `showNotification` (lines 441-454). -/
def CartPage.showNotification (s : CartPage) (message : String) : CartPage :=
  { s with notifications := s.notifications ++ [message] }

/-- The method `removeItem` (lines 168-177); `displayCartItems` redraws the page
from the fields and changes none of them. -/
def CartPage.removeItem (s : CartPage) (productId : Nat) : CartPage :=
  match objGet s.products productId with
  | some product =>
    CartPage.showNotification
      (CartPage.updateNavbarCart
        (CartPage.saveCart { s with cart := objDelete s.cart productId }))
      (product.name ++ " removed from cart")
  | none => s

/-- The method `updateQuantity` (lines 153-165). -/
def CartPage.updateQuantity (s : CartPage) (productId : Nat) (increase : Bool) : CartPage :=
  let currentQuantity : Int := (objGet s.cart productId).getD 0
  let newQuantity := if increase then currentQuantity + 1 else currentQuantity - 1
  if newQuantity ≤ 0 then CartPage.removeItem s productId
  else if newQuantity ≤ 10 then
    CartPage.updateNavbarCart (CartPage.saveCart { s with cart := objSet s.cart productId newQuantity })
  else s

/-- The shipping charge computed on line 196. -/
def summaryShipping (subtotal : ℚ) : ℚ :=
  if subtotal > 100 then 0 else if subtotal > 0 then 9.99 else 0

/-- The method `updateShippingMessage` (lines 218-250). -/
def updateShippingMessage (subtotal : ℚ) : ShippingMessage :=
  if subtotal > 0 ∧ subtotal < 100 then ShippingMessage.addMore (100 - subtotal)
  else if subtotal ≥ 100 then ShippingMessage.freeShipping
  else ShippingMessage.hidden

/-- The method `updateCartSummary` (lines 193-215). -/
def CartPage.updateCartSummary (s : CartPage) : Summary :=
  let cartItems := s.getCartItems
  let subtotal := sumSubtotals cartItems
  let shipping := summaryShipping subtotal
  let tax := subtotal * 0.08
  let total := subtotal + shipping + tax
  { subtotal := subtotal, shipping := shipping, tax := tax, total := total,
    message := updateShippingMessage subtotal }

/-- The method `showCheckoutModal` (lines 285-362). -/
def CartPage.showCheckoutModal (s : CartPage) (type : String) : CartPage :=
  if type = "Please login to complete your order" then
    { s with modal := some (Modal.login type) }
  else
    let cartItems := s.getCartItems
    let subtotal := sumSubtotals cartItems
    let shipping : ℚ := if subtotal > 100 then 0 else 9.99
    let tax := subtotal * 0.08
    let total := subtotal + shipping + tax
    { s with modal := some (Modal.confirm cartItems subtotal shipping tax total) }

/-- The method `handleCheckout` (lines 269-282). -/
def CartPage.handleCheckout (s : CartPage) : CartPage :=
  if s.getCartItems.length = 0 then s
  else
    match s.storage.topSportUser with
    | none => s.showCheckoutModal "Please login to complete your order"
    | some _ => s.showCheckoutModal "confirm"

/-- The method `completeOrder` (lines 365-393); `orderNumber` is what
`generateOrderNumber` returns and `date` what `new Date().toISOString()`
returns. -/
def CartPage.completeOrder (s : CartPage) (orderNumber date : String) : CartPage :=
  let cartItems := s.getCartItems
  let order : Order :=
    { orderNumber := orderNumber, items := cartItems, total := sumSubtotals cartItems,
      date := date, status := "confirmed" }
  let orders := s.storage.topSportOrders.getD []
  let s1 := { s with storage := { s.storage with topSportOrders := some (orders ++ [order]) } }
  let s2 := CartPage.updateNavbarCart (CartPage.saveCart { s1 with cart := [] })
  { s2 with modal := none, successModal := some orderNumber }

/-- The constructor and `init` of `CartPageManager` (lines 5-16), once the
catalog `productsArray` has been fetched. -/
def CartPage.create (productsArray : List Product) (storage : LocalStorage)
    (navbarCart : Option (JsObject Int)) : CartPage :=
  { products := productsById productsArray
    cart := storage.topSportCart.getD []
    storage := storage
    navbarCart := navbarCart
    notifications := []
    modal := none
    successModal := none }

/-! ## Strings and numbers of JavaScript -/

/-- Whether a character is white space for `String.prototype.trim`, for
`parseInt` and for `\s` in a regular expression. -/
def isWhiteSpace (c : Char) : Bool :=
  c.toNat == 0x09 || c.toNat == 0x0A || c.toNat == 0x0B || c.toNat == 0x0C ||
  c.toNat == 0x0D || c.toNat == 0x20 || c.toNat == 0xA0 || c.toNat == 0x1680 ||
  (0x2000 ≤ c.toNat && c.toNat ≤ 0x200A) || c.toNat == 0x2028 || c.toNat == 0x2029 ||
  c.toNat == 0x202F || c.toNat == 0x205F || c.toNat == 0x3000 || c.toNat == 0xFEFF

/-- The method `String.prototype.trim`. -/
def jsTrim (s : String) : String :=
  String.mk (((s.toList.dropWhile isWhiteSpace).reverse.dropWhile isWhiteSpace).reverse)

/-- The property `length` of a string: its number of UTF-16 code units. -/
def jsLength (s : String) : Nat :=
  (s.toList.map fun c => if c.toNat > 0xFFFF then 2 else 1).sum

/-- An integer-valued JavaScript number, or `NaN`. -/
inductive JsInt where
  | nan
  | num (n : Int)
  deriving DecidableEq, Repr

/-- The comparison `a < n`; false when `a` is `NaN`. -/
def JsInt.lt (a : JsInt) (n : Int) : Bool :=
  match a with
  | JsInt.nan => false
  | JsInt.num m => decide (m < n)

/-- The comparison `a > n`; false when `a` is `NaN`. -/
def JsInt.gt (a : JsInt) (n : Int) : Bool :=
  match a with
  | JsInt.nan => false
  | JsInt.num m => decide (m > n)

/-- The sum `a + n`; `NaN` when `a` is `NaN`. -/
def JsInt.add (a : JsInt) (n : Int) : JsInt :=
  match a with
  | JsInt.nan => JsInt.nan
  | JsInt.num m => JsInt.num (m + n)

/-- The value of a character as a digit, up to radix 16. -/
def digitValue (c : Char) : Option Nat :=
  if '0' ≤ c ∧ c ≤ '9' then some (c.toNat - '0'.toNat)
  else if 'a' ≤ c ∧ c ≤ 'f' then some (c.toNat - 'a'.toNat + 10)
  else if 'A' ≤ c ∧ c ≤ 'F' then some (c.toNat - 'A'.toNat + 10)
  else none

/-- The digits of the longest prefix made of digits of the radix. -/
def takeDigits (radix : Nat) : List Char → List Nat
  | [] => []
  | c :: rest =>
    match digitValue c with
    | some d => if d < radix then d :: takeDigits radix rest else []
    | none => []

/-- The function `parseInt(text)` called without a radix: leading white space
and a sign are skipped, a prefix `0x` or `0X` selects radix 16, and the longest
prefix of digits is read; `NaN` when there is no digit.  The integer is exact
(the rounding of numbers beyond 2^53 is not modelled). -/
def parseInt (text : String) : JsInt :=
  let s := text.toList.dropWhile isWhiteSpace
  let signed : Bool × List Char :=
    match s with
    | '-' :: rest => (true, rest)
    | '+' :: rest => (false, rest)
    | _ => (false, s)
  let prefixed : Nat × List Char :=
    match signed.2 with
    | '0' :: 'x' :: rest => (16, rest)
    | '0' :: 'X' :: rest => (16, rest)
    | _ => (10, signed.2)
  let digits := takeDigits prefixed.1 prefixed.2
  if digits = [] then JsInt.nan
  else
    let value : Int := (digits.foldl (fun acc d => acc * prefixed.1 + d) 0 : Nat)
    JsInt.num (if signed.1 then -value else value)

/-! ## `ProductDetailsManager` (`product-details.js`) -/

/-- The field `quantity` of a `ProductDetailsManager` and the value of the
`#quantity` input. -/
structure QuantityControl where
  quantity : JsInt
  inputValue : String
  deriving DecidableEq, Repr

/-- The value a `type="number"` input holds after a number has been assigned to
it: its decimal form, and the empty string for `NaN`. -/
def numberInputValue : JsInt → String
  | JsInt.nan => ""
  | JsInt.num n => toString n

/-- The control as the constructor (line 7) and the markup of line 97 leave it. -/
def QuantityControl.initial : QuantityControl :=
  { quantity := JsInt.num 1, inputValue := "1" }

/-- The click listener of the minus button (lines 191-197). -/
def QuantityControl.minusClick (s : QuantityControl) : QuantityControl :=
  let currentValue := parseInt s.inputValue
  if currentValue.gt 1 then
    { quantity := currentValue.add (-1), inputValue := numberInputValue (currentValue.add (-1)) }
  else s

/-- The click listener of the plus button (lines 199-205). -/
def QuantityControl.plusClick (s : QuantityControl) : QuantityControl :=
  let currentValue := parseInt s.inputValue
  if currentValue.lt 10 then
    { quantity := currentValue.add 1, inputValue := numberInputValue (currentValue.add 1) }
  else s

/-- The `change` listener of the input (lines 207-213); `text` is
`e.target.value` when the event fires. -/
def QuantityControl.change (_s : QuantityControl) (text : String) : QuantityControl :=
  let value := parseInt text
  let value := if value.lt 1 then JsInt.num 1 else value
  let value := if value.gt 10 then JsInt.num 10 else value
  { quantity := value, inputValue := numberInputValue value }

/-- The events of the quantity selector. -/
inductive QuantityEvent where
  | minusClick
  | plusClick
  | change (text : String)
  deriving DecidableEq, Repr

/-- The listener an event of the quantity selector runs. -/
def QuantityControl.dispatch (s : QuantityControl) : QuantityEvent → QuantityControl
  | QuantityEvent.minusClick => s.minusClick
  | QuantityEvent.plusClick => s.plusClick
  | QuantityEvent.change text => s.change text

/-- The control after a sequence of events, in order. -/
def QuantityControl.run (s : QuantityControl) : List QuantityEvent → QuantityControl
  | [] => s
  | e :: es => QuantityControl.run (s.dispatch e) es

/-! ## `Utils.validateEmail` (`app.js`) -/

/-- The classes of characters the regular expression of line 201 tells apart. -/
inductive EmailClass where
  /-- A white-space character, matched by `\s`. -/
  | space
  /-- The character `@`. -/
  | at
  /-- The character `.`. -/
  | dot
  /-- Any other character. -/
  | other
  deriving DecidableEq, Repr

/-- The class of a character. -/
def classify (c : Char) : EmailClass :=
  if isWhiteSpace c then EmailClass.space
  else if c = '@' then EmailClass.at
  else if c = '.' then EmailClass.dot
  else EmailClass.other

/-- The character class `[^\s@]`: a dot or any other character that is neither
white space nor `@`. -/
def notSpaceAt : RegularExpression EmailClass :=
  RegularExpression.char EmailClass.dot + RegularExpression.char EmailClass.other

/-- The quantifier `+`: one or more repetitions. -/
def oneOrMore (r : RegularExpression EmailClass) : RegularExpression EmailClass :=
  r * RegularExpression.star r

/-- The regular expression `/^[^\s@]+@[^\s@]+\.[^\s@]+$/` of line 201, over the
classes of characters. -/
def emailRegex : RegularExpression EmailClass :=
  oneOrMore notSpaceAt *
    (RegularExpression.char EmailClass.at *
      (oneOrMore notSpaceAt * (RegularExpression.char EmailClass.dot * oneOrMore notSpaceAt)))

/-- The function `Utils.validateEmail` (lines 200-203 of `app.js`): whether the
whole string matches the regular expression. -/
def Utils.validateEmail (email : String) : Bool :=
  emailRegex.rmatch (email.toList.map classify)

/-! ## `AuthManager` (`auth.js`) -/

/-- A write to the error display of a form field. -/
inductive ErrorOp where
  /-- The call `showError(inputId, message)`. -/
  | showError (inputId message : String)
  /-- The call `clearError(input)` for the input with id `inputId`. -/
  | clearError (inputId : String)
  deriving DecidableEq, Repr

/-- The values of the four inputs of the register form. -/
structure RegisterForm where
  name : String
  email : String
  password : String
  confirmPassword : String
  deriving DecidableEq, Repr

/-- What an `AuthManager` acts on: `localStorage`, the error displays (as the
list of writes made to them), the notifications and the page a redirect has
been scheduled to. -/
structure AuthPage where
  storage : LocalStorage
  errorLog : List ErrorOp
  notifications : List String
  redirect : Option String
  deriving DecidableEq, Repr

/-- The method `showError` (lines 314-327). -/
def AuthPage.showError (p : AuthPage) (inputId message : String) : AuthPage :=
  { p with errorLog := p.errorLog ++ [ErrorOp.showError inputId message] }

/-- The method `clearError` (lines 329-338). -/
def AuthPage.clearError (p : AuthPage) (inputId : String) : AuthPage :=
  { p with errorLog := p.errorLog ++ [ErrorOp.clearError inputId] }

/-- The method `validateName` (lines 296-311) on the input with id `inputId` and
value `value`. -/
def AuthPage.validateName (p : AuthPage) (inputId value : String) : AuthPage × Bool :=
  let name := jsTrim value
  if name = "" then (p.showError inputId "Name is required", false)
  else if jsLength name < 2 then
    (p.showError inputId "Name must be at least 2 characters long", false)
  else (p.clearError inputId, true)

/-- The method `validateEmail` (lines 242-258). -/
def AuthPage.validateEmail (p : AuthPage) (inputId value : String) : AuthPage × Bool :=
  let email := jsTrim value
  if email = "" then (p.showError inputId "Email is required", false)
  else if !Utils.validateEmail email then
    (p.showError inputId "Please enter a valid email address", false)
  else (p.clearError inputId, true)

/-- The method `validatePassword` (lines 260-276). -/
def AuthPage.validatePassword (p : AuthPage) (inputId value : String) : AuthPage × Bool :=
  if value = "" then (p.showError inputId "Password is required", false)
  else if jsLength value < 8 then
    (p.showError inputId "Password must be at least 8 characters long", false)
  else (p.clearError inputId, true)

/-- The method `validateConfirmPassword` (lines 278-294). -/
def AuthPage.validateConfirmPassword (p : AuthPage) (password confirmPassword : String) :
    AuthPage × Bool :=
  if confirmPassword = "" then
    (p.showError "confirmPassword" "Please confirm your password", false)
  else if password ≠ confirmPassword then
    (p.showError "confirmPassword" "Passwords do not match", false)
  else (p.clearError "confirmPassword", true)

/-- The method `handleRegister` (lines 177-239) for the submitted `form`;
`registrationDate` and `loginTime` are what the two `new Date().toISOString()`
calls return. -/
def AuthPage.handleRegister (p : AuthPage) (form : RegisterForm)
    (registrationDate loginTime : String) : AuthPage :=
  let v1 := p.validateName "registerName" form.name
  let v2 := v1.1.validateEmail "registerEmail" form.email
  let v3 := v2.1.validatePassword "registerPassword" form.password
  let v4 := v3.1.validateConfirmPassword form.password form.confirmPassword
  if !(v1.2 && v2.2 && v3.2 && v4.2) then v4.1
  else
    let storedUsers := v4.1.storage.topSportUsers.getD []
    if storedUsers.any (fun u => u.email == form.email) then
      v4.1.showError "registerEmail" "An account with this email already exists"
    else
      let newUser : User :=
        { name := form.name, email := form.email, password := form.password,
          registrationDate := registrationDate }
      let sessionUser : SessionUser :=
        { name := newUser.name, email := newUser.email, loginTime := loginTime }
      let storage : LocalStorage :=
        { v4.1.storage with
          topSportUsers := some (storedUsers ++ [newUser])
          topSportUser := some sessionUser }
      { v4.1 with
        storage := storage
        notifications := v4.1.notifications ++ ["Account created successfully!"]
        redirect := some "index.html" }

/-- One submission of the register form: the values and the two timestamps. -/
structure Registration where
  form : RegisterForm
  registrationDate : String
  loginTime : String
  deriving DecidableEq, Repr

/-- The page after a sequence of submissions of the register form, in order. -/
def AuthPage.register (p : AuthPage) : List Registration → AuthPage
  | [] => p
  | r :: rs => AuthPage.register (p.handleRegister r.form r.registrationDate r.loginTime) rs

/-- The emails of the stored user list. -/
def storedEmails (storage : LocalStorage) : List String :=
  (storage.topSportUsers.getD []).map fun u => u.email

/-- An auth page whose stored user list holds the one user `ann@example.com`. -/
def sampleAuthPage : AuthPage :=
  { storage :=
      { topSportCart := none, topSportOrders := none, topSportUser := none,
        topSportUsers := some
          [{ name := "Ann", email := "ann@example.com", password := "secret-password",
             registrationDate := "2025-01-01T00:00:00.000Z" }] }
    errorLog := []
    notifications := []
    redirect := none }

/-! ## Reference quantities and sample data -/

/-- The subtotal in the words of the summary: the sum, over the entries of the
cart, of price times quantity, an entry whose product is not in the catalog
counting for nothing. -/
def specSubtotal (products : JsObject Product) (cart : JsObject Int) : ℚ :=
  (cart.map fun entry =>
    match objGet products entry.1 with
    | some product => product.price * (entry.2 : ℚ)
    | none => 0).sum

/-- A catalog of two products, in place of `products.json`. -/
def sampleCatalog : List Product :=
  [ { id := 1, name := "Training Ball", price := 25, inStock := true },
    { id := 2, name := "Team Jersey", price := 50, inStock := true } ]

/-- The cart page opened on the sample catalog with the stored cart `cart`, no
user logged in and a navbar cart manager holding the same cart. -/
def samplePage (cart : JsObject Int) : CartPage :=
  CartPage.create sampleCatalog
    { topSportCart := some cart, topSportOrders := none, topSportUser := none,
      topSportUsers := none }
    (some cart)

end Shop

namespace HeroSlider

/-! # Lemmas -/

/-! ## Lemmas on node lists -/

@[simp] theorem andThen_ok (s : State) (f : State → Result) :
    (Result.ok s).andThen f = f s := rfl

@[simp] theorem andThen_typeError (s : State) (f : State → Result) :
    (Result.typeError s).andThen f = Result.typeError s := rfl

theorem nodeAt_natCast {α : Type} (xs : List α) (n : Nat) :
    nodeAt xs (n : Int) = xs[n]? := by
  simp [nodeAt]

theorem nodeAt_eq_none {α : Type} (xs : List α) (i : Int)
    (h : i < 0 ∨ (xs.length : Int) ≤ i) : nodeAt xs i = none := by
  unfold nodeAt
  split
  · rename_i h0
    apply List.getElem?_eq_none
    omega
  · rfl

theorem updateAt_natCast {α : Type} (xs : List α) (n : Nat) (f : α → α)
    (h : n < xs.length) : updateAt xs (n : Int) f = some (List.modify f n xs) := by
  simp [updateAt, nodeAt_natCast, List.getElem?_eq_getElem h]

theorem updateAt_eq_none {α : Type} (xs : List α) (i : Int) (f : α → α)
    (h : i < 0 ∨ (xs.length : Int) ≤ i) : updateAt xs i f = none := by
  simp [updateAt, nodeAt_eq_none xs i h]

/-! ## The effect of `goToSlide` -/

theorem goToSlide_same (s : State) : goToSlide s s.currentSlide = Result.ok s := by
  simp [goToSlide]

theorem goToSlide_move (s : State) (c m : Nat) (hc : s.currentSlide = (c : Int))
    (hcN : c < s.slides.length) (hmN : m < s.slides.length)
    (hd : s.dots.length = s.slides.length) (hne : m ≠ c) :
    goToSlide s (m : Int) = Result.ok (movedTo s c m) := by
  have hne' : ¬ ((m : Int) = s.currentSlide) := by rw [hc]; exact_mod_cast hne
  have hcD : c < s.dots.length := by omega
  have hmD : m < s.dots.length := by omega
  unfold goToSlide
  rw [if_neg hne']
  simp only [hc, slideClassListRemove, slideClassListAdd, dotClassListRemove, dotClassListAdd,
    dotSetAriaSelected, updateAt_natCast, hcN, hmN, hcD, hmD, List.length_modify, andThen_ok]
  cases hl : s.liveRegion <;>
    simp [announceSlideChange, announcementText, movedTo, renderOps, announceOps, hl, Result.ok]

theorem goToSlide_inRange (s : State) (hwf : WellFormed s) (j : Int) (h0 : 0 ≤ j)
    (hN : j < slideCount s) :
    (j = s.currentSlide ∧ goToSlide s j = Result.ok s) ∨
    (j ≠ s.currentSlide ∧
      goToSlide s j = Result.ok (movedTo s s.currentSlide.toNat j.toNat)) := by
  obtain ⟨hd, hc0, hcN⟩ := hwf
  unfold slideCount at hN hcN
  by_cases hj : j = s.currentSlide
  · left
    exact ⟨hj, by rw [hj]; exact goToSlide_same s⟩
  · right
    refine ⟨hj, ?_⟩
    have hjc : (j.toNat : Int) = j := Int.toNat_of_nonneg h0
    have hcc : (s.currentSlide.toNat : Int) = s.currentSlide := Int.toNat_of_nonneg hc0
    have h := goToSlide_move s s.currentSlide.toNat j.toNat hcc.symm (by omega) (by omega) hd
      (by omega)
    rw [hjc] at h
    exact h

theorem goToSlide_inRange_threw (s : State) (hwf : WellFormed s) (j : Int) (h0 : 0 ≤ j)
    (hN : j < slideCount s) : (goToSlide s j).threw = none := by
  rcases goToSlide_inRange s hwf j h0 hN with ⟨_, h⟩ | ⟨_, h⟩ <;> rw [h] <;> rfl

theorem goToSlide_inRange_currentSlide (s : State) (hwf : WellFormed s) (j : Int) (h0 : 0 ≤ j)
    (hN : j < slideCount s) : (goToSlide s j).state.currentSlide = j := by
  rcases goToSlide_inRange s hwf j h0 hN with ⟨hj, h⟩ | ⟨_, h⟩
  · rw [h]; exact hj.symm
  · rw [h]; exact Int.toNat_of_nonneg h0

theorem goToSlide_inRange_slideCount (s : State) (hwf : WellFormed s) (j : Int) (h0 : 0 ≤ j)
    (hN : j < slideCount s) : slideCount (goToSlide s j).state = slideCount s := by
  rcases goToSlide_inRange s hwf j h0 hN with ⟨_, h⟩ | ⟨_, h⟩
  · rw [h]; rfl
  · rw [h]; simp [slideCount, movedTo, Result.ok]

theorem goToSlide_inRange_wellFormed (s : State) (hwf : WellFormed s) (j : Int) (h0 : 0 ≤ j)
    (hN : j < slideCount s) : WellFormed (goToSlide s j).state := by
  have hc := goToSlide_inRange_currentSlide s hwf j h0 hN
  have hn := goToSlide_inRange_slideCount s hwf j h0 hN
  refine ⟨?_, by rw [hc]; exact h0, by rw [hc, hn]; exact hN⟩
  rcases goToSlide_inRange s hwf j h0 hN with ⟨_, h⟩ | ⟨_, h⟩
  · rw [h]; exact hwf.1
  · rw [h]; simpa [movedTo, Result.ok] using hwf.1

/-! ## Ring arithmetic of `nextSlide` and `previousSlide` -/

theorem nextIndex_eq (s : State) (hwf : WellFormed s) :
    (s.currentSlide + 1).tmod (slideCount s) = (s.currentSlide + 1) % slideCount s := by
  obtain ⟨_, hc0, hcN⟩ := hwf
  exact Int.tmod_eq_emod (by omega) (by omega)

theorem previousIndex_eq (s : State) (hwf : WellFormed s) :
    (s.currentSlide - 1 + slideCount s).tmod (slideCount s)
      = (s.currentSlide - 1 + slideCount s) % slideCount s := by
  obtain ⟨_, hc0, hcN⟩ := hwf
  exact Int.tmod_eq_emod (by omega) (by omega)

theorem emod_inRange (a n : Int) (hn : 0 < n) : 0 ≤ a % n ∧ a % n < n :=
  ⟨Int.emod_nonneg a (by omega), Int.emod_lt_of_pos a hn⟩

theorem nextSlide_spec (s : State) (hwf : WellFormed s) :
    (nextSlide s).threw = none ∧
    (nextSlide s).state.currentSlide = (s.currentSlide + 1) % slideCount s ∧
    slideCount (nextSlide s).state = slideCount s ∧ WellFormed (nextSlide s).state := by
  have hpos : 0 < slideCount s := by obtain ⟨_, h0, hN⟩ := hwf; omega
  obtain ⟨h0, hN⟩ := emod_inRange (s.currentSlide + 1) (slideCount s) hpos
  unfold nextSlide
  rw [nextIndex_eq s hwf]
  exact ⟨goToSlide_inRange_threw s hwf _ h0 hN, goToSlide_inRange_currentSlide s hwf _ h0 hN,
    goToSlide_inRange_slideCount s hwf _ h0 hN, goToSlide_inRange_wellFormed s hwf _ h0 hN⟩

theorem previousSlide_spec (s : State) (hwf : WellFormed s) :
    (previousSlide s).threw = none ∧
    (previousSlide s).state.currentSlide
      = (s.currentSlide - 1 + slideCount s) % slideCount s ∧
    slideCount (previousSlide s).state = slideCount s ∧
    WellFormed (previousSlide s).state := by
  have hpos : 0 < slideCount s := by obtain ⟨_, h0, hN⟩ := hwf; omega
  obtain ⟨h0, hN⟩ := emod_inRange (s.currentSlide - 1 + slideCount s) (slideCount s) hpos
  unfold previousSlide
  rw [previousIndex_eq s hwf]
  exact ⟨goToSlide_inRange_threw s hwf _ h0 hN, goToSlide_inRange_currentSlide s hwf _ h0 hN,
    goToSlide_inRange_slideCount s hwf _ h0 hN, goToSlide_inRange_wellFormed s hwf _ h0 hN⟩

/-! ## Repeated calls -/

theorem callTimes_nextSlide (s : State) (hwf : WellFormed s) (k : Nat) :
    WellFormed (callTimes nextSlide k s) ∧
    slideCount (callTimes nextSlide k s) = slideCount s ∧
    (callTimes nextSlide k s).currentSlide = (s.currentSlide + (k : Int)) % slideCount s := by
  induction k with
  | zero =>
    refine ⟨hwf, rfl, ?_⟩
    obtain ⟨_, h0, hN⟩ := hwf
    simp only [callTimes, Nat.cast_zero, add_zero]
    exact (Int.emod_eq_of_lt h0 hN).symm
  | succ k ih =>
    obtain ⟨hw, hn, hc⟩ := ih
    obtain ⟨_, h2, h3, h4⟩ := nextSlide_spec (callTimes nextSlide k s) hw
    refine ⟨h4, by rw [← hn]; exact h3, ?_⟩
    show (nextSlide (callTimes nextSlide k s)).state.currentSlide = _
    rw [h2, hn, hc, Int.emod_add_emod]
    congr 1
    push_cast
    ring

theorem callTimes_previousSlide (s : State) (hwf : WellFormed s) (k : Nat) :
    WellFormed (callTimes previousSlide k s) ∧
    slideCount (callTimes previousSlide k s) = slideCount s ∧
    (callTimes previousSlide k s).currentSlide = (s.currentSlide - (k : Int)) % slideCount s := by
  induction k with
  | zero =>
    refine ⟨hwf, rfl, ?_⟩
    obtain ⟨_, h0, hN⟩ := hwf
    simp only [callTimes, Nat.cast_zero, sub_zero]
    exact (Int.emod_eq_of_lt h0 hN).symm
  | succ k ih =>
    obtain ⟨hw, hn, hc⟩ := ih
    obtain ⟨_, h2, h3, h4⟩ := previousSlide_spec (callTimes previousSlide k s) hw
    refine ⟨h4, by rw [← hn]; exact h3, ?_⟩
    show (previousSlide (callTimes previousSlide k s)).state.currentSlide = _
    rw [h2, hn, hc, Int.add_emod_self, sub_eq_add_neg, Int.emod_add_emod]
    congr 1
    push_cast
    ring

theorem runNav_wellFormed (calls : List NavCall) (s : State) (hwf : WellFormed s) :
    WellFormed (runNav s calls) ∧ slideCount (runNav s calls) = slideCount s := by
  induction calls generalizing s with
  | nil => exact ⟨hwf, rfl⟩
  | cons c cs ih =>
    have hstep : WellFormed (c.run s).state ∧ slideCount (c.run s).state = slideCount s := by
      cases c
      · obtain ⟨_, _, h3, h4⟩ := nextSlide_spec s hwf
        exact ⟨h4, h3⟩
      · obtain ⟨_, _, h3, h4⟩ := previousSlide_spec s hwf
        exact ⟨h4, h3⟩
    obtain ⟨h1, h2⟩ := ih (c.run s).state hstep.1
    exact ⟨h1, by rw [← hstep.2]; exact h2⟩

theorem wellFormed_of (s : State) (n : Nat) (i : Int) (hslides : s.slides.length = n)
    (hdots : s.dots.length = n) (hcur : s.currentSlide = i) (h0 : 0 ≤ i) (hlt : i < (n : Int)) :
    WellFormed s := by
  refine ⟨by omega, by omega, ?_⟩
  unfold slideCount
  omega

/-! ## The render invariant -/

theorem rendered_congr (s s' : State) (hs : s'.slides = s.slides) (hd : s'.dots = s.dots)
    (hc : s'.currentSlide = s.currentSlide) (hr : Rendered s) : Rendered s' := by
  unfold Rendered WellFormed slideCount at *
  rw [hs, hd, hc]
  exact hr

theorem rendered_movedTo (s : State) (c m : Nat) (hr : Rendered s)
    (hc : s.currentSlide = (c : Int)) (hm : m < s.slides.length) (hne : m ≠ c) :
    Rendered (movedTo s c m) := by
  obtain ⟨⟨hd, h0, hN⟩, hpt⟩ := hr
  refine ⟨⟨by simpa [movedTo] using hd, by simp [movedTo], by simpa [movedTo, slideCount] using hm⟩,
    ?_⟩
  intro k hk
  have hk' : k < s.slides.length := by simpa [movedTo] using hk
  have hkd : k < s.dots.length := by omega
  obtain ⟨h1, h2, h3⟩ := hpt k hk'
  rw [hc] at h1 h2 h3
  simp only [List.getElem?_eq_getElem hk', List.getElem?_eq_getElem hkd, Option.map_some',
    Option.some.injEq, Nat.cast_inj] at h1 h2 h3
  have hcm : c ≠ m := fun h => hne h.symm
  by_cases hkm : k = m
  · subst hkm
    simp [movedTo, List.getElem?_modify, List.getElem?_eq_getElem hk',
      List.getElem?_eq_getElem hkd, hcm]
  · have hmk : ¬ m = k := fun h => hkm h.symm
    by_cases hkc : k = c
    · subst hkc
      simp [movedTo, List.getElem?_modify, List.getElem?_eq_getElem hk',
        List.getElem?_eq_getElem hkd, hkm, hmk]
    · have hck : ¬ c = k := fun h => hkc h.symm
      simp only [hkc, decide_False, if_false] at h1 h2 h3
      simp [movedTo, List.getElem?_modify, List.getElem?_eq_getElem hk',
        List.getElem?_eq_getElem hkd, hkm, hmk, hck, h1, h2, h3]

theorem rendered_goToSlide (s : State) (hr : Rendered s) (j : Int) (h0 : 0 ≤ j)
    (hN : j < slideCount s) : Rendered (goToSlide s j).state := by
  rcases goToSlide_inRange s hr.1 j h0 hN with ⟨_, h⟩ | ⟨hne, h⟩
  · rw [h]; exact hr
  · rw [h]
    have hcc : s.currentSlide = ((s.currentSlide.toNat : Nat) : Int) :=
      (Int.toNat_of_nonneg hr.1.2.1).symm
    unfold slideCount at hN
    apply rendered_movedTo s _ _ hr hcc (by omega)
    intro heq
    apply hne
    rw [hcc, ← heq]
    exact (Int.toNat_of_nonneg h0).symm

theorem rendered_nextSlide (s : State) (hr : Rendered s) : Rendered (nextSlide s).state := by
  have hpos : 0 < slideCount s := by obtain ⟨⟨_, h0, hN⟩, _⟩ := hr; omega
  obtain ⟨h0, hN⟩ := emod_inRange (s.currentSlide + 1) (slideCount s) hpos
  unfold nextSlide
  rw [nextIndex_eq s hr.1]
  exact rendered_goToSlide s hr _ h0 hN

theorem rendered_previousSlide (s : State) (hr : Rendered s) :
    Rendered (previousSlide s).state := by
  have hpos : 0 < slideCount s := by obtain ⟨⟨_, h0, hN⟩, _⟩ := hr; omega
  obtain ⟨h0, hN⟩ := emod_inRange (s.currentSlide - 1 + slideCount s) (slideCount s) hpos
  unfold previousSlide
  rw [previousIndex_eq s hr.1]
  exact rendered_goToSlide s hr _ h0 hN

theorem step_frame (s s' : State) (n : Nat) (hr : Rendered s) (hn : s.slides.length = n)
    (hs : s'.slides = s.slides) (hd : s'.dots = s.dots)
    (hc : s'.currentSlide = s.currentSlide) :
    Rendered s' ∧ s'.slides.length = n :=
  ⟨rendered_congr s s' hs hd hc hr, by rw [hs]; exact hn⟩

theorem step_goToSlide (s : State) (n : Nat) (hr : Rendered s) (hn : s.slides.length = n)
    (j : Int) (h0 : 0 ≤ j) (hN : j < (n : Int)) :
    Rendered (goToSlide s j).state ∧ (goToSlide s j).state.slides.length = n := by
  have hN' : j < slideCount s := by unfold slideCount; omega
  refine ⟨rendered_goToSlide s hr j h0 hN', ?_⟩
  have h := goToSlide_inRange_slideCount s hr.1 j h0 hN'
  unfold slideCount at h
  omega

theorem step_nextSlide (s : State) (n : Nat) (hr : Rendered s) (hn : s.slides.length = n) :
    Rendered (nextSlide s).state ∧ (nextSlide s).state.slides.length = n := by
  refine ⟨rendered_nextSlide s hr, ?_⟩
  obtain ⟨_, _, h, _⟩ := nextSlide_spec s hr.1
  unfold slideCount at h
  omega

theorem step_previousSlide (s : State) (n : Nat) (hr : Rendered s)
    (hn : s.slides.length = n) :
    Rendered (previousSlide s).state ∧ (previousSlide s).state.slides.length = n := by
  refine ⟨rendered_previousSlide s hr, ?_⟩
  obtain ⟨_, _, h, _⟩ := previousSlide_spec s hr.1
  unfold slideCount at h
  omega

theorem step_toggleAutoplay (s : State) (n : Nat) (hr : Rendered s)
    (hn : s.slides.length = n) :
    Rendered (toggleAutoplay s).state ∧ (toggleAutoplay s).state.slides.length = n := by
  unfold toggleAutoplay
  dsimp only
  split <;> exact step_frame s _ n hr hn rfl rfl rfl

theorem step_handleKeyboard (s : State) (n : Nat) (hr : Rendered s)
    (hn : s.slides.length = n) (e : KeyEvent) :
    Rendered (handleKeyboard s e).1.state ∧ (handleKeyboard s e).1.state.slides.length = n := by
  have hpos : 0 < n := by
    obtain ⟨⟨_, h0, hN⟩, _⟩ := hr
    unfold slideCount at hN
    omega
  unfold handleKeyboard
  split
  · exact step_previousSlide s n hr hn
  · split
    · exact step_nextSlide s n hr hn
    · split
      · split
        · exact step_toggleAutoplay s n hr hn
        · exact step_frame s _ n hr hn rfl rfl rfl
      · split
        · exact step_goToSlide s n hr hn 0 (le_refl 0) (by omega)
        · split
          · exact step_goToSlide s n hr hn _ (by unfold slideCount; omega)
              (by unfold slideCount; omega)
          · exact step_frame s _ n hr hn rfl rfl rfl

theorem step_autoplayTick (s : State) (n : Nat) (hr : Rendered s)
    (hn : s.slides.length = n) :
    Rendered (autoplayTick s).state ∧ (autoplayTick s).state.slides.length = n := by
  unfold autoplayTick
  split
  · exact step_nextSlide s n hr hn
  · exact step_frame s _ n hr hn rfl rfl rfl

theorem step_onTouchEnd (s : State) (n : Nat) (hr : Rendered s)
    (hn : s.slides.length = n) (x : Int) :
    Rendered (onTouchEnd s x).state ∧ (onTouchEnd s x).state.slides.length = n := by
  obtain ⟨hr1, hn1⟩ := step_frame s { s with endX := x } n hr hn rfl rfl rfl
  unfold onTouchEnd
  dsimp only
  split
  · split
    · exact step_nextSlide _ n hr1 hn1
    · exact step_previousSlide _ n hr1 hn1
  · exact ⟨hr1, hn1⟩

theorem step_clearHandle (s : State) (n : Nat) (hr : Rendered s) (hn : s.slides.length = n) :
    Rendered (match s.autoplayInterval with
      | some h => if handleTruthy (some h) then clearInterval s h else s
      | none => s) ∧
    (match s.autoplayInterval with
      | some h => if handleTruthy (some h) then clearInterval s h else s
      | none => s).slides.length = n := by
  split
  · split
    · exact step_frame s _ n hr hn rfl rfl rfl
    · exact ⟨hr, hn⟩
  · exact ⟨hr, hn⟩

theorem step_startAutoplay (s : State) (n : Nat) (hr : Rendered s)
    (hn : s.slides.length = n) :
    Rendered (startAutoplay s).state ∧ (startAutoplay s).state.slides.length = n := by
  obtain ⟨hr1, hn1⟩ := step_clearHandle s n hr hn
  unfold startAutoplay
  exact step_frame _ _ n hr1 hn1 rfl rfl rfl

theorem step_destroy (s : State) (n : Nat) (hr : Rendered s) (hn : s.slides.length = n) :
    Rendered (destroy s).state ∧ (destroy s).state.slides.length = n := by
  obtain ⟨hr1, hn1⟩ := step_clearHandle s n hr hn
  unfold destroy
  dsimp only
  split
  · exact step_frame _ _ n hr1 hn1 rfl rfl rfl
  · exact ⟨hr1, hn1⟩

theorem step_resumeAutoplay (s : State) (n : Nat) (hr : Rendered s)
    (hn : s.slides.length = n) :
    Rendered (resumeAutoplay s).state ∧ (resumeAutoplay s).state.slides.length = n := by
  unfold resumeAutoplay
  split
  · exact step_frame s _ n hr hn rfl rfl rfl
  · exact ⟨hr, hn⟩

theorem step_dispatch (s : State) (n : Nat) (hr : Rendered s) (hn : s.slides.length = n)
    (e : Event) :
    Rendered (dispatch s e).state ∧ (dispatch s e).state.slides.length = n := by
  cases e with
  | prevClick => exact step_previousSlide s n hr hn
  | nextClick => exact step_nextSlide s n hr hn
  | dotClick index =>
    simp only [dispatch]
    split
    · rename_i hlt
      have hd := hr.1.1
      exact step_goToSlide s n hr hn _ (by omega) (by omega)
    · exact ⟨hr, hn⟩
  | mouseEnter => exact step_frame s _ n hr hn rfl rfl rfl
  | mouseLeave => exact step_resumeAutoplay s n hr hn
  | keydown e => exact step_handleKeyboard s n hr hn e
  | touchStart x => exact step_frame s _ n hr hn rfl rfl rfl
  | touchEnd x => exact step_onTouchEnd s n hr hn x
  | visibilityChange hidden =>
    simp only [dispatch, onVisibilityChange]
    split
    · exact step_frame s _ n hr hn rfl rfl rfl
    · split
      · exact step_resumeAutoplay s n hr hn
      · exact ⟨hr, hn⟩
  | timer handle =>
    simp only [dispatch]
    split
    · exact step_autoplayTick s n hr hn
    · exact ⟨hr, hn⟩

theorem step_run (s : State) (n : Nat) (hr : Rendered s) (hn : s.slides.length = n)
    (st : Step) (hin : Step.InRange n st) :
    Rendered (st.run s).state ∧ (st.run s).state.slides.length = n := by
  cases st with
  | event e => exact step_dispatch s n hr hn e
  | callNextSlide => exact step_nextSlide s n hr hn
  | callPreviousSlide => exact step_previousSlide s n hr hn
  | callGoToSlide index => exact step_goToSlide s n hr hn index hin.1 hin.2
  | callStartAutoplay => exact step_startAutoplay s n hr hn
  | callPauseAutoplay => exact step_frame s _ n hr hn rfl rfl rfl
  | callResumeAutoplay => exact step_resumeAutoplay s n hr hn
  | callToggleAutoplay => exact step_toggleAutoplay s n hr hn
  | callDestroy => exact step_destroy s n hr hn

theorem runSteps_rendered (steps : List Step) (s : State) (n : Nat) (hr : Rendered s)
    (hn : s.slides.length = n) (hin : ∀ st ∈ steps, Step.InRange n st) :
    Rendered (runSteps s steps) ∧ (runSteps s steps).slides.length = n := by
  induction steps generalizing s with
  | nil => exact ⟨hr, hn⟩
  | cons st sts ih =>
    obtain ⟨h1, h2⟩ := step_run s n hr hn st (hin st (List.mem_cons_self st sts))
    exact ih (st.run s).state h1 h2 (fun x hx => hin x (List.mem_cons_of_mem st hx))

theorem countP_eq_zero_of_pointwise {α : Type} (p : α → Bool) (xs : List α)
    (h : ∀ k : Nat, k < xs.length → (xs[k]?).map p = some false) : xs.countP p = 0 := by
  induction xs with
  | nil => rfl
  | cons x t ih =>
    have hx := h 0 (by simp)
    simp only [List.getElem?_cons_zero, Option.map_some', Option.some.injEq] at hx
    have ht : ∀ k : Nat, k < t.length → (t[k]?).map p = some false := by
      intro k hk
      have := h (k + 1) (by simpa using hk)
      simpa using this
    rw [List.countP_cons_of_neg _ _ (by simp [hx])]
    exact ih ht

theorem countP_eq_one_of_pointwise {α : Type} (p : α → Bool) (xs : List α) (c : Nat)
    (hc : c < xs.length)
    (h : ∀ k : Nat, k < xs.length → (xs[k]?).map p = some (decide (k = c))) :
    xs.countP p = 1 := by
  induction xs generalizing c with
  | nil => simp at hc
  | cons x t ih =>
    have hx := h 0 (by simp)
    simp only [List.getElem?_cons_zero, Option.map_some', Option.some.injEq] at hx
    cases c with
    | zero =>
      have ht : ∀ k : Nat, k < t.length → (t[k]?).map p = some false := by
        intro k hk
        have := h (k + 1) (by simpa using hk)
        simpa using this
      rw [List.countP_cons_of_pos _ _ (by simpa using hx), countP_eq_zero_of_pointwise p t ht]
    | succ c =>
      have ht : ∀ k : Nat, k < t.length → (t[k]?).map p = some (decide (k = c)) := by
        intro k hk
        have := h (k + 1) (by simpa using hk)
        simpa using this
      rw [List.countP_cons_of_neg _ _ (by simpa using hx)]
      exact ih c (by simpa using hc) ht

theorem renderInvariant_of_rendered (s : State) (hr : Rendered s) : RenderInvariant s := by
  obtain ⟨⟨hd, h0, hN⟩, hpt⟩ := hr
  obtain ⟨c, hc⟩ := Int.eq_ofNat_of_zero_le h0
  unfold slideCount at hN
  have hcs : c < s.slides.length := by omega
  have hcd : c < s.dots.length := by omega
  have hpt' : ∀ k : Nat, k < s.slides.length →
      (s.slides[k]?).map (fun e => e.active) = some (decide (k = c)) ∧
      (s.dots[k]?).map (fun d => d.active) = some (decide (k = c)) ∧
      (s.dots[k]?).map (fun d => d.ariaSelected) = some (if k = c then "true" else "false") := by
    intro k hk
    have := hpt k hk
    rw [hc] at this
    simpa using this
  have hsel : ∀ k : Nat, k < s.dots.length →
      (s.dots[k]?).map (fun d => d.ariaSelected == "true") = some (decide (k = c)) := by
    intro k hk
    obtain ⟨_, _, h3⟩ := hpt' k (by omega)
    rw [List.getElem?_eq_getElem hk] at h3 ⊢
    simp only [Option.map_some', Option.some.injEq] at h3 ⊢
    rw [h3]
    by_cases hkc : k = c
    · simp [hkc]
    · simp [hkc]
  obtain ⟨hc1, hc2, hc3⟩ := hpt' c hcs
  refine ⟨countP_eq_one_of_pointwise _ s.slides c hcs (fun k hk => (hpt' k hk).1),
    countP_eq_one_of_pointwise _ s.dots c hcd (fun k hk => (hpt' k (by omega)).2.1),
    countP_eq_one_of_pointwise _ s.dots c hcd hsel, ?_, ?_, ?_⟩
  · rw [hc, nodeAt_natCast, hc1]; simp
  · rw [hc, nodeAt_natCast, hc2]; simp
  · rw [hc, nodeAt_natCast, hc3]; simp

theorem construct_state (data : List SlideData) :
    (construct data).state =
      { initialFields with
        slidesData := data
        slides := (List.range data.length).map (mkSlide data.length)
        dots := (List.range data.length).map mkDot
        autoplayInterval := some 1
        liveTimers := [1]
        nextTimerId := 2 } := rfl

theorem construct_rendered (data : List SlideData) (hdata : data ≠ []) :
    Rendered (construct data).state ∧ (construct data).state.slides.length = data.length := by
  have hpos : 0 < data.length := List.length_pos.mpr hdata
  rw [construct_state]
  refine ⟨⟨⟨by simp, by simp [initialFields], by simpa [initialFields, slideCount] using hpos⟩,
    ?_⟩, by simp⟩
  intro k hk
  have hk' : k < data.length := by simpa using hk
  simp [initialFields, List.getElem?_range hk', mkSlide, mkDot, hk']
  cases k <;> simp

/-! ## The autoplay flags -/

theorem sameFlags_refl (s : State) : SameFlags s s := ⟨rfl, rfl⟩

theorem sameFlags_andThen (s0 : State) (r : Result) (f : State → Result)
    (hr : SameFlags s0 r.state) (hf : ∀ s1, SameFlags s0 s1 → SameFlags s0 (f s1).state) :
    SameFlags s0 (r.andThen f).state := by
  unfold Result.andThen
  split
  · exact hf _ hr
  · exact hr

theorem sameFlags_slideClassListRemove (s0 s : State) (i : Int) (h : SameFlags s0 s) :
    SameFlags s0 (slideClassListRemove s i).state := by
  unfold slideClassListRemove
  split <;> exact h

theorem sameFlags_slideClassListAdd (s0 s : State) (i : Int) (h : SameFlags s0 s) :
    SameFlags s0 (slideClassListAdd s i).state := by
  unfold slideClassListAdd
  split <;> exact h

theorem sameFlags_dotClassListRemove (s0 s : State) (i : Int) (h : SameFlags s0 s) :
    SameFlags s0 (dotClassListRemove s i).state := by
  unfold dotClassListRemove
  split <;> exact h

theorem sameFlags_dotClassListAdd (s0 s : State) (i : Int) (h : SameFlags s0 s) :
    SameFlags s0 (dotClassListAdd s i).state := by
  unfold dotClassListAdd
  split <;> exact h

theorem sameFlags_dotSetAriaSelected (s0 s : State) (i : Int) (v : String)
    (h : SameFlags s0 s) : SameFlags s0 (dotSetAriaSelected s i v).state := by
  unfold dotSetAriaSelected
  split <;> exact h

theorem sameFlags_announceSlideChange (s0 s : State) (h : SameFlags s0 s) :
    SameFlags s0 (announceSlideChange s).state := by
  unfold announceSlideChange
  dsimp only
  split <;> exact h

theorem sameFlags_goToSlide (s : State) (index : Int) :
    SameFlags s (goToSlide s index).state := by
  unfold goToSlide
  split
  · exact sameFlags_refl s
  · dsimp only
    apply sameFlags_andThen _ _ _ (sameFlags_slideClassListRemove s s _ (sameFlags_refl s))
    intro s1 h1
    apply sameFlags_andThen _ _ _ (sameFlags_slideClassListAdd s s1 _ h1)
    intro s2 h2
    apply sameFlags_andThen _ _ _ (sameFlags_dotClassListRemove s s2 _ h2)
    intro s3 h3
    apply sameFlags_andThen _ _ _ (sameFlags_dotSetAriaSelected s s3 _ _ h3)
    intro s4 h4
    apply sameFlags_andThen _ _ _ (sameFlags_dotClassListAdd s s4 _ h4)
    intro s5 h5
    apply sameFlags_andThen _ _ _ (sameFlags_dotSetAriaSelected s s5 _ _ h5)
    intro s6 h6
    exact sameFlags_announceSlideChange s _ h6

theorem sameFlags_nextSlide (s : State) : SameFlags s (nextSlide s).state :=
  sameFlags_goToSlide s _

theorem sameFlags_previousSlide (s : State) : SameFlags s (previousSlide s).state :=
  sameFlags_goToSlide s _

theorem flagInvariant_of_sameFlags (s s' : State) (h : SameFlags s s')
    (hinv : FlagInvariant s) : FlagInvariant s' := by
  unfold FlagInvariant at *
  rw [h.1, h.2]
  exact hinv

theorem flagInvariant_pauseAutoplay (s : State) : FlagInvariant (pauseAutoplay s).state :=
  fun _ => rfl

theorem flagInvariant_resumeAutoplay (s : State) (hinv : FlagInvariant s) :
    FlagInvariant (resumeAutoplay s).state := by
  unfold resumeAutoplay
  split
  · rename_i hp
    intro hfalse
    simp only [Result.ok] at hfalse
    rw [hp] at hfalse
    exact absurd hfalse (by decide)
  · exact hinv

theorem flagInvariant_toggleAutoplay (s : State) : FlagInvariant (toggleAutoplay s).state := by
  unfold toggleAutoplay FlagInvariant
  cases h : s.isPlaying <;> simp [h, Result.typeError]

theorem flagInvariant_handleKeyboard (s : State) (hinv : FlagInvariant s) (e : KeyEvent) :
    FlagInvariant (handleKeyboard s e).1.state := by
  unfold handleKeyboard
  split
  · exact flagInvariant_of_sameFlags s _ (sameFlags_previousSlide s) hinv
  · split
    · exact flagInvariant_of_sameFlags s _ (sameFlags_nextSlide s) hinv
    · split
      · split
        · exact flagInvariant_toggleAutoplay s
        · exact hinv
      · split
        · exact flagInvariant_of_sameFlags s _ (sameFlags_goToSlide s _) hinv
        · split
          · exact flagInvariant_of_sameFlags s _ (sameFlags_goToSlide s _) hinv
          · exact hinv

theorem flagInvariant_autoplayTick (s : State) (hinv : FlagInvariant s) :
    FlagInvariant (autoplayTick s).state := by
  unfold autoplayTick
  split
  · exact flagInvariant_of_sameFlags s _ (sameFlags_nextSlide s) hinv
  · exact hinv

theorem flagInvariant_onTouchEnd (s : State) (hinv : FlagInvariant s) (x : Int) :
    FlagInvariant (onTouchEnd s x).state := by
  have h1 : FlagInvariant { s with endX := x } := hinv
  unfold onTouchEnd
  dsimp only
  split
  · split
    · exact flagInvariant_of_sameFlags _ _ (sameFlags_nextSlide _) h1
    · exact flagInvariant_of_sameFlags _ _ (sameFlags_previousSlide _) h1
  · exact h1

theorem flagInvariant_clearHandle (s : State) (hinv : FlagInvariant s) :
    FlagInvariant (match s.autoplayInterval with
      | some h => if handleTruthy (some h) then clearInterval s h else s
      | none => s) := by
  split
  · split
    · exact hinv
    · exact hinv
  · exact hinv

theorem flagInvariant_startAutoplay (s : State) (hinv : FlagInvariant s) :
    FlagInvariant (startAutoplay s).state := by
  have h1 := flagInvariant_clearHandle s hinv
  unfold startAutoplay
  exact h1

theorem flagInvariant_destroy (s : State) (hinv : FlagInvariant s) :
    FlagInvariant (destroy s).state := by
  have h1 := flagInvariant_clearHandle s hinv
  unfold destroy
  dsimp only
  split
  · exact h1
  · exact h1

theorem flagInvariant_dispatch (s : State) (hinv : FlagInvariant s) (e : Event) :
    FlagInvariant (dispatch s e).state := by
  cases e with
  | prevClick => exact flagInvariant_of_sameFlags s _ (sameFlags_previousSlide s) hinv
  | nextClick => exact flagInvariant_of_sameFlags s _ (sameFlags_nextSlide s) hinv
  | dotClick index =>
    simp only [dispatch]
    split
    · exact flagInvariant_of_sameFlags s _ (sameFlags_goToSlide s _) hinv
    · exact hinv
  | mouseEnter => exact flagInvariant_pauseAutoplay s
  | mouseLeave => exact flagInvariant_resumeAutoplay s hinv
  | keydown e => exact flagInvariant_handleKeyboard s hinv e
  | touchStart x => exact hinv
  | touchEnd x => exact flagInvariant_onTouchEnd s hinv x
  | visibilityChange hidden =>
    simp only [dispatch, onVisibilityChange]
    split
    · exact flagInvariant_pauseAutoplay s
    · split
      · exact flagInvariant_resumeAutoplay s hinv
      · exact hinv
  | timer handle =>
    simp only [dispatch]
    split
    · exact flagInvariant_autoplayTick s hinv
    · exact hinv

theorem flagInvariant_run (s : State) (hinv : FlagInvariant s) (st : Step) :
    FlagInvariant (st.run s).state := by
  cases st with
  | event e => exact flagInvariant_dispatch s hinv e
  | callNextSlide => exact flagInvariant_of_sameFlags s _ (sameFlags_nextSlide s) hinv
  | callPreviousSlide => exact flagInvariant_of_sameFlags s _ (sameFlags_previousSlide s) hinv
  | callGoToSlide index => exact flagInvariant_of_sameFlags s _ (sameFlags_goToSlide s _) hinv
  | callStartAutoplay => exact flagInvariant_startAutoplay s hinv
  | callPauseAutoplay => exact flagInvariant_pauseAutoplay s
  | callResumeAutoplay => exact flagInvariant_resumeAutoplay s hinv
  | callToggleAutoplay => exact flagInvariant_toggleAutoplay s
  | callDestroy => exact flagInvariant_destroy s hinv

theorem flagInvariant_runSteps (steps : List Step) (s : State) (hinv : FlagInvariant s) :
    FlagInvariant (runSteps s steps) := by
  induction steps generalizing s with
  | nil => exact hinv
  | cons st sts ih => exact ih (st.run s).state (flagInvariant_run s hinv st)

theorem flagInvariant_construct (data : List SlideData) :
    FlagInvariant (construct data).state := by
  rw [construct_state]
  intro h
  exact absurd h (by simp [initialFields])

theorem autoplayTick_of_flagInvariant (s : State) (hinv : FlagInvariant s) :
    autoplayTick s = if (s.isPlaying && !s.isPaused) = true then nextSlide s else Result.ok s := by
  unfold autoplayTick
  unfold FlagInvariant at hinv
  cases hp : s.isPaused <;> cases hq : s.isPlaying <;> simp_all

/-! ## Timer ticks -/

theorem callTimes_autoplayTick_paused (s : State) (hp : s.isPaused = true) (k : Nat) :
    callTimes autoplayTick k s = s := by
  induction k with
  | zero => rfl
  | succ k ih =>
    show (autoplayTick (callTimes autoplayTick k s)).state = s
    rw [ih]
    simp [autoplayTick, hp, Result.ok]

theorem callTimes_autoplayTick_running (s : State) (hwf : WellFormed s)
    (hp : s.isPaused = false) (m : Nat) :
    WellFormed (callTimes autoplayTick m s) ∧
    (callTimes autoplayTick m s).isPaused = false ∧
    slideCount (callTimes autoplayTick m s) = slideCount s := by
  induction m with
  | zero => exact ⟨hwf, hp, rfl⟩
  | succ m ih =>
    obtain ⟨hw, hq, hn⟩ := ih
    have htick : autoplayTick (callTimes autoplayTick m s)
        = nextSlide (callTimes autoplayTick m s) := by
      simp [autoplayTick, hq]
    obtain ⟨_, _, h3, h4⟩ := nextSlide_spec _ hw
    show WellFormed (autoplayTick (callTimes autoplayTick m s)).state ∧
      (autoplayTick (callTimes autoplayTick m s)).state.isPaused = false ∧
      slideCount (autoplayTick (callTimes autoplayTick m s)).state = slideCount s
    rw [htick]
    exact ⟨h4, by rw [(sameFlags_nextSlide _).2]; exact hq, by rw [h3]; exact hn⟩

/-! ## What navigation leaves alone -/

theorem navFrame_refl (s : State) : NavFrame s s :=
  ⟨rfl, rfl, rfl, rfl, rfl, rfl, rfl, rfl, rfl⟩

theorem navFrame_andThen (s0 : State) (r : Result) (f : State → Result)
    (hr : NavFrame s0 r.state) (hf : ∀ s1, NavFrame s0 s1 → NavFrame s0 (f s1).state) :
    NavFrame s0 (r.andThen f).state := by
  unfold Result.andThen
  split
  · exact hf _ hr
  · exact hr

theorem navFrame_slideClassListRemove (s0 s : State) (i : Int) (h : NavFrame s0 s) :
    NavFrame s0 (slideClassListRemove s i).state := by
  unfold slideClassListRemove
  split <;> exact h

theorem navFrame_slideClassListAdd (s0 s : State) (i : Int) (h : NavFrame s0 s) :
    NavFrame s0 (slideClassListAdd s i).state := by
  unfold slideClassListAdd
  split <;> exact h

theorem navFrame_dotClassListRemove (s0 s : State) (i : Int) (h : NavFrame s0 s) :
    NavFrame s0 (dotClassListRemove s i).state := by
  unfold dotClassListRemove
  split <;> exact h

theorem navFrame_dotClassListAdd (s0 s : State) (i : Int) (h : NavFrame s0 s) :
    NavFrame s0 (dotClassListAdd s i).state := by
  unfold dotClassListAdd
  split <;> exact h

theorem navFrame_dotSetAriaSelected (s0 s : State) (i : Int) (v : String)
    (h : NavFrame s0 s) : NavFrame s0 (dotSetAriaSelected s i v).state := by
  unfold dotSetAriaSelected
  split <;> exact h

theorem navFrame_announceSlideChange (s0 s : State) (h : NavFrame s0 s) :
    NavFrame s0 (announceSlideChange s).state := by
  unfold announceSlideChange
  dsimp only
  split <;> exact h

theorem navFrame_goToSlide (s : State) (index : Int) :
    NavFrame s (goToSlide s index).state := by
  unfold goToSlide
  split
  · exact navFrame_refl s
  · dsimp only
    apply navFrame_andThen _ _ _ (navFrame_slideClassListRemove s s _ (navFrame_refl s))
    intro s1 h1
    apply navFrame_andThen _ _ _ (navFrame_slideClassListAdd s s1 _ h1)
    intro s2 h2
    apply navFrame_andThen _ _ _ (navFrame_dotClassListRemove s s2 _ h2)
    intro s3 h3
    apply navFrame_andThen _ _ _ (navFrame_dotSetAriaSelected s s3 _ _ h3)
    intro s4 h4
    apply navFrame_andThen _ _ _ (navFrame_dotClassListAdd s s4 _ h4)
    intro s5 h5
    apply navFrame_andThen _ _ _ (navFrame_dotSetAriaSelected s s5 _ _ h5)
    intro s6 h6
    exact navFrame_announceSlideChange s _ h6

theorem navFrame_nextSlide (s : State) : NavFrame s (nextSlide s).state :=
  navFrame_goToSlide s _

theorem navFrame_previousSlide (s : State) : NavFrame s (previousSlide s).state :=
  navFrame_goToSlide s _

theorem sameTimers_of_navFrame (s s' : State) (h : NavFrame s s') : SameTimers s s' :=
  ⟨h.2.1, h.2.2.2.2.2.2.2.1, h.2.2.2.2.2.2.2.2⟩

/-! ## The interval timers -/

theorem sameTimers_refl (s : State) : SameTimers s s := ⟨rfl, rfl, rfl⟩

theorem sameTimers_resumeAutoplay (s : State) : SameTimers s (resumeAutoplay s).state := by
  unfold resumeAutoplay
  split <;> exact sameTimers_refl s

theorem sameTimers_toggleAutoplay (s : State) : SameTimers s (toggleAutoplay s).state := by
  unfold toggleAutoplay
  dsimp only
  split <;> exact sameTimers_refl s

theorem sameTimers_handleKeyboard (s : State) (e : KeyEvent) :
    SameTimers s (handleKeyboard s e).1.state := by
  unfold handleKeyboard
  split
  · exact sameTimers_of_navFrame _ _ (navFrame_previousSlide s)
  · split
    · exact sameTimers_of_navFrame _ _ (navFrame_nextSlide s)
    · split
      · split
        · exact sameTimers_toggleAutoplay s
        · exact sameTimers_refl s
      · split
        · exact sameTimers_of_navFrame _ _ (navFrame_goToSlide s _)
        · split
          · exact sameTimers_of_navFrame _ _ (navFrame_goToSlide s _)
          · exact sameTimers_refl s

theorem sameTimers_autoplayTick (s : State) : SameTimers s (autoplayTick s).state := by
  unfold autoplayTick
  split
  · exact sameTimers_of_navFrame _ _ (navFrame_nextSlide s)
  · exact sameTimers_refl s

theorem sameTimers_onTouchEnd (s : State) (x : Int) :
    SameTimers s (onTouchEnd s x).state := by
  unfold onTouchEnd
  dsimp only
  split
  · split
    · exact sameTimers_of_navFrame { s with endX := x } _ (navFrame_nextSlide _)
    · exact sameTimers_of_navFrame { s with endX := x } _ (navFrame_previousSlide _)
  · exact sameTimers_refl s

theorem sameTimers_dispatch (s : State) (e : Event) : SameTimers s (dispatch s e).state := by
  cases e with
  | prevClick => exact sameTimers_of_navFrame _ _ (navFrame_previousSlide s)
  | nextClick => exact sameTimers_of_navFrame _ _ (navFrame_nextSlide s)
  | dotClick index =>
    simp only [dispatch]
    split
    · exact sameTimers_of_navFrame _ _ (navFrame_goToSlide s _)
    · exact sameTimers_refl s
  | mouseEnter => exact sameTimers_refl s
  | mouseLeave => exact sameTimers_resumeAutoplay s
  | keydown e => exact sameTimers_handleKeyboard s e
  | touchStart x => exact sameTimers_refl s
  | touchEnd x => exact sameTimers_onTouchEnd s x
  | visibilityChange hidden =>
    simp only [dispatch, onVisibilityChange]
    split
    · exact sameTimers_refl s
    · split
      · exact sameTimers_resumeAutoplay s
      · exact sameTimers_refl s
  | timer handle =>
    simp only [dispatch]
    split
    · exact sameTimers_autoplayTick s
    · exact sameTimers_refl s

theorem timerInvariant_of_sameTimers (s s' : State) (h : SameTimers s s')
    (hinv : TimerInvariant s) : TimerInvariant s' := by
  unfold TimerInvariant at *
  rw [h.1, h.2.1, h.2.2]
  exact hinv

theorem clearHandle_timers (s : State) (hinv : TimerInvariant s) :
    (match s.autoplayInterval with
      | some h => if handleTruthy (some h) then clearInterval s h else s
      | none => s).liveTimers = [] ∧
    (match s.autoplayInterval with
      | some h => if handleTruthy (some h) then clearInterval s h else s
      | none => s).nextTimerId = s.nextTimerId := by
  obtain ⟨_, _, hcase⟩ := hinv
  cases hai : s.autoplayInterval with
  | none =>
    rw [hai] at hcase
    rcases hcase with h | ⟨h, _⟩
    · exact ⟨h, rfl⟩
    · exact absurd h (by decide)
  | some a =>
    rw [hai] at hcase
    rcases hcase with h | ⟨htruthy, hlist⟩
    · dsimp only
      split
      · exact ⟨by simp [clearInterval, h], rfl⟩
      · exact ⟨h, rfl⟩
    · have hl : s.liveTimers = [a] := by
        cases hlt : s.liveTimers with
        | nil => rw [hlt] at hlist; simp at hlist
        | cons b rest =>
          rw [hlt] at hlist
          simp only [List.map_cons, List.cons.injEq, Option.some.injEq, List.map_eq_nil_iff]
            at hlist
          rw [hlist.1, hlist.2]
      dsimp only
      rw [if_pos htruthy]
      exact ⟨by simp [clearInterval, hl], rfl⟩

theorem startAutoplay_spec (s : State) (hinv : TimerInvariant s) :
    (startAutoplay s).threw = none ∧
    (startAutoplay s).state.liveTimers = [s.nextTimerId] ∧
    (startAutoplay s).state.autoplayInterval = some s.nextTimerId ∧
    (startAutoplay s).state.nextTimerId = s.nextTimerId + 1 ∧
    TimerInvariant (startAutoplay s).state := by
  obtain ⟨h1, h2⟩ := clearHandle_timers s hinv
  have hpos := hinv.1
  have hl : (startAutoplay s).state.liveTimers = [s.nextTimerId] := by
    simp only [startAutoplay, setInterval, Result.ok, h1, h2, List.nil_append]
  have ha : (startAutoplay s).state.autoplayInterval = some s.nextTimerId := by
    simp only [startAutoplay, setInterval, Result.ok, h2]
  have hn : (startAutoplay s).state.nextTimerId = s.nextTimerId + 1 := by
    simp only [startAutoplay, setInterval, Result.ok, h2]
  refine ⟨rfl, hl, ha, hn, ?_⟩
  unfold TimerInvariant
  rw [hl, ha, hn]
  refine ⟨by omega, ?_, Or.inr ⟨?_, rfl⟩⟩
  · intro h hh
    simp only [List.mem_singleton] at hh
    omega
  · simp only [handleTruthy, bne_iff_ne, ne_eq]
    omega

theorem destroy_spec (s : State) (hinv : TimerInvariant s) :
    (destroy s).threw = none ∧ (destroy s).state.liveTimers = [] ∧
    (destroy s).state.nextTimerId = s.nextTimerId ∧ TimerInvariant (destroy s).state := by
  obtain ⟨h1, h2⟩ := clearHandle_timers s hinv
  have hpos := hinv.1
  have hthrew : (destroy s).threw = none := by
    unfold destroy
    dsimp only
    split <;> rfl
  have hl : (destroy s).state.liveTimers = [] := by
    unfold destroy
    dsimp only
    split <;> exact h1
  have hn : (destroy s).state.nextTimerId = s.nextTimerId := by
    unfold destroy
    dsimp only
    split <;> exact h2
  refine ⟨hthrew, hl, hn, ?_⟩
  unfold TimerInvariant
  rw [hl, hn]
  exact ⟨hpos, by simp, Or.inl rfl⟩

theorem timerInvariant_run (s : State) (hinv : TimerInvariant s) (st : Step) :
    TimerInvariant (st.run s).state := by
  cases st with
  | event e => exact timerInvariant_of_sameTimers s _ (sameTimers_dispatch s e) hinv
  | callNextSlide =>
    exact timerInvariant_of_sameTimers s _ (sameTimers_of_navFrame _ _ (navFrame_nextSlide s)) hinv
  | callPreviousSlide =>
    exact timerInvariant_of_sameTimers s _
      (sameTimers_of_navFrame _ _ (navFrame_previousSlide s)) hinv
  | callGoToSlide index =>
    exact timerInvariant_of_sameTimers s _
      (sameTimers_of_navFrame _ _ (navFrame_goToSlide s index)) hinv
  | callStartAutoplay => exact (startAutoplay_spec s hinv).2.2.2.2
  | callPauseAutoplay => exact timerInvariant_of_sameTimers s _ (sameTimers_refl s) hinv
  | callResumeAutoplay =>
    exact timerInvariant_of_sameTimers s _ (sameTimers_resumeAutoplay s) hinv
  | callToggleAutoplay =>
    exact timerInvariant_of_sameTimers s _ (sameTimers_toggleAutoplay s) hinv
  | callDestroy => exact (destroy_spec s hinv).2.2.2

theorem timerInvariant_runSteps (steps : List Step) (s : State) (hinv : TimerInvariant s) :
    TimerInvariant (runSteps s steps) := by
  induction steps generalizing s with
  | nil => exact hinv
  | cons st sts ih => exact ih (st.run s).state (timerInvariant_run s hinv st)

theorem timerInvariant_construct (data : List SlideData) :
    TimerInvariant (construct data).state := by
  rw [construct_state]
  simp [TimerInvariant, initialFields, handleTruthy]

theorem runEvents_liveTimers (events : List Event) (s : State) :
    (runEvents s events).liveTimers = s.liveTimers := by
  induction events generalizing s with
  | nil => rfl
  | cons e es ih =>
    show (runEvents (dispatch s e).state es).liveTimers = s.liveTimers
    rw [ih, (sameTimers_dispatch s e).2.1]

theorem callTimes_startAutoplay (s : State) (hinv : TimerInvariant s) (k : Nat) :
    TimerInvariant (callTimes startAutoplay k s) ∧
    (callTimes startAutoplay k s).nextTimerId = s.nextTimerId + k := by
  induction k with
  | zero => exact ⟨hinv, rfl⟩
  | succ k ih =>
    obtain ⟨hi, hn⟩ := ih
    obtain ⟨_, _, _, h4, h5⟩ := startAutoplay_spec _ hi
    refine ⟨h5, ?_⟩
    show (startAutoplay (callTimes startAutoplay k s)).state.nextTimerId = _
    rw [h4, hn]
    omega

/-! ## States that show the same slider -/

theorem agree_refl (s : State) : Agree s s := ⟨rfl, rfl, rfl, rfl, rfl⟩

theorem resultAgree_refl (r : Result) : ResultAgree r r := ⟨agree_refl r.state, rfl⟩

theorem agree_andThen (r q : Result) (f g : State → Result) (h : ResultAgree r q)
    (hfg : ∀ s1 t1, Agree s1 t1 → ResultAgree (f s1) (g t1)) :
    ResultAgree (r.andThen f) (q.andThen g) := by
  obtain ⟨hs, ht⟩ := h
  unfold Result.andThen
  rw [ht]
  cases hr : r.threw with
  | none => exact hfg _ _ hs
  | some err => exact ⟨hs, by rw [ht, hr]⟩

theorem agree_slideClassListRemove (s t : State) (i : Int) (h : Agree s t) :
    ResultAgree (slideClassListRemove s i) (slideClassListRemove t i) := by
  obtain ⟨h1, h2, h3, h4, h5⟩ := h
  unfold slideClassListRemove
  rw [h1]
  rcases hx : updateAt s.slides i (fun e => { e with active := false }) with _ | xs
  · exact ⟨⟨h1, h2, h3, h4, h5⟩, rfl⟩
  · exact ⟨⟨rfl, h2, h3, h4, h5⟩, rfl⟩

theorem agree_slideClassListAdd (s t : State) (i : Int) (h : Agree s t) :
    ResultAgree (slideClassListAdd s i) (slideClassListAdd t i) := by
  obtain ⟨h1, h2, h3, h4, h5⟩ := h
  unfold slideClassListAdd
  rw [h1]
  rcases hx : updateAt s.slides i (fun e => { e with active := true }) with _ | xs
  · exact ⟨⟨h1, h2, h3, h4, h5⟩, rfl⟩
  · exact ⟨⟨rfl, h2, h3, h4, h5⟩, rfl⟩

theorem agree_dotClassListRemove (s t : State) (i : Int) (h : Agree s t) :
    ResultAgree (dotClassListRemove s i) (dotClassListRemove t i) := by
  obtain ⟨h1, h2, h3, h4, h5⟩ := h
  unfold dotClassListRemove
  rw [h2]
  rcases hx : updateAt s.dots i (fun e => { e with active := false }) with _ | xs
  · exact ⟨⟨h1, h2, h3, h4, h5⟩, rfl⟩
  · exact ⟨⟨h1, rfl, h3, h4, h5⟩, rfl⟩

theorem agree_dotClassListAdd (s t : State) (i : Int) (h : Agree s t) :
    ResultAgree (dotClassListAdd s i) (dotClassListAdd t i) := by
  obtain ⟨h1, h2, h3, h4, h5⟩ := h
  unfold dotClassListAdd
  rw [h2]
  rcases hx : updateAt s.dots i (fun e => { e with active := true }) with _ | xs
  · exact ⟨⟨h1, h2, h3, h4, h5⟩, rfl⟩
  · exact ⟨⟨h1, rfl, h3, h4, h5⟩, rfl⟩

theorem agree_dotSetAriaSelected (s t : State) (i : Int) (v : String) (h : Agree s t) :
    ResultAgree (dotSetAriaSelected s i v) (dotSetAriaSelected t i v) := by
  obtain ⟨h1, h2, h3, h4, h5⟩ := h
  unfold dotSetAriaSelected
  rw [h2]
  rcases hx : updateAt s.dots i (fun e => { e with ariaSelected := v }) with _ | xs
  · exact ⟨⟨h1, h2, h3, h4, h5⟩, rfl⟩
  · exact ⟨⟨h1, rfl, h3, h4, h5⟩, rfl⟩

theorem agree_announceSlideChange (s t : State) (h : Agree s t) :
    ResultAgree (announceSlideChange s) (announceSlideChange t) := by
  unfold announceSlideChange
  dsimp only
  cases s.liveRegion <;> cases t.liveRegion <;> exact ⟨h, rfl⟩

theorem agree_goToSlide (s t : State) (index : Int) (h : Agree s t) :
    ResultAgree (goToSlide s index) (goToSlide t index) := by
  have hc : t.currentSlide = s.currentSlide := h.2.2.1
  unfold goToSlide
  rw [hc]
  by_cases hi : index = s.currentSlide
  · simp only [if_pos hi]
    exact ⟨h, rfl⟩
  · simp only [if_neg hi]
    apply agree_andThen _ _ _ _ (agree_slideClassListRemove s t _ h)
    intro s1 t1 h1
    apply agree_andThen _ _ _ _ (agree_slideClassListAdd s1 t1 _ h1)
    intro s2 t2 h2
    apply agree_andThen _ _ _ _ (agree_dotClassListRemove s2 t2 _ h2)
    intro s3 t3 h3
    apply agree_andThen _ _ _ _ (agree_dotSetAriaSelected s3 t3 _ _ h3)
    intro s4 t4 h4
    apply agree_andThen _ _ _ _ (agree_dotClassListAdd s4 t4 _ h4)
    intro s5 t5 h5
    apply agree_andThen _ _ _ _ (agree_dotSetAriaSelected s5 t5 _ _ h5)
    intro s6 t6 h6
    exact agree_announceSlideChange _ _ ⟨h6.1, h6.2.1, rfl, h6.2.2.2.1, h6.2.2.2.2⟩

theorem agree_slideCount (s t : State) (h : Agree s t) : slideCount t = slideCount s := by
  unfold slideCount
  rw [h.1]

theorem agree_nextSlide (s t : State) (h : Agree s t) :
    ResultAgree (nextSlide s) (nextSlide t) := by
  unfold nextSlide
  rw [agree_slideCount s t h, h.2.2.1]
  exact agree_goToSlide s t _ h

theorem agree_previousSlide (s t : State) (h : Agree s t) :
    ResultAgree (previousSlide s) (previousSlide t) := by
  unfold previousSlide
  rw [agree_slideCount s t h, h.2.2.1]
  exact agree_goToSlide s t _ h

theorem agree_pauseAutoplay (s t : State) (h : Agree s t) :
    ResultAgree (pauseAutoplay s) (pauseAutoplay t) :=
  ⟨⟨h.1, h.2.1, h.2.2.1, h.2.2.2.1, rfl⟩, rfl⟩

theorem agree_resumeAutoplay (s t : State) (h : Agree s t) :
    ResultAgree (resumeAutoplay s) (resumeAutoplay t) := by
  unfold resumeAutoplay
  rw [h.2.2.2.1]
  by_cases hp : s.isPlaying = true
  · simp only [if_pos hp]
    exact ⟨⟨h.1, h.2.1, h.2.2.1, rfl, rfl⟩, rfl⟩
  · simp only [if_neg hp]
    exact ⟨h, rfl⟩

theorem agree_toggleAutoplay (s t : State) (h : Agree s t) :
    ResultAgree (toggleAutoplay s) (toggleAutoplay t) := by
  obtain ⟨h1, h2, h3, h4, h5⟩ := h
  unfold toggleAutoplay
  dsimp only
  rw [h4]
  cases s.isPlaying
  · exact ⟨⟨h1, h2, h3, by simp [Result.typeError, h4], rfl⟩, rfl⟩
  · exact ⟨⟨h1, h2, h3, by simp [Result.typeError, h4], rfl⟩, rfl⟩

theorem agree_handleKeyboard (s t : State) (e : KeyEvent) (h : Agree s t) :
    ResultAgree (handleKeyboard s e).1 (handleKeyboard t e).1 := by
  unfold handleKeyboard
  by_cases h1 : e.key = "ArrowLeft"
  · simp only [if_pos h1]
    exact agree_previousSlide s t h
  · simp only [if_neg h1]
    by_cases h2 : e.key = "ArrowRight"
    · simp only [if_pos h2]
      exact agree_nextSlide s t h
    · simp only [if_neg h2]
      by_cases h3 : e.key = " " ∨ e.key = "Enter"
      · simp only [if_pos h3]
        cases e.targetIsPlayPause
        · exact ⟨h, rfl⟩
        · exact agree_toggleAutoplay s t h
      · simp only [if_neg h3]
        by_cases h4 : e.key = "Home"
        · simp only [if_pos h4]
          exact agree_goToSlide s t 0 h
        · simp only [if_neg h4]
          by_cases h5 : e.key = "End"
          · simp only [if_pos h5]
            rw [agree_slideCount s t h]
            exact agree_goToSlide s t _ h
          · simp only [if_neg h5]
            exact ⟨h, rfl⟩

theorem agree_onTouchEnd (s t : State) (x : Int) (h : Agree s t) (hx : t.startX = s.startX) :
    ResultAgree (onTouchEnd s x) (onTouchEnd t x) := by
  have h1 : Agree { s with endX := x } { t with endX := x } := h
  unfold onTouchEnd
  dsimp only
  rw [hx]
  by_cases ha : |s.startX - x| > threshold
  · simp only [if_pos ha]
    by_cases hb : s.startX - x > 0
    · simp only [if_pos hb]
      exact agree_nextSlide _ _ h1
    · simp only [if_neg hb]
      exact agree_previousSlide _ _ h1
  · simp only [if_neg ha]
    exact ⟨h, rfl⟩

theorem startX_dispatch (s : State) (e : Event) :
    (dispatch s e).state.startX
      = (match e with
        | Event.touchStart x => x
        | _ => s.startX) := by
  cases e with
  | prevClick => exact (navFrame_previousSlide s).2.2.2.2.2.1
  | nextClick => exact (navFrame_nextSlide s).2.2.2.2.2.1
  | dotClick index =>
    simp only [dispatch]
    split
    · exact (navFrame_goToSlide s _).2.2.2.2.2.1
    · rfl
  | mouseEnter => rfl
  | mouseLeave =>
    simp only [dispatch, resumeAutoplay]
    split <;> rfl
  | keydown e =>
    simp only [dispatch, handleKeyboard]
    split
    · exact (navFrame_previousSlide s).2.2.2.2.2.1
    · split
      · exact (navFrame_nextSlide s).2.2.2.2.2.1
      · split
        · split
          · simp only [toggleAutoplay]
            split <;> rfl
          · rfl
        · split
          · exact (navFrame_goToSlide s _).2.2.2.2.2.1
          · split
            · exact (navFrame_goToSlide s _).2.2.2.2.2.1
            · rfl
  | touchStart x => rfl
  | touchEnd x =>
    simp only [dispatch, onTouchEnd]
    split
    · split
      · exact (navFrame_nextSlide { s with endX := x }).2.2.2.2.2.1
      · exact (navFrame_previousSlide { s with endX := x }).2.2.2.2.2.1
    · rfl
  | visibilityChange hidden =>
    simp only [dispatch, onVisibilityChange, resumeAutoplay, pauseAutoplay]
    split
    · rfl
    · split
      · rfl
      · rfl
  | timer handle =>
    simp only [dispatch, autoplayTick]
    split
    · split
      · exact (navFrame_nextSlide s).2.2.2.2.2.1
      · rfl
    · rfl

theorem agree_dispatch (s t : State) (e : Event) (h : Agree s t) (hx : t.startX = s.startX)
    (hne : e.isTimer = false) :
    ResultAgree (dispatch s e) (dispatch t e) ∧
    (dispatch t e).state.startX = (dispatch s e).state.startX := by
  refine ⟨?_, by rw [startX_dispatch, startX_dispatch, hx]⟩
  cases e with
  | prevClick => exact agree_previousSlide s t h
  | nextClick => exact agree_nextSlide s t h
  | dotClick index =>
    simp only [dispatch]
    rw [h.2.1]
    by_cases hi : index < s.dots.length
    · simp only [if_pos hi]
      exact agree_goToSlide s t _ h
    · simp only [if_neg hi]
      exact ⟨h, rfl⟩
  | mouseEnter => exact agree_pauseAutoplay s t h
  | mouseLeave => exact agree_resumeAutoplay s t h
  | keydown e => exact agree_handleKeyboard s t e h
  | touchStart x => exact ⟨h, rfl⟩
  | touchEnd x => exact agree_onTouchEnd s t x h hx
  | visibilityChange hidden =>
    simp only [dispatch, onVisibilityChange]
    rw [h.2.2.2.1]
    cases hidden
    · cases hp : s.isPlaying
      · simp only [Bool.false_eq_true, if_false]
        exact ⟨h, rfl⟩
      · simp only [Bool.false_eq_true, if_false, if_true]
        exact agree_resumeAutoplay s t h
    · simp only [if_true]
      exact agree_pauseAutoplay s t h
  | timer handle => exact absurd hne (by simp [Event.isTimer])

theorem agree_runEvents (events : List Event) (s t : State) (h : Agree s t)
    (hx : t.startX = s.startX) (hne : ∀ e ∈ events, e.isTimer = false) :
    Agree (runEvents s events) (runEvents t events) := by
  induction events generalizing s t with
  | nil => exact h
  | cons e es ih =>
    obtain ⟨h1, h2⟩ := agree_dispatch s t e h hx (hne e (List.mem_cons_self e es))
    exact ih _ _ h1.1 h2 (fun x hx' => hne x (List.mem_cons_of_mem e hx'))

theorem agree_destroy (s : State) :
    Agree s (destroy s).state ∧ (destroy s).state.startX = s.startX := by
  have hc : Agree s (match s.autoplayInterval with
      | some h => if handleTruthy (some h) then clearInterval s h else s
      | none => s) ∧
    (match s.autoplayInterval with
      | some h => if handleTruthy (some h) then clearInterval s h else s
      | none => s).startX = s.startX := by
    split
    · split
      · exact ⟨agree_refl s, rfl⟩
      · exact ⟨agree_refl s, rfl⟩
    · exact ⟨agree_refl s, rfl⟩
  unfold destroy
  dsimp only
  split
  · exact hc
  · exact hc

/-! ## Out-of-range targets -/

theorem goToSlide_outOfRange_state (s : State) (index : Int)
    (hc0 : 0 ≤ s.currentSlide) (hcN : s.currentSlide < slideCount s)
    (hout : index < 0 ∨ slideCount s ≤ index) :
    goToSlide s index =
      Result.typeError { s with
        slides := List.modify (fun e => { e with active := false }) s.currentSlide.toNat s.slides
        domLog := s.domLog ++ [DomOp.slideClassRemove s.currentSlide] } := by
  unfold slideCount at hcN hout
  have hne : ¬ (index = s.currentSlide) := by omega
  have hcc : ((s.currentSlide.toNat : Nat) : Int) = s.currentSlide := Int.toNat_of_nonneg hc0
  have hrem := updateAt_natCast s.slides s.currentSlide.toNat
    (fun e => { e with active := false }) (by omega)
  rw [hcc] at hrem
  unfold goToSlide
  rw [if_neg hne]
  simp only [slideClassListRemove, hrem, andThen_ok, slideClassListAdd]
  rw [updateAt_eq_none _ index _ (by simpa using hout)]
  simp [Result.typeError, Result.andThen]

/-! ## What `destroy` releases -/

theorem destroy_threw (s : State) : (destroy s).threw = none := by
  unfold destroy
  dsimp only
  split <;> rfl

theorem destroy_liveRegion (s : State) : (destroy s).state.liveRegion = none := by
  unfold destroy
  dsimp only
  split
  · rfl
  · rename_i hnone
    exact hnone

theorem destroy_liveTimers (s : State) (h : Nat) (ha : s.autoplayInterval = some h)
    (h0 : h ≠ 0) :
    (destroy s).state.liveTimers = s.liveTimers.filter (fun t => t != h) := by
  have htruthy : handleTruthy (some h) = true := by
    simpa [handleTruthy] using h0
  unfold destroy
  rw [ha]
  dsimp only
  rw [if_pos htruthy]
  split <;> rfl

theorem destroy_domLog (s : State) :
    (destroy s).state.domLog
      = s.domLog ++ (match s.liveRegion with
          | some _ => [DomOp.liveRegionRemove]
          | none => []) := by
  cases ha : s.autoplayInterval with
  | none =>
    cases hl : s.liveRegion with
    | none => simp [destroy, ha, hl, Result.ok]
    | some text => simp [destroy, ha, hl, Result.ok]
  | some a =>
    by_cases htruthy : handleTruthy (some a) = true
    · cases hl : s.liveRegion with
      | none => simp [destroy, ha, hl, htruthy, clearInterval, Result.ok]
      | some text => simp [destroy, ha, hl, htruthy, clearInterval, Result.ok]
    · cases hl : s.liveRegion with
      | none => simp [destroy, ha, hl, htruthy, Result.ok]
      | some text => simp [destroy, ha, hl, htruthy, Result.ok]

/-! # Claims -/

/-- C1: on a slider with `n` slides (and as many dots) whose current index is
`i` with `0 ≤ i < n` (so `n ≥ 1`), `nextSlide()` returns without throwing and leaves
`currentSlide` equal to `(i + 1) mod n`. -/
theorem nextSlide_advances (s : State) (n : Nat) (i : Int)
    (hslides : s.slides.length = n) (hdots : s.dots.length = n)
    (hcur : s.currentSlide = i) (h0 : 0 ≤ i) (hlt : i < (n : Int)) :
    (nextSlide s).threw = none ∧
    (nextSlide s).state.currentSlide = (i + 1) % (n : Int) := by
  have hwf := wellFormed_of s n i hslides hdots hcur h0 hlt
  obtain ⟨h1, h2, _, _⟩ := nextSlide_spec s hwf
  refine ⟨h1, ?_⟩
  rw [h2, hcur]
  simp [slideCount, hslides]

/-- Witness of C1: the constructed three-slide slider, at index 0, moves to
index 1. -/
theorem nextSlide_advances_witness :
    (nextSlide heroSlider).threw = none ∧
    (nextSlide heroSlider).state.currentSlide = ((0 : Int) + 1) % ((3 : Nat) : Int) :=
  nextSlide_advances heroSlider 3 0 (by decide) (by decide) (by decide) (by decide)
    (by decide)

/-- C2: on a slider with `n` slides (and as many dots) whose current index is
`i` with `0 ≤ i < n` (so `n ≥ 1`), `previousSlide()` returns without throwing and leaves
`currentSlide` equal to `(i - 1 + n) mod n`; from index 0 that is `n - 1`. -/
theorem previousSlide_retreats (s : State) (n : Nat) (i : Int)
    (hslides : s.slides.length = n) (hdots : s.dots.length = n)
    (hcur : s.currentSlide = i) (h0 : 0 ≤ i) (hlt : i < (n : Int)) :
    (previousSlide s).threw = none ∧
    (previousSlide s).state.currentSlide = (i - 1 + (n : Int)) % (n : Int) ∧
    (i = 0 → (previousSlide s).state.currentSlide = (n : Int) - 1) := by
  have hwf := wellFormed_of s n i hslides hdots hcur h0 hlt
  obtain ⟨h1, h2, _, _⟩ := previousSlide_spec s hwf
  have h3 : (previousSlide s).state.currentSlide = (i - 1 + (n : Int)) % (n : Int) := by
    rw [h2, hcur]
    simp [slideCount, hslides]
  refine ⟨h1, h3, ?_⟩
  intro hi
  rw [h3, hi]
  apply Int.emod_eq_of_lt <;> omega

/-- Witness of C2: the constructed three-slide slider, at index 0, wraps to
index 2. -/
theorem previousSlide_retreats_witness :
    (previousSlide heroSlider).threw = none ∧
    (previousSlide heroSlider).state.currentSlide
      = ((0 : Int) - 1 + ((3 : Nat) : Int)) % ((3 : Nat) : Int) ∧
    ((0 : Int) = 0 → (previousSlide heroSlider).state.currentSlide = ((3 : Nat) : Int) - 1) :=
  previousSlide_retreats heroSlider 3 0 (by decide) (by decide) (by decide) (by decide)
    (by decide)

/-- C3: ring invariant.  On a slider with `n ≥ 1` slides (and as many dots) that
starts at `currentSlide = 0`, after any finite sequence of `nextSlide()` and
`previousSlide()` calls `currentSlide` is an integer with
`0 ≤ currentSlide < n`. -/
theorem ring_invariant (s : State) (n : Nat) (hn : 1 ≤ n)
    (hslides : s.slides.length = n) (hdots : s.dots.length = n)
    (hcur : s.currentSlide = 0) (calls : List NavCall) :
    0 ≤ (runNav s calls).currentSlide ∧ (runNav s calls).currentSlide < (n : Int) := by
  have hwf := wellFormed_of s n 0 hslides hdots hcur (le_refl 0) (by omega)
  obtain ⟨⟨_, h0, hN⟩, hcount⟩ := runNav_wellFormed calls s hwf
  refine ⟨h0, ?_⟩
  rw [hcount] at hN
  simpa [slideCount, hslides] using hN

/-- Witness of C3: the constructed three-slide slider after
`next, next, previous, next, next`. -/
theorem ring_invariant_witness :
    0 ≤ (runNav heroSlider [NavCall.next, NavCall.next, NavCall.previous, NavCall.next,
      NavCall.next]).currentSlide ∧
    (runNav heroSlider [NavCall.next, NavCall.next, NavCall.previous, NavCall.next,
      NavCall.next]).currentSlide < ((3 : Nat) : Int) :=
  ring_invariant heroSlider 3 (by decide) (by decide) (by decide) (by decide)
    [NavCall.next, NavCall.next, NavCall.previous, NavCall.next, NavCall.next]

/-- C4: round trip.  On a slider with `n` slides (and as many dots) whose
current index is `i` with `0 ≤ i < n` (so `n ≥ 1`), `n` calls of `nextSlide()` bring
`currentSlide` back to `i`, and so do `n` calls of `previousSlide()`. -/
theorem round_trip (s : State) (n : Nat) (i : Int)
    (hslides : s.slides.length = n) (hdots : s.dots.length = n)
    (hcur : s.currentSlide = i) (h0 : 0 ≤ i) (hlt : i < (n : Int)) :
    (callTimes nextSlide n s).currentSlide = i ∧
    (callTimes previousSlide n s).currentSlide = i := by
  have hwf := wellFormed_of s n i hslides hdots hcur h0 hlt
  have hcount : slideCount s = (n : Int) := by simp [slideCount, hslides]
  obtain ⟨_, _, hnext⟩ := callTimes_nextSlide s hwf n
  obtain ⟨_, _, hprev⟩ := callTimes_previousSlide s hwf n
  rw [hcount, hcur] at hnext hprev
  constructor
  · rw [hnext, Int.add_emod_self]
    exact Int.emod_eq_of_lt h0 hlt
  · rw [hprev, Int.emod_sub_cancel]
    exact Int.emod_eq_of_lt h0 hlt

/-- Witness of C4: three `nextSlide()` calls, and three `previousSlide()` calls,
on the constructed three-slide slider after one `nextSlide()`. -/
theorem round_trip_witness :
    (callTimes nextSlide 3 (nextSlide heroSlider).state).currentSlide = 1 ∧
    (callTimes previousSlide 3 (nextSlide heroSlider).state).currentSlide = 1 :=
  round_trip (nextSlide heroSlider).state 3 1 (by decide) (by decide) (by decide) (by decide)
    (by decide)

/-- C5: no-op idempotence.  In every slider state `goToSlide(currentSlide)`
returns without throwing and leaves the whole state as it was: `currentSlide`,
every slide and dot (active flags, `aria-selected`), the live region text, and
the log of document writes (no render, no announcement). -/
theorem goToSlide_current_noop (s : State) :
    (goToSlide s s.currentSlide).state = s ∧ (goToSlide s s.currentSlide).threw = none := by
  simp [goToSlide, Result.ok]

/-- C6: on a slider with `n` slides whose current index is in `[0, n)`,
`goToSlide(index)` with `index < 0` or `index ≥ n` throws (a `TypeError`) and
leaves `currentSlide` unchanged. -/
theorem goToSlide_outOfRange_fails (s : State) (index : Int)
    (hc0 : 0 ≤ s.currentSlide) (hcN : s.currentSlide < slideCount s)
    (hout : index < 0 ∨ slideCount s ≤ index) :
    (goToSlide s index).threw = some JsError.typeError ∧
    (goToSlide s index).state.currentSlide = s.currentSlide := by
  unfold slideCount at hcN hout
  have hne : ¬ (index = s.currentSlide) := by omega
  have hcc : ((s.currentSlide.toNat : Nat) : Int) = s.currentSlide := Int.toNat_of_nonneg hc0
  have hrem := updateAt_natCast s.slides s.currentSlide.toNat
    (fun e => { e with active := false }) (by omega)
  rw [hcc] at hrem
  unfold goToSlide
  rw [if_neg hne]
  simp only [slideClassListRemove, hrem, andThen_ok, slideClassListAdd]
  rw [updateAt_eq_none _ index _ (by simpa using hout)]
  simp [Result.typeError, Result.andThen]

/-- Witness of C6: `goToSlide(5)` on the constructed three-slide slider. -/
theorem goToSlide_outOfRange_fails_witness :
    (goToSlide heroSlider 5).threw = some JsError.typeError ∧
    (goToSlide heroSlider 5).state.currentSlide = heroSlider.currentSlide :=
  goToSlide_outOfRange_fails heroSlider 5 (by decide) (by decide) (by decide)

/-- C7: on a slider with `n` slides and `n` dots whose current index is in
`[0, n)`, `goToSlide(j)` with `0 ≤ j < n` and `j` not the current index returns
without throwing after making exactly the document writes of one render (the
six class and `aria-selected` writes of lines 180-187) followed by those of one
announcement; afterwards `currentSlide = j`, slide `j` and dot `j` are active
with dot `j` `aria-selected` `true`, the slide and dot that were current are
inactive with `aria-selected` `false`, and the live region reads
`Slide (j+1) of n`. -/
theorem goToSlide_transition (s : State) (n : Nat) (j : Int)
    (hslides : s.slides.length = n) (hdots : s.dots.length = n)
    (hc0 : 0 ≤ s.currentSlide) (hcN : s.currentSlide < (n : Int))
    (hj0 : 0 ≤ j) (hjN : j < (n : Int)) (hne : j ≠ s.currentSlide) :
    (goToSlide s j).threw = none ∧
    (goToSlide s j).state.domLog
      = s.domLog ++ (renderOps s.currentSlide j ++
          announceOps s.liveRegion ("Slide " ++ toString (j + 1) ++ " of " ++ toString n)) ∧
    (goToSlide s j).state.currentSlide = j ∧
    (nodeAt (goToSlide s j).state.slides j).map (fun e => e.active) = some true ∧
    (nodeAt (goToSlide s j).state.dots j).map (fun d => d.active) = some true ∧
    (nodeAt (goToSlide s j).state.dots j).map (fun d => d.ariaSelected) = some "true" ∧
    (nodeAt (goToSlide s j).state.slides s.currentSlide).map (fun e => e.active) = some false ∧
    (nodeAt (goToSlide s j).state.dots s.currentSlide).map (fun d => d.active) = some false ∧
    (nodeAt (goToSlide s j).state.dots s.currentSlide).map (fun d => d.ariaSelected)
      = some "false" ∧
    (goToSlide s j).state.liveRegion
      = some ("Slide " ++ toString (j + 1) ++ " of " ++ toString n) := by
  subst hslides
  obtain ⟨m, rfl⟩ := Int.eq_ofNat_of_zero_le hj0
  obtain ⟨c, hc⟩ := Int.eq_ofNat_of_zero_le hc0
  have hcn : c < s.slides.length := by omega
  have hmn : m < s.slides.length := by omega
  have hmc : m ≠ c := by
    intro h
    apply hne
    rw [hc, h]
  have hcm : c ≠ m := fun h => hmc h.symm
  rw [goToSlide_move s c m hc (by omega) (by omega) (by omega) hmc, hc]
  have hsc : c < s.slides.length := by omega
  have hsm : m < s.slides.length := by omega
  have hdc : c < s.dots.length := by omega
  have hdm : m < s.dots.length := by omega
  simp [Result.ok, movedTo, nodeAt_natCast, List.getElem?_modify, hcm, hmc,
    List.getElem?_eq_getElem, hsc, hsm, hdc, hdm]

/-- Witness of C7: `goToSlide(2)` on the constructed three-slide slider. -/
theorem goToSlide_transition_witness :
    (goToSlide heroSlider 2).threw = none ∧
    (goToSlide heroSlider 2).state.domLog
      = heroSlider.domLog ++ (renderOps heroSlider.currentSlide 2 ++
          announceOps heroSlider.liveRegion
            ("Slide " ++ toString ((2 : Int) + 1) ++ " of " ++ toString 3)) ∧
    (goToSlide heroSlider 2).state.currentSlide = 2 ∧
    (nodeAt (goToSlide heroSlider 2).state.slides 2).map (fun e => e.active) = some true ∧
    (nodeAt (goToSlide heroSlider 2).state.dots 2).map (fun d => d.active) = some true ∧
    (nodeAt (goToSlide heroSlider 2).state.dots 2).map (fun d => d.ariaSelected)
      = some "true" ∧
    (nodeAt (goToSlide heroSlider 2).state.slides heroSlider.currentSlide).map
      (fun e => e.active) = some false ∧
    (nodeAt (goToSlide heroSlider 2).state.dots heroSlider.currentSlide).map
      (fun d => d.active) = some false ∧
    (nodeAt (goToSlide heroSlider 2).state.dots heroSlider.currentSlide).map
      (fun d => d.ariaSelected) = some "false" ∧
    (goToSlide heroSlider 2).state.liveRegion
      = some ("Slide " ++ toString ((2 : Int) + 1) ++ " of " ++ toString 3) :=
  goToSlide_transition heroSlider 3 2 (by decide) (by decide) (by decide) (by decide)
    (by decide) (by decide) (by decide)

/-- C8: render invariant.  In every state reached from the construction of a
slider with at least one slide by any sequence of steps (listener events: prev,
next and dot clicks, hover, keys, touches, visibility changes, timer ticks;
direct method calls, with every direct `goToSlide` target in range), exactly one
slide is active, exactly one dot is active, exactly one dot has `aria-selected`
`true`, and they are the ones at position `currentSlide`. -/
theorem render_invariant (data : List SlideData) (hdata : data ≠ []) (steps : List Step)
    (hin : ∀ st ∈ steps, Step.InRange data.length st) :
    RenderInvariant (runSteps (construct data).state steps) := by
  obtain ⟨hr, hn⟩ := construct_rendered data hdata
  exact renderInvariant_of_rendered _ (runSteps_rendered steps _ data.length hr hn hin).1

/-- Witness of C8: the constructed three-slide slider after a next click, an
`End` key, a swipe right, a timer tick and `goToSlide(1)`. -/
theorem render_invariant_witness :
    RenderInvariant (runSteps (construct defaultSlidesData).state
      [Step.event Event.nextClick,
       Step.event (Event.keydown ⟨"End", false, false⟩),
       Step.event (Event.touchStart 10), Step.event (Event.touchEnd 90),
       Step.event (Event.timer 1), Step.callGoToSlide 1]) :=
  render_invariant defaultSlidesData (by decide) _ (by decide)

/-- C9: autoplay suspension.  After `pauseAutoplay()`, any number `k` of timer
ticks leave the state, and so `currentSlide`, unchanged.  If the slider is well
formed and `isPlaying` is true, then after the following `resumeAutoplay()`
every timer tick returns without throwing and advances `currentSlide` to
`(currentSlide + 1) mod N`. -/
theorem autoplay_suspension (s : State) (k : Nat) :
    callTimes autoplayTick k (pauseAutoplay s).state = (pauseAutoplay s).state ∧
    (callTimes autoplayTick k (pauseAutoplay s).state).currentSlide = s.currentSlide ∧
    (WellFormed s → s.isPlaying = true → ∀ m : Nat,
      (autoplayTick (callTimes autoplayTick m (pausedThenResumed s k))).threw = none ∧
      (callTimes autoplayTick (m + 1) (pausedThenResumed s k)).currentSlide
        = ((callTimes autoplayTick m (pausedThenResumed s k)).currentSlide + 1)
            % slideCount s) := by
  have hpaused : callTimes autoplayTick k (pauseAutoplay s).state = (pauseAutoplay s).state :=
    callTimes_autoplayTick_paused _ rfl k
  refine ⟨hpaused, by rw [hpaused]; rfl, ?_⟩
  intro hwf hplay m
  have hres : pausedThenResumed s k = { s with isPaused := false } := by
    unfold pausedThenResumed
    rw [hpaused]
    simp [resumeAutoplay, pauseAutoplay, Result.ok, hplay]
  have hwf' : WellFormed (pausedThenResumed s k) := by
    rw [hres]
    exact hwf
  have hp' : (pausedThenResumed s k).isPaused = false := by
    rw [hres]
  have hcount : slideCount (pausedThenResumed s k) = slideCount s := by
    rw [hres]
    rfl
  obtain ⟨hw, hq, hn⟩ := callTimes_autoplayTick_running _ hwf' hp' m
  have htick : autoplayTick (callTimes autoplayTick m (pausedThenResumed s k))
      = nextSlide (callTimes autoplayTick m (pausedThenResumed s k)) := by
    simp [autoplayTick, hq]
  obtain ⟨h1, h2, _, _⟩ := nextSlide_spec _ hw
  refine ⟨by rw [htick]; exact h1, ?_⟩
  show (autoplayTick (callTimes autoplayTick m (pausedThenResumed s k))).state.currentSlide = _
  rw [htick, h2, hn, hcount]

/-- Witness of C9: the constructed three-slide slider, paused for two ticks and
resumed; the second tick after the resume moves from index 1 to index 2. -/
theorem autoplay_suspension_witness :
    callTimes autoplayTick 2 (pauseAutoplay heroSlider).state = (pauseAutoplay heroSlider).state ∧
    WellFormed heroSlider ∧ heroSlider.isPlaying = true ∧
    (callTimes autoplayTick (1 + 1) (pausedThenResumed heroSlider 2)).currentSlide
      = ((callTimes autoplayTick 1 (pausedThenResumed heroSlider 2)).currentSlide + 1)
          % slideCount heroSlider :=
  ⟨(autoplay_suspension heroSlider 2).1, by decide, by decide,
    ((autoplay_suspension heroSlider 2).2.2 (by decide) (by decide) 1).2⟩

/-- C10: in every state reached from construction by any sequence of steps
(pause, resume, `toggleAutoplay`, hover, visibility, navigation, timer and the
other listener events and method calls), `isPlaying = false` implies
`isPaused = true`; so the timer callback, which tests `isPaused` alone, does
what `nextSlide()` does when `isPlaying && !isPaused` holds and leaves the state
unchanged otherwise, and a tick of a scheduled timer runs that callback. -/
theorem tick_gate (data : List SlideData) (steps : List Step) :
    ((runSteps (construct data).state steps).isPlaying = false →
      (runSteps (construct data).state steps).isPaused = true) ∧
    autoplayTick (runSteps (construct data).state steps)
      = (if ((runSteps (construct data).state steps).isPlaying
            && !(runSteps (construct data).state steps).isPaused) = true
          then nextSlide (runSteps (construct data).state steps)
          else Result.ok (runSteps (construct data).state steps)) ∧
    (∀ handle ∈ (runSteps (construct data).state steps).liveTimers,
      dispatch (runSteps (construct data).state steps) (Event.timer handle)
        = autoplayTick (runSteps (construct data).state steps)) := by
  have hinv := flagInvariant_runSteps steps _ (flagInvariant_construct data)
  refine ⟨hinv, autoplayTick_of_flagInvariant _ hinv, ?_⟩
  intro handle hmem
  simp [dispatch, hmem]

/-- Witness of C10: after `toggleAutoplay()` has switched autoplay off and the
pointer has left the container, the slider is still paused. -/
theorem tick_gate_witness :
    (runSteps (construct defaultSlidesData).state
      [Step.callToggleAutoplay, Step.event Event.mouseLeave]).isPaused = true :=
  (tick_gate defaultSlidesData [Step.callToggleAutoplay, Step.event Event.mouseLeave]).1
    (by decide)

/-- C13: keyboard mapping.  `handleKeyboard` runs `previousSlide()` for
`ArrowLeft`, `nextSlide()` for `ArrowRight`, `goToSlide(0)` for `Home` and
`goToSlide(N - 1)` for `End`, each after `preventDefault()` has been called on
the event; for any other key on a target that is not the play/pause affordance
it leaves the state and the event as they were. -/
theorem keyboard_mapping (s : State) (e : KeyEvent) :
    (e.key = "ArrowLeft" → handleKeyboard s e = (previousSlide s, e.preventDefault)) ∧
    (e.key = "ArrowRight" → handleKeyboard s e = (nextSlide s, e.preventDefault)) ∧
    (e.key = "Home" → handleKeyboard s e = (goToSlide s 0, e.preventDefault)) ∧
    (e.key = "End" → handleKeyboard s e = (goToSlide s (slideCount s - 1), e.preventDefault)) ∧
    e.preventDefault.defaultPrevented = true ∧
    (e.key ≠ "ArrowLeft" → e.key ≠ "ArrowRight" → e.key ≠ "Home" → e.key ≠ "End" →
      e.targetIsPlayPause = false → handleKeyboard s e = (Result.ok s, e)) := by
  refine ⟨?_, ?_, ?_, ?_, rfl, ?_⟩
  · intro h
    simp [handleKeyboard, h]
  · intro h
    simp [handleKeyboard, h]
  · intro h
    simp [handleKeyboard, h]
  · intro h
    simp [handleKeyboard, h]
  · intro h1 h2 h3 h4 h5
    simp [handleKeyboard, h1, h2, h3, h4, h5]

/-- Witness of C13: `ArrowLeft` and the key `a` on the constructed three-slide
slider. -/
theorem keyboard_mapping_witness :
    handleKeyboard heroSlider ⟨"ArrowLeft", false, false⟩
      = (previousSlide heroSlider, ⟨"ArrowLeft", false, true⟩) ∧
    handleKeyboard heroSlider ⟨"a", false, false⟩ = (Result.ok heroSlider, ⟨"a", false, false⟩) :=
  ⟨(keyboard_mapping heroSlider ⟨"ArrowLeft", false, false⟩).1 rfl,
    (keyboard_mapping heroSlider ⟨"a", false, false⟩).2.2.2.2.2 (by decide) (by decide)
      (by decide) (by decide) rfl⟩

/-- C14: `resumeAutoplay()` returns without throwing; when `isPlaying` is false
it leaves the whole state unchanged, and when `isPlaying` is true it sets
`isPaused` to false and changes nothing else. -/
theorem resumeAutoplay_gated (s : State) :
    (s.isPlaying = false → resumeAutoplay s = Result.ok s) ∧
    (s.isPlaying = true → resumeAutoplay s = Result.ok { s with isPaused := false }) := by
  constructor
  · intro h
    simp [resumeAutoplay, h]
  · intro h
    simp [resumeAutoplay, h]

/-- Witness of C14: the constructed slider, where autoplay is on, after a
pause. -/
theorem resumeAutoplay_gated_witness :
    resumeAutoplay (pauseAutoplay heroSlider).state
      = Result.ok { (pauseAutoplay heroSlider).state with isPaused := false } :=
  (resumeAutoplay_gated (pauseAutoplay heroSlider).state).2 (by decide)

/-- C15: `pauseAutoplay()` returns without throwing, sets `isPaused` to true and
changes nothing else: `currentSlide`, `isPlaying`, the handle stored in
`autoplayInterval` and the scheduled timers are as before. -/
theorem pauseAutoplay_keeps_timer (s : State) :
    pauseAutoplay s = Result.ok { s with isPaused := true } ∧
    (pauseAutoplay s).state.isPaused = true ∧
    (pauseAutoplay s).state.currentSlide = s.currentSlide ∧
    (pauseAutoplay s).state.isPlaying = s.isPlaying ∧
    (pauseAutoplay s).state.autoplayInterval = s.autoplayInterval ∧
    (pauseAutoplay s).state.liveTimers = s.liveTimers :=
  ⟨rfl, rfl, rfl, rfl, rfl, rfl⟩

/-- C16: hover and visibility channels.  A `mouseenter` event and a page-hidden
visibility change do what `pauseAutoplay()` does; a `mouseleave` event and a
page-visible visibility change set `isPaused` to false when `isPlaying` is true
and leave the state unchanged otherwise; none of the four changes
`currentSlide`. -/
theorem hover_visibility_channels (s : State) :
    dispatch s Event.mouseEnter = pauseAutoplay s ∧
    dispatch s (Event.visibilityChange true) = pauseAutoplay s ∧
    (s.isPlaying = true →
      dispatch s Event.mouseLeave = Result.ok { s with isPaused := false } ∧
      dispatch s (Event.visibilityChange false) = Result.ok { s with isPaused := false }) ∧
    (s.isPlaying = false →
      dispatch s Event.mouseLeave = Result.ok s ∧
      dispatch s (Event.visibilityChange false) = Result.ok s) ∧
    (dispatch s Event.mouseEnter).state.currentSlide = s.currentSlide ∧
    (dispatch s (Event.visibilityChange true)).state.currentSlide = s.currentSlide ∧
    (dispatch s Event.mouseLeave).state.currentSlide = s.currentSlide ∧
    (dispatch s (Event.visibilityChange false)).state.currentSlide = s.currentSlide := by
  refine ⟨rfl, rfl, ?_, ?_, rfl, rfl, ?_, ?_⟩
  · intro h
    simp [dispatch, onVisibilityChange, resumeAutoplay, h]
  · intro h
    simp [dispatch, onVisibilityChange, resumeAutoplay, h]
  · cases h : s.isPlaying <;> simp [dispatch, resumeAutoplay, h, Result.ok]
  · cases h : s.isPlaying <;> simp [dispatch, onVisibilityChange, resumeAutoplay, h, Result.ok]

/-- Witness of C16: the pointer leaves, and the page becomes visible, on the
constructed slider after a pause. -/
theorem hover_visibility_channels_witness :
    dispatch (pauseAutoplay heroSlider).state Event.mouseLeave
      = Result.ok { (pauseAutoplay heroSlider).state with isPaused := false } ∧
    dispatch (pauseAutoplay heroSlider).state (Event.visibilityChange false)
      = Result.ok { (pauseAutoplay heroSlider).state with isPaused := false } :=
  (hover_visibility_channels (pauseAutoplay heroSlider).state).2.2.1 (by decide)

/-- C19: `toggleAutoplay()` flips `isPlaying`, sets `isPaused` to the negation of
the new `isPlaying` and leaves `currentSlide` unchanged, but it does not
complete: reading `this.playPauseBtn.querySelector` throws a `TypeError` in
every state. -/
theorem toggleAutoplay_throws (s : State) :
    (toggleAutoplay s).threw = some JsError.typeError ∧
    (toggleAutoplay s).state.isPlaying = (!s.isPlaying) ∧
    (toggleAutoplay s).state.isPaused = (!(toggleAutoplay s).state.isPlaying) ∧
    (toggleAutoplay s).state.currentSlide = s.currentSlide := by
  unfold toggleAutoplay
  cases h : s.isPlaying <;> simp [h, Result.typeError]

/-- C11: restart semantics.  In a state where at most one timer is scheduled,
the one whose handle `autoplayInterval` stores, after `k ≥ 1` calls of
`startAutoplay()` exactly one timer is scheduled, its handle is the one stored
in `autoplayInterval` (the handle the last call obtained), and every timer that
was scheduled before the calls has been cancelled. -/
theorem restart_semantics (s : State) (hinv : TimerInvariant s) (k : Nat) (hk : 1 ≤ k) :
    (callTimes startAutoplay k s).liveTimers = [s.nextTimerId + (k - 1)] ∧
    (callTimes startAutoplay k s).autoplayInterval = some (s.nextTimerId + (k - 1)) ∧
    (callTimes startAutoplay k s).liveTimers.length = 1 ∧
    (∀ h ∈ s.liveTimers, h ∉ (callTimes startAutoplay k s).liveTimers) := by
  obtain ⟨j, rfl⟩ : ∃ j, k = j + 1 := ⟨k - 1, by omega⟩
  obtain ⟨hi, hn⟩ := callTimes_startAutoplay s hinv j
  obtain ⟨_, h2, h3, _, _⟩ := startAutoplay_spec _ hi
  have hl : (callTimes startAutoplay (j + 1) s).liveTimers = [s.nextTimerId + (j + 1 - 1)] := by
    show (startAutoplay (callTimes startAutoplay j s)).state.liveTimers = _
    rw [h2, hn]
    rfl
  have ha : (callTimes startAutoplay (j + 1) s).autoplayInterval
      = some (s.nextTimerId + (j + 1 - 1)) := by
    show (startAutoplay (callTimes startAutoplay j s)).state.autoplayInterval = _
    rw [h3, hn]
    rfl
  refine ⟨hl, ha, by rw [hl]; rfl, ?_⟩
  intro h hmem
  rw [hl]
  have hfresh := hinv.2.1 h hmem
  simp only [List.mem_singleton]
  omega

/-- Witness of C11: two more `startAutoplay()` calls on the constructed slider,
whose constructor made the first. -/
theorem restart_semantics_witness :
    (callTimes startAutoplay 2 heroSlider).liveTimers = [heroSlider.nextTimerId + (2 - 1)] ∧
    (callTimes startAutoplay 2 heroSlider).autoplayInterval
      = some (heroSlider.nextTimerId + (2 - 1)) ∧
    (callTimes startAutoplay 2 heroSlider).liveTimers.length = 1 ∧
    (∀ h ∈ heroSlider.liveTimers, h ∉ (callTimes startAutoplay 2 heroSlider).liveTimers) :=
  restart_semantics heroSlider (by decide) 2 (by decide)

/-- C12: swipe mapping.  For a touch that starts at `x0` and ends at `x1`, with
displacement `d = x1 - x0`: if `|d| ≤ 50` the listeners only record the two
coordinates and every other part of the state is unchanged; if `d < -50` the
`touchend` listener does what `nextSlide()` does, and if `d > 50` what
`previousSlide()` does, leaving the slides, dots, `currentSlide` and flags that
the method leaves when called without the touch. -/
theorem swipe_mapping (s : State) (x0 x1 : Int) :
    (|x1 - x0| ≤ 50 →
      onTouchEnd (onTouchStart s x0).state x1 = Result.ok { s with startX := x0, endX := x1 }) ∧
    (x1 - x0 < -50 →
      onTouchEnd (onTouchStart s x0).state x1 = nextSlide { s with startX := x0, endX := x1 } ∧
      ResultAgree (nextSlide s) (onTouchEnd (onTouchStart s x0).state x1)) ∧
    (50 < x1 - x0 →
      onTouchEnd (onTouchStart s x0).state x1
        = previousSlide { s with startX := x0, endX := x1 } ∧
      ResultAgree (previousSlide s) (onTouchEnd (onTouchStart s x0).state x1)) := by
  have hag : Agree s { s with startX := x0, endX := x1 } := agree_refl s
  refine ⟨?_, ?_, ?_⟩
  · intro h
    have hnot : ¬ (|x0 - x1| > threshold) := by
      rw [abs_sub_comm]
      unfold threshold
      omega
    simp only [onTouchEnd, onTouchStart, Result.ok, if_neg hnot]
  · intro h
    have habs : |x0 - x1| > threshold := by
      unfold threshold
      rw [abs_of_pos (by omega)]
      omega
    have hpos : x0 - x1 > 0 := by omega
    have heq : onTouchEnd (onTouchStart s x0).state x1
        = nextSlide { s with startX := x0, endX := x1 } := by
      simp only [onTouchEnd, onTouchStart, Result.ok, if_pos habs, if_pos hpos]
    exact ⟨heq, by rw [heq]; exact agree_nextSlide _ _ hag⟩
  · intro h
    have habs : |x0 - x1| > threshold := by
      unfold threshold
      rw [abs_of_neg (by omega)]
      omega
    have hneg : ¬ (x0 - x1 > 0) := by omega
    have heq : onTouchEnd (onTouchStart s x0).state x1
        = previousSlide { s with startX := x0, endX := x1 } := by
      simp only [onTouchEnd, onTouchStart, Result.ok, if_pos habs, if_neg hneg]
    exact ⟨heq, by rw [heq]; exact agree_previousSlide _ _ hag⟩

/-- Witness of C12: on the constructed slider a drag of exactly 50 px to the
left does not navigate, one of 51 px to the left does what `nextSlide()` does,
and one of 51 px to the right does what `previousSlide()` does. -/
theorem swipe_mapping_witness :
    onTouchEnd (onTouchStart heroSlider 200).state 150
      = Result.ok { heroSlider with startX := 200, endX := 150 } ∧
    ResultAgree (nextSlide heroSlider) (onTouchEnd (onTouchStart heroSlider 200).state 149) ∧
    ResultAgree (previousSlide heroSlider)
      (onTouchEnd (onTouchStart heroSlider 200).state 251) :=
  ⟨(swipe_mapping heroSlider 200 150).1 (by decide),
    ((swipe_mapping heroSlider 200 149).2.1 (by decide)).2,
    ((swipe_mapping heroSlider 200 251).2.2 (by decide)).2⟩

/-- C17: `destroy()` is terminal for ticks.  In every state reached from
construction by any sequence of steps, `destroy()` leaves no interval timer
scheduled; no event that follows schedules one, so the firing of any timer
handle after that changes nothing, `currentSlide` included. -/
theorem destroy_terminal (data : List SlideData) (steps : List Step) (events : List Event)
    (handle : Nat) :
    (destroy (runSteps (construct data).state steps)).state.liveTimers = [] ∧
    (runEvents (destroy (runSteps (construct data).state steps)).state events).liveTimers = [] ∧
    dispatch (runEvents (destroy (runSteps (construct data).state steps)).state events)
        (Event.timer handle)
      = Result.ok (runEvents (destroy (runSteps (construct data).state steps)).state events) := by
  have hinv := timerInvariant_runSteps steps _ (timerInvariant_construct data)
  obtain ⟨_, hl, _, _⟩ := destroy_spec _ hinv
  have hl' := runEvents_liveTimers events
    (destroy (runSteps (construct data).state steps)).state
  rw [hl] at hl'
  refine ⟨hl, hl', ?_⟩
  simp only [dispatch, hl', List.not_mem_nil, if_false]

/-- Counterexample to C18: after `destroy()` on the constructed slider a click
on the next control still moves `currentSlide` from 0 to 1, and a `mouseenter`
still sets `isPaused`. -/
theorem destroy_detaches_counterexample :
    (destroy heroSlider).state.currentSlide = 0 ∧
    (dispatch (destroy heroSlider).state Event.nextClick).state.currentSlide = 1 ∧
    (destroy heroSlider).state.isPaused = false ∧
    (dispatch (destroy heroSlider).state Event.mouseEnter).state.isPaused = true := by
  decide

/-- C18, amended: `destroy()` detaches no listener.  It returns without
throwing, cancels the autoplay timer (the timer whose handle `autoplayInterval`
stores is no longer scheduled, every other one still is) and removes the live
region (the document has none afterwards, and the removal is its only write);
it leaves the slides, the dots, `currentSlide`, `isPlaying` and `isPaused` as
they were, and after it every sequence of prev/next clicks, dot clicks, key,
touch, hover and visibility events changes them exactly as the same events
would have changed them without the `destroy()` call. -/
theorem destroy_keeps_listeners (s : State) (events : List Event)
    (hne : ∀ e ∈ events, e.isTimer = false) :
    (destroy s).threw = none ∧
    (∀ h : Nat, s.autoplayInterval = some h → h ≠ 0 →
      (destroy s).state.liveTimers = s.liveTimers.filter (fun t => t != h)) ∧
    (destroy s).state.liveRegion = none ∧
    (destroy s).state.domLog
      = s.domLog ++ (match s.liveRegion with
          | some _ => [DomOp.liveRegionRemove]
          | none => []) ∧
    Agree s (destroy s).state ∧
    Agree (runEvents s events) (runEvents (destroy s).state events) := by
  obtain ⟨hag, hx⟩ := agree_destroy s
  exact ⟨destroy_threw s, fun h ha h0 => destroy_liveTimers s h ha h0, destroy_liveRegion s,
    destroy_domLog s, hag, agree_runEvents events s _ hag hx hne⟩

/-- Witness of C18, amended: `destroy()` on the constructed slider after one
`nextSlide()`, which has made the live region and left timer 1 scheduled; then a
next click, a `mouseenter` and the `End` key. -/
theorem destroy_keeps_listeners_witness :
    (nextSlide heroSlider).state.liveRegion = some "Slide 2 of 3" ∧
    (nextSlide heroSlider).state.liveTimers = [1] ∧
    (destroy (nextSlide heroSlider).state).threw = none ∧
    (destroy (nextSlide heroSlider).state).state.liveTimers
      = (nextSlide heroSlider).state.liveTimers.filter (fun t => t != 1) ∧
    (destroy (nextSlide heroSlider).state).state.liveRegion = none ∧
    Agree (nextSlide heroSlider).state (destroy (nextSlide heroSlider).state).state ∧
    Agree
      (runEvents (nextSlide heroSlider).state
        [Event.nextClick, Event.mouseEnter, Event.keydown ⟨"End", false, false⟩])
      (runEvents (destroy (nextSlide heroSlider).state).state
        [Event.nextClick, Event.mouseEnter, Event.keydown ⟨"End", false, false⟩]) :=
  ⟨by decide, by decide,
    (destroy_keeps_listeners (nextSlide heroSlider).state
      [Event.nextClick, Event.mouseEnter, Event.keydown ⟨"End", false, false⟩]
      (by decide)).1,
    (destroy_keeps_listeners (nextSlide heroSlider).state
      [Event.nextClick, Event.mouseEnter, Event.keydown ⟨"End", false, false⟩]
      (by decide)).2.1 1 (by decide) (by decide),
    (destroy_keeps_listeners (nextSlide heroSlider).state
      [Event.nextClick, Event.mouseEnter, Event.keydown ⟨"End", false, false⟩]
      (by decide)).2.2.1,
    (destroy_keeps_listeners (nextSlide heroSlider).state
      [Event.nextClick, Event.mouseEnter, Event.keydown ⟨"End", false, false⟩]
      (by decide)).2.2.2.2.1,
    (destroy_keeps_listeners (nextSlide heroSlider).state
      [Event.nextClick, Event.mouseEnter, Event.keydown ⟨"End", false, false⟩]
      (by decide)).2.2.2.2.2⟩

/-- Counterexample to C20: with no element matching the container selector the
constructor throws nothing; it returns an object after a console warning. -/
theorem construction_fails_counterexample :
    (newHeroSlider false defaultSlidesData).threw = none ∧
    (newHeroSlider false defaultSlidesData).console
      = [ConsoleMsg.warn "Slider container not found"] := by
  decide

/-- C20, amended: when the container selector matches no element the
constructor raises no error: it writes the console warning
`Slider container not found` and returns, leaving an object whose `container`
is `null` and none of whose other fields has been assigned, so that no slider
structure is built and no timer is started. -/
theorem construction_warns (data : List SlideData) :
    newHeroSlider false data =
      { containerFound := false
        slider := none
        console := [ConsoleMsg.warn "Slider container not found"]
        threw := none } := rfl

/-- Counterexample to C26: `goToSlide(5)` on the constructed three-slide slider
throws, and the slide at `currentSlide`, active before the call, is no longer
active after it. -/
theorem goToSlide_atomic_counterexample :
    (goToSlide heroSlider 5).threw = some JsError.typeError ∧
    (nodeAt heroSlider.slides heroSlider.currentSlide).map (fun e => e.active) = some true ∧
    (nodeAt (goToSlide heroSlider 5).state.slides heroSlider.currentSlide).map
      (fun e => e.active) = some false ∧
    (goToSlide heroSlider 5).state ≠ heroSlider := by
  decide

/-- C26, amended: on a slider whose current index is in `[0, N)`,
`goToSlide(index)` with `index` outside `[0, N)` throws and leaves unchanged
`currentSlide`, every dot (active flag and `aria-selected`), the live region,
the autoplay flags and timers, the number of slides and every slide other than
the one at `currentSlide`. -/
theorem goToSlide_outOfRange_frame (s : State) (index : Int)
    (hc0 : 0 ≤ s.currentSlide) (hcN : s.currentSlide < slideCount s)
    (hout : index < 0 ∨ slideCount s ≤ index) :
    (goToSlide s index).threw = some JsError.typeError ∧
    (goToSlide s index).state.currentSlide = s.currentSlide ∧
    (goToSlide s index).state.dots = s.dots ∧
    (goToSlide s index).state.liveRegion = s.liveRegion ∧
    NavFrame s (goToSlide s index).state ∧
    (goToSlide s index).state.slides.length = s.slides.length ∧
    (∀ k : Int, k ≠ s.currentSlide →
      nodeAt (goToSlide s index).state.slides k = nodeAt s.slides k) := by
  rw [goToSlide_outOfRange_state s index hc0 hcN hout]
  refine ⟨rfl, rfl, rfl, rfl, navFrame_refl s, by simp [Result.typeError], ?_⟩
  intro k hk
  by_cases hk0 : 0 ≤ k
  · have hne : s.currentSlide.toNat ≠ k.toNat := by omega
    simp [Result.typeError, nodeAt, hk0, List.getElem?_modify, hne]
  · simp [nodeAt, hk0]

/-- Witness of C26, amended: `goToSlide(5)` on the constructed three-slide
slider. -/
theorem goToSlide_outOfRange_frame_witness :
    (goToSlide heroSlider 5).threw = some JsError.typeError ∧
    (goToSlide heroSlider 5).state.currentSlide = heroSlider.currentSlide ∧
    (goToSlide heroSlider 5).state.dots = heroSlider.dots ∧
    (goToSlide heroSlider 5).state.liveRegion = heroSlider.liveRegion ∧
    NavFrame heroSlider (goToSlide heroSlider 5).state ∧
    (goToSlide heroSlider 5).state.slides.length = heroSlider.slides.length ∧
    (∀ k : Int, k ≠ heroSlider.currentSlide →
      nodeAt (goToSlide heroSlider 5).state.slides k = nodeAt heroSlider.slides k) :=
  goToSlide_outOfRange_frame heroSlider 5 (by decide) (by decide) (by decide)

end HeroSlider

namespace Shop

/-! # Lemmas on the shop -/

/-! ## Objects keyed by product id -/

theorem objGet_objSet_self {α : Type} (o : JsObject α) (k : Nat) (v : α) :
    objGet (objSet o k v) k = some v := by
  induction o with
  | nil => simp [objSet, objGet, List.lookup]
  | cons e rest ih =>
    obtain ⟨k', v'⟩ := e
    unfold objSet
    by_cases h1 : k < k'
    · simp [h1, objGet, List.lookup]
    · by_cases h2 : k = k'
      · simp [h1, h2, objGet, List.lookup]
      · have h3 : (k == k') = false := by simpa using h2
        simp only [h1, h2, if_false, objGet, List.lookup, h3]
        exact ih

theorem objGet_objSet_of_ne {α : Type} (o : JsObject α) (k j : Nat) (v : α) (hne : j ≠ k) :
    objGet (objSet o k v) j = objGet o j := by
  have hjk : (j == k) = false := by simpa using hne
  induction o with
  | nil => simp [objSet, objGet, List.lookup, hjk]
  | cons e rest ih =>
    obtain ⟨k', v'⟩ := e
    unfold objSet
    by_cases h1 : k < k'
    · simp [h1, objGet, List.lookup, hjk]
    · by_cases h2 : k = k'
      · subst h2
        simp [objGet, List.lookup, hjk]
      · simp only [h1, h2, if_false, objGet, List.lookup]
        cases hjk' : (j == k')
        · exact ih
        · rfl

theorem objDelete_cons_same {α : Type} (rest : JsObject α) (k : Nat) (v : α) :
    objDelete ((k, v) :: rest) k = objDelete rest k := by
  unfold objDelete
  exact List.filter_cons_of_neg (by simp)

theorem objDelete_cons_other {α : Type} (rest : JsObject α) (k k' : Nat) (v : α)
    (h : k' ≠ k) : objDelete ((k', v) :: rest) k = (k', v) :: objDelete rest k := by
  unfold objDelete
  exact List.filter_cons_of_pos (by simpa using h)

theorem objGet_cons {α : Type} (rest : JsObject α) (j k : Nat) (v : α) :
    objGet ((k, v) :: rest) j = if j = k then some v else objGet rest j := by
  unfold objGet
  by_cases h : j = k
  · subst h
    simp [List.lookup]
  · have hb : (j == k) = false := by simpa using h
    simp [List.lookup, hb, h]

theorem objGet_objDelete_self {α : Type} (o : JsObject α) (k : Nat) :
    objGet (objDelete o k) k = none := by
  induction o with
  | nil => rfl
  | cons e rest ih =>
    obtain ⟨k', v'⟩ := e
    by_cases h : k' = k
    · subst h
      rw [objDelete_cons_same]
      exact ih
    · rw [objDelete_cons_other _ _ _ _ h, objGet_cons, if_neg (fun h' => h h'.symm)]
      exact ih

theorem objGet_objDelete_of_ne {α : Type} (o : JsObject α) (k j : Nat) (hne : j ≠ k) :
    objGet (objDelete o k) j = objGet o j := by
  induction o with
  | nil => rfl
  | cons e rest ih =>
    obtain ⟨k', v'⟩ := e
    by_cases h : k' = k
    · subst h
      rw [objDelete_cons_same, objGet_cons, if_neg hne]
      exact ih
    · rw [objDelete_cons_other _ _ _ _ h, objGet_cons, objGet_cons, ih]

/-! ## The cart page -/

theorem updateQuantity_increase (s : CartPage) (productId : Nat) (q : Int)
    (hq : objGet s.cart productId = some q) (h1 : 1 ≤ q) (h10 : q < 10) :
    s.updateQuantity productId true =
      CartPage.updateNavbarCart
        (CartPage.saveCart { s with cart := objSet s.cart productId (q + 1) }) := by
  have ha : ¬ (q + 1 ≤ 0) := by omega
  have hb : q + 1 ≤ 10 := by omega
  simp [CartPage.updateQuantity, hq, ha, hb]

theorem updateQuantity_decrease (s : CartPage) (productId : Nat) (q : Int)
    (hq : objGet s.cart productId = some q) (h1 : 1 < q) (h10 : q ≤ 10) :
    s.updateQuantity productId false =
      CartPage.updateNavbarCart
        (CartPage.saveCart { s with cart := objSet s.cart productId (q - 1) }) := by
  have ha : ¬ (q - 1 ≤ 0) := by omega
  have hb : q - 1 ≤ 10 := by omega
  simp [CartPage.updateQuantity, hq, ha, hb]

theorem updateNavbarCart_cart (s : CartPage) : (CartPage.updateNavbarCart s).cart = s.cart := by
  unfold CartPage.updateNavbarCart
  split <;> rfl

theorem updateNavbarCart_storage (s : CartPage) :
    (CartPage.updateNavbarCart s).storage = s.storage := by
  unfold CartPage.updateNavbarCart
  split <;> rfl

theorem removeItem_known (s : CartPage) (productId : Nat) (product : Product)
    (hknown : objGet s.products productId = some product) :
    (s.removeItem productId).cart = objDelete s.cart productId ∧
    (s.removeItem productId).storage.topSportCart = some (objDelete s.cart productId) := by
  simp [CartPage.removeItem, hknown, CartPage.showNotification, updateNavbarCart_cart,
    updateNavbarCart_storage, CartPage.saveCart]

theorem removeItem_other (s : CartPage) (productId other : Nat) (hne : other ≠ productId) :
    objGet (s.removeItem productId).cart other = objGet s.cart other := by
  unfold CartPage.removeItem
  cases objGet s.products productId with
  | none => rfl
  | some product =>
    simp only [CartPage.showNotification, updateNavbarCart_cart, CartPage.saveCart]
    exact objGet_objDelete_of_ne _ _ _ hne

theorem updateQuantity_other (s : CartPage) (productId other : Nat) (increase : Bool)
    (hne : other ≠ productId) :
    objGet (s.updateQuantity productId increase).cart other = objGet s.cart other := by
  unfold CartPage.updateQuantity
  dsimp only
  by_cases h0 : (if increase = true then (objGet s.cart productId).getD 0 + 1
      else (objGet s.cart productId).getD 0 - 1) ≤ 0
  · rw [if_pos h0]
    exact removeItem_other s productId other hne
  · rw [if_neg h0]
    by_cases h10 : (if increase = true then (objGet s.cart productId).getD 0 + 1
        else (objGet s.cart productId).getD 0 - 1) ≤ 10
    · rw [if_pos h10]
      simp only [updateNavbarCart_cart, CartPage.saveCart]
      exact objGet_objSet_of_ne _ _ _ _ hne
    · rw [if_neg h10]

/-! ## Totals -/

theorem foldl_add_subtotal (items : List CartItem) (a : ℚ) :
    items.foldl (fun sum item => sum + item.subtotal) a
      = a + (items.map fun item => item.subtotal).sum := by
  induction items generalizing a with
  | nil => simp
  | cons item rest ih =>
    simp only [List.foldl_cons, List.map_cons, List.sum_cons]
    rw [ih]
    ring

theorem sumSubtotals_eq_sum (items : List CartItem) :
    sumSubtotals items = (items.map fun item => item.subtotal).sum := by
  unfold sumSubtotals
  rw [foldl_add_subtotal]
  ring

theorem getCartItems_subtotal (products : JsObject Product) (cart : JsObject Int) :
    ((cart.filterMap fun entry =>
        match objGet products entry.1 with
        | some product =>
          some ({ id := entry.1, product := product, quantity := entry.2,
                  subtotal := product.price * (entry.2 : ℚ) } : CartItem)
        | none => none).map fun item => item.subtotal).sum
      = specSubtotal products cart := by
  unfold specSubtotal
  induction cart with
  | nil => rfl
  | cons entry rest ih =>
    cases h : objGet products entry.1 with
    | none =>
      rw [List.filterMap_cons_none (by simp [h])]
      simp only [List.map_cons, List.sum_cons, h, zero_add]
      exact ih
    | some product =>
      rw [List.filterMap_cons_some
        (b := ({ id := entry.1, product := product, quantity := entry.2,
                 subtotal := product.price * (entry.2 : ℚ) } : CartItem)) (by simp [h])]
      simp only [List.map_cons, List.sum_cons, h]
      rw [ih]

theorem subtotal_eq_spec (s : CartPage) :
    sumSubtotals s.getCartItems = specSubtotal s.products s.cart := by
  rw [sumSubtotals_eq_sum]
  exact getCartItems_subtotal s.products s.cart

theorem mem_of_objGet {α : Type} (o : JsObject α) (k : Nat) (v : α)
    (h : objGet o k = some v) : (k, v) ∈ o := by
  induction o with
  | nil => simp [objGet, List.lookup] at h
  | cons e rest ih =>
    obtain ⟨k', v'⟩ := e
    rw [objGet_cons] at h
    by_cases hk : k = k'
    · rw [if_pos hk] at h
      simp only [Option.some.injEq] at h
      rw [hk, h]
      exact List.mem_cons_self _ _
    · rw [if_neg hk] at h
      exact List.mem_cons_of_mem _ (ih h)

theorem specSubtotal_nonneg (products : JsObject Product) (cart : JsObject Int)
    (hprice : ∀ e ∈ products, 0 ≤ e.2.price) (hqty : ∀ entry ∈ cart, 0 ≤ entry.2) :
    0 ≤ specSubtotal products cart := by
  unfold specSubtotal
  apply List.sum_nonneg
  intro x hx
  simp only [List.mem_map] at hx
  obtain ⟨entry, hmem, rfl⟩ := hx
  cases h : objGet products entry.1 with
  | none => simp
  | some product =>
    have hp : 0 ≤ product.price := hprice _ (mem_of_objGet products entry.1 product h)
    have hq : (0 : ℚ) ≤ (entry.2 : ℚ) := by exact_mod_cast hqty entry hmem
    simpa using mul_nonneg hp hq

theorem specSubtotal_filter_known (products : JsObject Product) (cart : JsObject Int) :
    specSubtotal products cart
      = specSubtotal products (cart.filter fun entry => (objGet products entry.1).isSome) := by
  unfold specSubtotal
  induction cart with
  | nil => rfl
  | cons entry rest ih =>
    cases h : objGet products entry.1 with
    | none =>
      rw [List.filter_cons_of_neg (by simp [h])]
      simp only [List.map_cons, List.sum_cons, h, zero_add]
      exact ih
    | some product =>
      rw [List.filter_cons_of_pos (by simp [h])]
      simp only [List.map_cons, List.sum_cons, h]
      rw [ih]

theorem completeOrder_states (s : CartPage) (orderNumber date : String) :
    (s.completeOrder orderNumber date).storage.topSportOrders
      = some (s.storage.topSportOrders.getD [] ++
          [{ orderNumber := orderNumber, items := s.getCartItems,
             total := sumSubtotals s.getCartItems, date := date, status := "confirmed" }]) := by
  simp [CartPage.completeOrder, updateNavbarCart_storage, CartPage.saveCart]

/-! ## Registration -/

theorem validateName_storage (p : AuthPage) (inputId value : String) :
    (p.validateName inputId value).1.storage = p.storage := by
  unfold AuthPage.validateName
  dsimp only
  split
  · rfl
  · split <;> rfl

theorem validateEmail_storage (p : AuthPage) (inputId value : String) :
    (p.validateEmail inputId value).1.storage = p.storage := by
  unfold AuthPage.validateEmail
  dsimp only
  split
  · rfl
  · split <;> rfl

theorem validatePassword_storage (p : AuthPage) (inputId value : String) :
    (p.validatePassword inputId value).1.storage = p.storage := by
  unfold AuthPage.validatePassword
  split
  · rfl
  · split <;> rfl

theorem validateConfirmPassword_storage (p : AuthPage) (password confirmPassword : String) :
    (p.validateConfirmPassword password confirmPassword).1.storage = p.storage := by
  unfold AuthPage.validateConfirmPassword
  split
  · rfl
  · split <;> rfl

theorem validated_storage (p : AuthPage) (form : RegisterForm) :
    ((((p.validateName "registerName" form.name).1.validateEmail "registerEmail"
        form.email).1.validatePassword "registerPassword"
        form.password).1.validateConfirmPassword form.password form.confirmPassword).1.storage
      = p.storage := by
  rw [validateConfirmPassword_storage, validatePassword_storage, validateEmail_storage,
    validateName_storage]

theorem any_email_iff (users : List User) (email : String) :
    (users.any fun u => u.email == email) = true ↔ email ∈ users.map fun u => u.email := by
  simp only [List.any_eq_true, beq_iff_eq, List.mem_map]

theorem handleRegister_storage (p : AuthPage) (form : RegisterForm)
    (registrationDate loginTime : String) :
    (p.handleRegister form registrationDate loginTime).storage = p.storage ∨
    (form.email ∉ storedEmails p.storage ∧
      storedEmails (p.handleRegister form registrationDate loginTime).storage
        = storedEmails p.storage ++ [form.email]) := by
  have hst := validated_storage p form
  unfold AuthPage.handleRegister
  dsimp only
  split
  · left
    exact hst
  · rw [hst]
    split
    · left
      exact hst
    · rename_i hany
      right
      have hnot : form.email ∉ storedEmails p.storage := by
        intro hmem
        exact hany ((any_email_iff _ _).mpr hmem)
      refine ⟨hnot, ?_⟩
      simp [storedEmails]

theorem handleRegister_existing (p : AuthPage) (form : RegisterForm)
    (registrationDate loginTime : String) (hmem : form.email ∈ storedEmails p.storage) :
    (p.handleRegister form registrationDate loginTime).storage = p.storage := by
  rcases handleRegister_storage p form registrationDate loginTime with h | ⟨hnot, _⟩
  · exact h
  · exact absurd hmem hnot

theorem handleRegister_nodup (p : AuthPage) (form : RegisterForm)
    (registrationDate loginTime : String) (hnodup : (storedEmails p.storage).Nodup) :
    (storedEmails (p.handleRegister form registrationDate loginTime).storage).Nodup := by
  rcases handleRegister_storage p form registrationDate loginTime with h | ⟨hnot, happ⟩
  · rw [h]
    exact hnodup
  · rw [happ]
    apply List.Nodup.append hnodup (List.nodup_singleton _)
    intro a ha hb
    rw [List.mem_singleton] at hb
    exact hnot (hb ▸ ha)

theorem register_nodup (calls : List Registration) (p : AuthPage)
    (hnodup : (storedEmails p.storage).Nodup) :
    (storedEmails (p.register calls).storage).Nodup := by
  induction calls generalizing p with
  | nil => exact hnodup
  | cons r rs ih =>
    exact ih _ (handleRegister_nodup p r.form r.registrationDate r.loginTime hnodup)

/-! ## The email regular expression -/

theorem mem_notSpaceAt (x : List EmailClass) :
    x ∈ notSpaceAt.matches' ↔ x = [EmailClass.dot] ∨ x = [EmailClass.other] := by
  unfold notSpaceAt
  rw [RegularExpression.matches'_add, Language.mem_add, RegularExpression.matches'_char,
    RegularExpression.matches'_char]
  exact Iff.rfl

theorem mem_star_notSpaceAt (x : List EmailClass) :
    x ∈ (RegularExpression.star notSpaceAt).matches' ↔
      ∀ c ∈ x, c = EmailClass.dot ∨ c = EmailClass.other := by
  rw [RegularExpression.matches'_star, Language.mem_kstar]
  constructor
  · rintro ⟨L, rfl, hL⟩ c hc
    rw [List.mem_flatten] at hc
    obtain ⟨y, hy, hcy⟩ := hc
    rcases (mem_notSpaceAt y).mp (hL y hy) with h | h
    · rw [h, List.mem_singleton] at hcy
      exact Or.inl hcy
    · rw [h, List.mem_singleton] at hcy
      exact Or.inr hcy
  · intro h
    refine ⟨x.map (fun c => [c]), ?_, ?_⟩
    · induction x with
      | nil => rfl
      | cons c rest ih =>
        simp only [List.map_cons, List.flatten_cons, List.singleton_append]
        rw [← ih (fun c hc => h c (List.mem_cons_of_mem _ hc))]
    · intro y hy
      rw [List.mem_map] at hy
      obtain ⟨c, hc, rfl⟩ := hy
      rw [mem_notSpaceAt]
      rcases h c hc with h1 | h1
      · exact Or.inl (by rw [h1])
      · exact Or.inr (by rw [h1])

theorem mem_oneOrMore_notSpaceAt (x : List EmailClass) :
    x ∈ (oneOrMore notSpaceAt).matches' ↔
      x ≠ [] ∧ ∀ c ∈ x, c = EmailClass.dot ∨ c = EmailClass.other := by
  unfold oneOrMore
  rw [RegularExpression.matches'_mul, Language.mem_mul]
  constructor
  · rintro ⟨a, ha, b, hb, rfl⟩
    rw [mem_star_notSpaceAt] at hb
    rw [mem_notSpaceAt] at ha
    constructor
    · rcases ha with h | h <;> simp [h]
    · intro c hc
      rw [List.mem_append] at hc
      rcases hc with hc | hc
      · rcases ha with h | h
        · rw [h, List.mem_singleton] at hc
          exact Or.inl hc
        · rw [h, List.mem_singleton] at hc
          exact Or.inr hc
      · exact hb c hc
  · rintro ⟨hne, hall⟩
    cases x with
    | nil => exact absurd rfl hne
    | cons c rest =>
      refine ⟨[c], ?_, rest, ?_, rfl⟩
      · rw [mem_notSpaceAt]
        rcases hall c (List.mem_cons_self _ _) with h | h
        · exact Or.inl (by rw [h])
        · exact Or.inr (by rw [h])
      · rw [mem_star_notSpaceAt]
        exact fun d hd => hall d (List.mem_cons_of_mem _ hd)

theorem mem_char (a : EmailClass) (x : List EmailClass) :
    x ∈ (RegularExpression.char a).matches' ↔ x = [a] := by
  rw [RegularExpression.matches'_char]
  exact Iff.rfl

theorem mem_emailRegex (x : List EmailClass) :
    x ∈ emailRegex.matches' ↔
      ∃ l a b : List EmailClass,
        x = l ++ EmailClass.at :: (a ++ EmailClass.dot :: b) ∧
        (l ≠ [] ∧ ∀ c ∈ l, c = EmailClass.dot ∨ c = EmailClass.other) ∧
        (a ≠ [] ∧ ∀ c ∈ a, c = EmailClass.dot ∨ c = EmailClass.other) ∧
        (b ≠ [] ∧ ∀ c ∈ b, c = EmailClass.dot ∨ c = EmailClass.other) := by
  unfold emailRegex
  simp only [RegularExpression.matches'_mul, Language.mem_mul, mem_char,
    mem_oneOrMore_notSpaceAt]
  constructor
  · rintro ⟨l, hl, y1, ⟨c1, hc1, y2, ⟨a, ha, y3, ⟨c2, hc2, b, hb, rfl⟩, rfl⟩, rfl⟩, rfl⟩
    subst hc1 hc2
    exact ⟨l, a, b, by simp, hl, ha, hb⟩
  · rintro ⟨l, a, b, rfl, hl, ha, hb⟩
    exact ⟨l, hl, _, ⟨[EmailClass.at], rfl, _, ⟨a, ha, _, ⟨[EmailClass.dot], rfl, b, hb, rfl⟩,
      rfl⟩, rfl⟩, by simp⟩

theorem classify_cases (c : Char) :
    (isWhiteSpace c = true ∧ classify c = EmailClass.space) ∨
    (isWhiteSpace c = false ∧ c = '@' ∧ classify c = EmailClass.at) ∨
    (isWhiteSpace c = false ∧ c ≠ '@' ∧ c = '.' ∧ classify c = EmailClass.dot) ∨
    (isWhiteSpace c = false ∧ c ≠ '@' ∧ c ≠ '.' ∧ classify c = EmailClass.other) := by
  unfold classify
  by_cases h1 : isWhiteSpace c = true
  · left
    exact ⟨h1, by rw [if_pos h1]⟩
  · have h1' : isWhiteSpace c = false := by simpa using h1
    right
    by_cases h2 : c = '@'
    · left
      exact ⟨h1', h2, by rw [if_neg h1, if_pos h2]⟩
    · right
      by_cases h3 : c = '.'
      · left
        exact ⟨h1', h2, h3, by rw [if_neg h1, if_neg h2, if_pos h3]⟩
      · right
        exact ⟨h1', h2, h3, by rw [if_neg h1, if_neg h2, if_neg h3]⟩

theorem classify_eq_at (c : Char) : classify c = EmailClass.at ↔ c = '@' := by
  constructor
  · intro h
    rcases classify_cases c with ⟨_, hc⟩ | ⟨_, h2, _⟩ | ⟨_, _, _, hc⟩ | ⟨_, _, _, hc⟩
    · rw [hc] at h; cases h
    · exact h2
    · rw [hc] at h; cases h
    · rw [hc] at h; cases h
  · intro h
    subst h
    decide

theorem classify_eq_dot (c : Char) : classify c = EmailClass.dot ↔ c = '.' := by
  constructor
  · intro h
    rcases classify_cases c with ⟨_, hc⟩ | ⟨_, _, hc⟩ | ⟨_, _, h3, _⟩ | ⟨_, _, _, hc⟩
    · rw [hc] at h; cases h
    · rw [hc] at h; cases h
    · exact h3
    · rw [hc] at h; cases h
  · intro h
    subst h
    decide

theorem classify_plain (c : Char) :
    (classify c = EmailClass.dot ∨ classify c = EmailClass.other) ↔
      (isWhiteSpace c = false ∧ c ≠ '@') := by
  rcases classify_cases c with ⟨h1, hc⟩ | ⟨h1, h2, hc⟩ | ⟨h1, h2, _, hc⟩ | ⟨h1, h2, _, hc⟩
  · rw [hc, h1]
    simp
  · rw [hc]
    simp [h2]
  · rw [hc]
    simp [h1, h2]
  · rw [hc]
    simp [h1, h2]

theorem plain_map (s : List Char) :
    (∀ c ∈ s.map classify, c = EmailClass.dot ∨ c = EmailClass.other) ↔
      ∀ c ∈ s, isWhiteSpace c = false ∧ c ≠ '@' := by
  constructor
  · intro h c hc
    exact (classify_plain c).mp (h _ (List.mem_map_of_mem classify hc))
  · intro h d hd
    rw [List.mem_map] at hd
    obtain ⟨c, hc, rfl⟩ := hd
    exact (classify_plain c).mpr (h c hc)

/-- The shape of a string the regular expression accepts: a non-empty local
part, `@`, and a domain made of two non-empty parts around a dot, none with
white space or `@`. -/
theorem validateEmail_iff_shape (s : String) :
    Utils.validateEmail s = true ↔
      ∃ l a b : List Char,
        s.toList = l ++ '@' :: (a ++ '.' :: b) ∧ l ≠ [] ∧ a ≠ [] ∧ b ≠ [] ∧
        (∀ c ∈ l, isWhiteSpace c = false ∧ c ≠ '@') ∧
        (∀ c ∈ a, isWhiteSpace c = false ∧ c ≠ '@') ∧
        (∀ c ∈ b, isWhiteSpace c = false ∧ c ≠ '@') := by
  unfold Utils.validateEmail
  rw [RegularExpression.rmatch_iff_matches', mem_emailRegex]
  constructor
  · rintro ⟨l, a, b, hx, ⟨hl, hlp⟩, ⟨ha, hap⟩, ⟨hb, hbp⟩⟩
    rw [List.map_eq_append_iff] at hx
    obtain ⟨l', r1, hs, hl', hr1⟩ := hx
    rw [List.map_eq_cons_iff] at hr1
    obtain ⟨c1, r2, rfl, hc1, hr2⟩ := hr1
    rw [List.map_eq_append_iff] at hr2
    obtain ⟨a', r3, rfl, ha', hr3⟩ := hr2
    rw [List.map_eq_cons_iff] at hr3
    obtain ⟨c2, b', rfl, hc2, hb'⟩ := hr3
    rw [classify_eq_at] at hc1
    rw [classify_eq_dot] at hc2
    subst hc1 hc2 hl' ha' hb'
    refine ⟨l', a', b', hs, ?_, ?_, ?_, (plain_map l').mp hlp, (plain_map a').mp hap,
      (plain_map b').mp hbp⟩
    · intro h
      exact hl (by rw [h]; rfl)
    · intro h
      exact ha (by rw [h]; rfl)
    · intro h
      exact hb (by rw [h]; rfl)
  · rintro ⟨l, a, b, hs, hl, ha, hb, hlp, hap, hbp⟩
    refine ⟨l.map classify, a.map classify, b.map classify, ?_, ⟨?_, (plain_map l).mpr hlp⟩,
      ⟨?_, (plain_map a).mpr hap⟩, ⟨?_, (plain_map b).mpr hbp⟩⟩
    · rw [hs]
      simp only [List.map_append, List.map_cons]
      rw [(classify_eq_at '@').mpr rfl, (classify_eq_dot '.').mpr rfl]
    · simpa using hl
    · simpa using ha
    · simpa using hb


end Shop

namespace Shop

/-! # Claims on the shop -/

/-- C21: `CartPageManager.updateQuantity` on a product of the catalog whose
quantity in the cart is `q` with `1 ≤ q ≤ 10`.  Increasing stores `q + 1` when
`q < 10` and changes nothing when `q = 10`; decreasing stores `q - 1` when
`q > 1` and removes the entry when `q = 1`; what is stored is written to
`localStorage` too, and the entry of any other product is never changed. -/
theorem updateQuantity_limit (s : CartPage) (productId : Nat) (product : Product) (q : Int)
    (hknown : objGet s.products productId = some product)
    (hq : objGet s.cart productId = some q) (h1 : 1 ≤ q) (h10 : q ≤ 10) :
    (q < 10 →
      objGet (s.updateQuantity productId true).cart productId = some (q + 1) ∧
      (s.updateQuantity productId true).storage.topSportCart
        = some (s.updateQuantity productId true).cart) ∧
    (q = 10 → s.updateQuantity productId true = s) ∧
    (1 < q →
      objGet (s.updateQuantity productId false).cart productId = some (q - 1) ∧
      (s.updateQuantity productId false).storage.topSportCart
        = some (s.updateQuantity productId false).cart) ∧
    (q = 1 →
      objGet (s.updateQuantity productId false).cart productId = none ∧
      (s.updateQuantity productId false).storage.topSportCart
        = some (s.updateQuantity productId false).cart) ∧
    (∀ (increase : Bool) (other : Nat), other ≠ productId →
      objGet (s.updateQuantity productId increase).cart other = objGet s.cart other) := by
  refine ⟨?_, ?_, ?_, ?_, ?_⟩
  · intro hlt
    rw [updateQuantity_increase s productId q hq h1 hlt, updateNavbarCart_cart,
      updateNavbarCart_storage]
    exact ⟨objGet_objSet_self _ _ _, rfl⟩
  · intro h
    subst h
    simp [CartPage.updateQuantity, hq]
  · intro hgt
    rw [updateQuantity_decrease s productId q hq hgt h10, updateNavbarCart_cart,
      updateNavbarCart_storage]
    exact ⟨objGet_objSet_self _ _ _, rfl⟩
  · intro h
    subst h
    have hrem : s.updateQuantity productId false = s.removeItem productId := by
      simp [CartPage.updateQuantity, hq]
    obtain ⟨hc, hs⟩ := removeItem_known s productId product hknown
    rw [hrem, hc, hs]
    exact ⟨objGet_objDelete_self _ _, rfl⟩
  · intro increase other hne
    exact updateQuantity_other s productId other increase hne

/-- Witness of C21: the sample page with three training balls and one jersey in
the cart; the quantity of the training ball is changed. -/
theorem updateQuantity_limit_witness :
    (objGet ((samplePage [(1, 3), (2, 1)]).updateQuantity 1 true).cart 1 = some (3 + 1) ∧
      ((samplePage [(1, 3), (2, 1)]).updateQuantity 1 true).storage.topSportCart
        = some ((samplePage [(1, 3), (2, 1)]).updateQuantity 1 true).cart) ∧
    (objGet ((samplePage [(1, 3), (2, 1)]).updateQuantity 1 false).cart 1 = some (3 - 1) ∧
      ((samplePage [(1, 3), (2, 1)]).updateQuantity 1 false).storage.topSportCart
        = some ((samplePage [(1, 3), (2, 1)]).updateQuantity 1 false).cart) :=
  ⟨(updateQuantity_limit (samplePage [(1, 3), (2, 1)]) 1
      { id := 1, name := "Training Ball", price := 25, inStock := true } 3
      (by decide) (by decide) (by decide) (by decide)).1 (by decide),
    (updateQuantity_limit (samplePage [(1, 3), (2, 1)]) 1
      { id := 1, name := "Training Ball", price := 25, inStock := true } 3
      (by decide) (by decide) (by decide) (by decide)).2.2.1 (by decide)⟩

/-- Counterexample to C22: with the stored cart `{1: -2}` on the sample catalog
the subtotal is -50, neither above 100 nor 0, and the summary charges 0 for
shipping, not 9.99. -/
theorem cart_summary_counterexample :
    (samplePage [(1, -2)]).updateCartSummary.subtotal = -50 ∧
    (samplePage [(1, -2)]).updateCartSummary.shipping = 0 ∧
    (samplePage [(1, -2)]).updateCartSummary.shipping
      ≠ (if (samplePage [(1, -2)]).updateCartSummary.subtotal > 100 ∨
            (samplePage [(1, -2)]).updateCartSummary.subtotal = 0 then 0
          else 9.99) := by
  have hsub : (samplePage [(1, -2)]).updateCartSummary.subtotal = -50 := by
    show sumSubtotals (samplePage [(1, -2)]).getCartItems = -50
    rw [subtotal_eq_spec]
    simp [specSubtotal, samplePage, CartPage.create, productsById, sampleCatalog, objSet,
      objGet, List.lookup]
    norm_num
  have hship : (samplePage [(1, -2)]).updateCartSummary.shipping = 0 := by
    show summaryShipping (samplePage [(1, -2)]).updateCartSummary.subtotal = 0
    rw [hsub]
    norm_num [summaryShipping]
  refine ⟨hsub, hship, ?_⟩
  rw [hship, hsub]
  norm_num

/-- C22, amended: cart summary arithmetic, in exact arithmetic, for every cart
and catalog.  `updateCartSummary` computes the subtotal as the sum of price
times quantity over the cart entries whose product is in the catalog, shipping
as 0 if the subtotal exceeds 100 or is at most 0 and as 9.99 otherwise, tax as
8% of the subtotal, and the total as subtotal + shipping + tax; entries of
unknown products contribute nothing. -/
theorem cart_summary_arithmetic (s : CartPage) :
    s.updateCartSummary.subtotal = specSubtotal s.products s.cart ∧
    s.updateCartSummary.shipping
      = (if s.updateCartSummary.subtotal > 100 ∨ s.updateCartSummary.subtotal ≤ 0 then 0
          else 9.99) ∧
    s.updateCartSummary.tax = 8 / 100 * s.updateCartSummary.subtotal ∧
    s.updateCartSummary.total
      = s.updateCartSummary.subtotal + s.updateCartSummary.shipping + s.updateCartSummary.tax ∧
    specSubtotal s.products s.cart
      = specSubtotal s.products (s.cart.filter fun entry => (objGet s.products entry.1).isSome) := by
  have hsub : s.updateCartSummary.subtotal = specSubtotal s.products s.cart :=
    subtotal_eq_spec s
  refine ⟨hsub, ?_, ?_, rfl, specSubtotal_filter_known _ _⟩
  · show summaryShipping s.updateCartSummary.subtotal = _
    unfold summaryShipping
    by_cases h100 : s.updateCartSummary.subtotal > 100
    · simp [h100]
    · by_cases h0 : s.updateCartSummary.subtotal ≤ 0
      · have hnpos : ¬ (s.updateCartSummary.subtotal > 0) := not_lt.mpr h0
        simp [h100, h0, hnpos]
      · have hpos : s.updateCartSummary.subtotal > 0 := not_le.mp h0
        simp [h100, h0, hpos]
  · show s.updateCartSummary.subtotal * 0.08 = _
    norm_num
    ring

/-- C23: `completeOrder` saves the order and clears the cart.  The stored order
list is the earlier list (empty when none was stored) with one order appended;
that order has status `confirmed`, the items `getCartItems()` gave for the cart,
and their subtotal as total; the cart is empty in memory and in
`localStorage`. -/
theorem completeOrder_saves (s : CartPage) (orderNumber date : String) :
    (s.completeOrder orderNumber date).storage.topSportOrders
      = some (s.storage.topSportOrders.getD [] ++
          [{ orderNumber := orderNumber, items := s.getCartItems,
             total := sumSubtotals s.getCartItems, date := date, status := "confirmed" }]) ∧
    (s.completeOrder orderNumber date).cart = [] ∧
    (s.completeOrder orderNumber date).storage.topSportCart = some [] := by
  simp [CartPage.completeOrder, updateNavbarCart_cart, updateNavbarCart_storage,
    CartPage.saveCart]

/-- C27 fails: starting from the empty cart, adding ten items of product 1 from the
product page twice stores the quantity 20 for it, in memory and in
`localStorage`. -/
theorem addToCart_exceeds_limit :
    objGet (((CartManager.create LocalStorage.empty).addToCart 1 10).addToCart 1 10).cart 1
      = some 20 ∧
    (((CartManager.create LocalStorage.empty).addToCart 1 10).addToCart 1 10).storage.topSportCart
      = some [(1, 20)] := by
  decide

/-- C28 fails: with four training balls at 25 the subtotal is exactly 100; the
summary charges 9.99 for shipping while the notice says
`You qualify for free shipping!`. -/
theorem free_shipping_message_at_100 :
    (samplePage [(1, 4)]).updateCartSummary.subtotal = 100 ∧
    (samplePage [(1, 4)]).updateCartSummary.shipping = 9.99 ∧
    (samplePage [(1, 4)]).updateCartSummary.message = ShippingMessage.freeShipping := by
  have hsub : sumSubtotals (samplePage [(1, 4)]).getCartItems = 100 := by
    rw [subtotal_eq_spec]
    simp [specSubtotal, samplePage, CartPage.create, productsById, sampleCatalog, objSet,
      objGet, List.lookup]
    norm_num
  refine ⟨hsub, ?_, ?_⟩
  · show summaryShipping (sumSubtotals (samplePage [(1, 4)]).getCartItems) = 9.99
    rw [hsub]
    norm_num [summaryShipping]
  · show updateShippingMessage (sumSubtotals (samplePage [(1, 4)]).getCartItems) = _
    rw [hsub]
    norm_num [updateShippingMessage]

/-- C29 fails: for one jersey at 50 the confirmation modal shows the total
50 + 9.99 + 4 = 63.99, and the order `completeOrder` stores has total 50. -/
theorem order_total_differs :
    ((samplePage [(2, 1)]).showCheckoutModal "confirm").modal
      = some (Modal.confirm (samplePage [(2, 1)]).getCartItems 50 9.99 4 63.99) ∧
    ((samplePage [(2, 1)]).completeOrder "TS123456789" "2025-01-01T00:00:00.000Z").storage.topSportOrders
      = some [{ orderNumber := "TS123456789", items := (samplePage [(2, 1)]).getCartItems,
                total := 50, date := "2025-01-01T00:00:00.000Z", status := "confirmed" }] := by
  have hsub : sumSubtotals (samplePage [(2, 1)]).getCartItems = 50 := by
    rw [subtotal_eq_spec]
    simp [specSubtotal, samplePage, CartPage.create, productsById, sampleCatalog, objSet,
      objGet, List.lookup]
  constructor
  · have hne : ¬ ("confirm" = "Please login to complete your order") := by decide
    simp only [CartPage.showCheckoutModal, hsub, if_neg hne]
    norm_num
  · rw [(completeOrder_states (samplePage [(2, 1)]) "TS123456789" "2025-01-01T00:00:00.000Z"),
      hsub]
    rfl

/-- C30 fails: starting from quantity 1, a `change` event on the quantity input
whose text is empty leaves the manager's quantity `NaN`, and later clicks on
plus and minus leave it `NaN`. -/
theorem quantity_becomes_nan :
    QuantityControl.initial.quantity = JsInt.num 1 ∧
    (QuantityControl.initial.run [QuantityEvent.change ""]).quantity = JsInt.nan ∧
    (QuantityControl.initial.run
      [QuantityEvent.change "", QuantityEvent.plusClick, QuantityEvent.minusClick]).quantity
      = JsInt.nan := by
  decide

/-- C25: registration rejects an existing account.  If the stored user list
already holds a user with the submitted email, `handleRegister` leaves
`localStorage` as it was, the stored user list and the current-user entry
included; and if the emails of the stored user list are pairwise distinct, they
are still pairwise distinct after any sequence of `handleRegister` calls. -/
theorem register_rejects_existing (p : AuthPage) :
    (∀ (form : RegisterForm) (registrationDate loginTime : String),
      form.email ∈ storedEmails p.storage →
      (p.handleRegister form registrationDate loginTime).storage = p.storage) ∧
    ((storedEmails p.storage).Nodup →
      ∀ calls : List Registration, (storedEmails (p.register calls).storage).Nodup) :=
  ⟨fun form registrationDate loginTime hmem =>
      handleRegister_existing p form registrationDate loginTime hmem,
    fun hnodup calls => register_nodup calls p hnodup⟩

/-- Witness of C25: on the sample page Bob cannot register with Ann's email,
and after Bob has registered twice with his own the stored emails are still
distinct. -/
theorem register_rejects_existing_witness :
    (sampleAuthPage.handleRegister
      { name := "Bob", email := "ann@example.com", password := "12345678",
        confirmPassword := "12345678" } "t1" "t2").storage = sampleAuthPage.storage ∧
    (storedEmails (sampleAuthPage.register
      [{ form := { name := "Bob", email := "bob@example.com", password := "12345678",
                   confirmPassword := "12345678" },
         registrationDate := "t1", loginTime := "t2" },
       { form := { name := "Bob", email := "bob@example.com", password := "12345678",
                   confirmPassword := "12345678" },
         registrationDate := "t3", loginTime := "t4" }]).storage).Nodup :=
  ⟨(register_rejects_existing sampleAuthPage).1 _ "t1" "t2" (by decide),
    (register_rejects_existing sampleAuthPage).2 (by decide) _⟩

/-- C24: `Utils.validateEmail(s)` returns true exactly when `s` has no
white-space character, has exactly one `@`, the part before the `@` is not
empty, and the part after it has a `.` that is neither its first nor its last
character; in particular it returns false for the empty string. -/
theorem validateEmail_spec (s : String) :
    (Utils.validateEmail s = true ↔
      (∀ c ∈ s.toList, isWhiteSpace c = false) ∧ s.toList.count '@' = 1 ∧
      ∃ before after : List Char, s.toList = before ++ '@' :: after ∧ before ≠ [] ∧
        ∃ i : Nat, 0 < i ∧ i + 1 < after.length ∧ after[i]? = some '.') ∧
    Utils.validateEmail "" = false := by
  refine ⟨?_, by decide⟩
  rw [validateEmail_iff_shape]
  constructor
  · rintro ⟨l, a, b, hs, hl, ha, hb, hlp, hap, hbp⟩
    have hatl : '@' ∉ l := fun h => (hlp _ h).2 rfl
    have hata : '@' ∉ a := fun h => (hap _ h).2 rfl
    have hatb : '@' ∉ b := fun h => (hbp _ h).2 rfl
    refine ⟨?_, ?_, l, a ++ '.' :: b, hs, hl, a.length, ?_, ?_, ?_⟩
    · intro c hc
      rw [hs] at hc
      simp only [List.mem_append, List.mem_cons] at hc
      rcases hc with h | h | h | h | h
      · exact (hlp c h).1
      · rw [h]; decide
      · exact (hap c h).1
      · rw [h]; decide
      · exact (hbp c h).1
    · rw [hs]
      simp only [List.count_append, List.count_cons, List.count_eq_zero_of_not_mem hatl,
        List.count_eq_zero_of_not_mem hata, List.count_eq_zero_of_not_mem hatb]
      decide
    · exact List.length_pos.mpr ha
    · have := List.length_pos.mpr hb
      simp only [List.length_append, List.length_cons]
      omega
    · rw [List.getElem?_append_right (le_refl _)]
      simp
  · rintro ⟨hws, hcount, before, after, hs, hbne, i, hi0, hi1, hget⟩
    rw [hs] at hcount
    simp only [List.count_append, List.count_cons, beq_self_eq_true, if_true] at hcount
    have hcb : List.count '@' before = 0 := by omega
    have hca : List.count '@' after = 0 := by omega
    have hatb : '@' ∉ before := List.count_eq_zero.mp hcb
    have hata : '@' ∉ after := List.count_eq_zero.mp hca
    have hilt : i < after.length := by omega
    have hdot : after[i] = '.' := by
      rw [List.getElem?_eq_getElem hilt] at hget
      exact Option.some.inj hget
    have hsplit : after = after.take i ++ '.' :: after.drop (i + 1) := by
      conv_lhs => rw [← List.take_append_drop i after, List.drop_eq_getElem_cons hilt, hdot]
    have hmem_after : ∀ c ∈ after, isWhiteSpace c = false ∧ c ≠ '@' := by
      intro c hc
      refine ⟨hws c ?_, fun h => hata (h ▸ hc)⟩
      rw [hs]
      exact List.mem_append_right _ (List.mem_cons_of_mem _ hc)
    refine ⟨before, after.take i, after.drop (i + 1), ?_, hbne, ?_, ?_, ?_, ?_, ?_⟩
    · rw [hs]
      congr 2
    · intro h
      have hlen := congrArg List.length h
      simp only [List.length_take, List.length_nil] at hlen
      omega
    · intro h
      have hlen := congrArg List.length h
      simp only [List.length_drop, List.length_nil] at hlen
      omega
    · intro c hc
      refine ⟨hws c ?_, fun h => hatb (h ▸ hc)⟩
      rw [hs]
      exact List.mem_append_left _ hc
    · intro c hc
      exact hmem_after c (List.mem_of_mem_take hc)
    · intro c hc
      exact hmem_after c (List.mem_of_mem_drop hc)

end Shop
